import Mathlib

/-!
IpxWrapper: the LP-to-IPX model transformation and the IPX status translation.

A shallow embedding of `src/ipm/IpxWrapper.h` (HiGHS):

* `fillInIpxData` — turns a general-form LP into the arrays handed to IPX
  (free rows dropped, one slack column per doubly-bounded row);
* `reportIpxSolveStatus`, `reportIpxIpmCrossoverStatus`, `solveLpIpx` — the
  translation of the status tuple IPX reports into a `HighsStatus` and a
  `HighsModelStatus`.

Conventions of the embedding.

* `std::vector<T>` is `List T`; `push_back` is `++ [x]`; `v[i] = x` is
  `List.set`; `resize` is `vresize`.
* A `for (int i = a; i < b; i++)` loop is a `List.foldl` over
  `List.range' a (b - a)` (`List.range b` when `a = 0`) whose state holds the
  variables the loop body writes.
* `double` is `Dbl`: a rational number or one of the two infinities.
  Not-a-number is not represented.
* `int` and `ipx::Int` values are `Int`; sizes and indices that the source
  uses as subscripts are `Nat`.
-/

namespace IpxWrapper

/-! ## Numbers -/

/-- The `double` values that are numbers: a finite value or `±∞`. Every finite
double is a rational, and the operations the wrapper applies to doubles
(comparison, copy, multiplication by `±1`) are exact on them. -/
inductive Dbl where
  | ninf
  | fin (q : ℚ)
  | pinf
deriving DecidableEq, Repr

namespace Dbl

instance : Inhabited Dbl := ⟨fin 0⟩

/-- `a < b` on doubles. -/
def lt : Dbl → Dbl → Bool
  | ninf, ninf => false
  | ninf, _ => true
  | fin _, ninf => false
  | fin a, fin b => decide (a < b)
  | fin _, pinf => true
  | pinf, _ => false

/-- `a > b` on doubles. -/
def gt (a b : Dbl) : Bool := lt b a

/-- Unary minus on doubles. -/
def neg : Dbl → Dbl
  | ninf => pinf
  | fin q => fin (-q)
  | pinf => ninf

end Dbl

/-- Modelled from the spec: `HIGHS_CONST_INF` of `lp_data/HConst.h`, which is
not under `src/`; the spec writes the absent bounds as `−∞` and `∞`. -/
def HIGHS_CONST_INF : Dbl := Dbl.pinf

/-- The C macro `INFINITY`. -/
def INFINITY : Dbl := Dbl.pinf

/-! ## Vectors -/

/-- The read `v[i]` of an element of a vector. Reading outside the vector is
undefined in C++; the embedding yields the default value there. Each theorem
below either puts the indices its statement depends on in range by hypothesis
or does not depend on the value read. -/
def vget {α : Type} [Inhabited α] (v : List α) (i : Nat) : α := v.getD i default

/-- The read `v[i]` of a `std::vector<int>` of row numbers where the source does
not keep `i` below `v.size()`: inside the vector it is the element; past its
end it is whatever `int` the memory holds at that offset, given by `past_end`. -/
def vreadPast (v : List Nat) (past_end : Nat → Int) (i : Nat) : Int :=
  if h : i < v.length then (v.get ⟨i, h⟩ : Int) else past_end i

/-- The call `v.resize(n)`: keeps the first `n` elements and value-initialises
the new ones. -/
def vresize {α : Type} [Inhabited α] (v : List α) (n : Nat) : List α :=
  v.take n ++ List.replicate (n - v.length) default

/-! ## The LP -/

/-- Modelled from the spec: `ObjSense` of `lp_data/HConst.h` (not under
`src/`): the optimisation sense, `+1` for minimise and `−1` otherwise. -/
inductive ObjSense where
  | MINIMIZE
  | MAXIMIZE
deriving DecidableEq, Repr

/-- The cast `(int)lp.sense_`. -/
def ObjSense.toInt : ObjSense → Int
  | MINIMIZE => 1
  | MAXIMIZE => -1

/-- The product `(int)lp.sense_ * x` of the sense and a double. -/
def senseTimes (sense : ObjSense) : Dbl → Dbl
  | Dbl.fin q => Dbl.fin ((sense.toInt : ℚ) * q)
  | Dbl.pinf => if sense = ObjSense.MINIMIZE then Dbl.pinf else Dbl.ninf
  | Dbl.ninf => if sense = ObjSense.MINIMIZE then Dbl.ninf else Dbl.pinf

/-- Modelled from the spec: the fields of `HighsLp` (`lp_data/HighsLp.h`, not
under `src/`) that the wrapper reads: column count, row count, sense, dense
cost vector, dense column and row bound pairs, and the sparse column-major
matrix (start, index and value arrays). -/
structure HighsLp where
  numCol_ : Nat
  numRow_ : Nat
  Astart_ : List Nat
  Aindex_ : List Nat
  Avalue_ : List Dbl
  colCost_ : List Dbl
  colLower_ : List Dbl
  colUpper_ : List Dbl
  rowLower_ : List Dbl
  rowUpper_ : List Dbl
  sense_ : ObjSense
deriving DecidableEq, Repr

/-- Modelled from the spec: `IpxStatus` of `ipm/IpxStatus.h` (not under
`src/`); `fillInIpxData` only ever returns `OK`. -/
inductive IpxStatus where
  | OK
  | Error
deriving DecidableEq, Repr

/-! ## fillInIpxData -/

/-- The test of lines 50–52: lower < upper, lower > −inf, upper < inf. -/
def isGeneralBounded (lower upper : Dbl) : Bool :=
  lower.lt upper && lower.gt HIGHS_CONST_INF.neg && upper.lt HIGHS_CONST_INF

/-- The test of lines 54–55: lower == −inf and upper == inf. -/
def isFreeRow (lower upper : Dbl) : Bool :=
  lower == HIGHS_CONST_INF.neg && upper == HIGHS_CONST_INF

/-- The test of lines 109–110 and 133–134: lower > −inf or upper < inf. -/
def hasBound (lower upper : Dbl) : Bool :=
  lower.gt HIGHS_CONST_INF.neg || upper.lt HIGHS_CONST_INF

/-- Body of the loop of lines 49–56; the state is
`(general_bounded_rows, free_rows)`. -/
def scanStep (lp : HighsLp) (st : List Nat × List Nat) (row : Nat) :
    List Nat × List Nat :=
  if isGeneralBounded (vget lp.rowLower_ row) (vget lp.rowUpper_ row) then
    (st.1 ++ [row], st.2)
  else if isFreeRow (vget lp.rowLower_ row) (vget lp.rowUpper_ row) then
    (st.1, st.2 ++ [row])
  else st

/-- The loop of lines 49–56. -/
def scanRows (lp : HighsLp) : List Nat × List Nat :=
  (List.range lp.numRow_).foldl (scanStep lp) ([], [])

/-- The local `general_bounded_rows` after line 56. -/
def general_bounded_rows (lp : HighsLp) : List Nat := (scanRows lp).1

/-- The local `free_rows` after line 56. -/
def free_rows (lp : HighsLp) : List Nat := (scanRows lp).2

/-- Body of the loop of lines 65–83; the state is `(rhs, constraint_type)`. -/
def rhsStep (lp : HighsLp) (st : List Dbl × List Char) (row : Nat) :
    List Dbl × List Char :=
  if (vget lp.rowLower_ row).gt HIGHS_CONST_INF.neg &&
      vget lp.rowUpper_ row == HIGHS_CONST_INF then
    (st.1 ++ [vget lp.rowLower_ row], st.2 ++ ['>'])
  else if vget lp.rowLower_ row == HIGHS_CONST_INF.neg &&
      (vget lp.rowUpper_ row).lt HIGHS_CONST_INF then
    (st.1 ++ [vget lp.rowUpper_ row], st.2 ++ ['<'])
  else if vget lp.rowLower_ row == vget lp.rowUpper_ row then
    (st.1 ++ [vget lp.rowUpper_ row], st.2 ++ ['='])
  else if (vget lp.rowLower_ row).gt HIGHS_CONST_INF.neg &&
      (vget lp.rowUpper_ row).lt HIGHS_CONST_INF then
    (st.1 ++ [Dbl.fin 0], st.2 ++ ['='])
  else st

/-- The loop of lines 65–83, started from the caller's buffers. -/
def rhsLoop (lp : HighsLp) (rhs : List Dbl) (constraint_type : List Char) :
    List Dbl × List Char :=
  (List.range lp.numRow_).foldl (rhsStep lp) (rhs, constraint_type)

/-- Body of the loop of lines 89–97; the state is
`(reduced_rowmap, counter, findex)`. The read `free_rows[findex]` is not
guarded by `findex < free_rows.size()`. -/
def rowmapStep (past_end : Nat → Int) (free : List Nat)
    (st : List Int × Int × Nat) (row : Nat) : List Int × Int × Nat :=
  if vreadPast free past_end st.2.2 = (row : Int) then
    (st.1, st.2.1, st.2.2 + 1)
  else
    (st.1.set row st.2.1, st.2.1 + 1, st.2.2)

/-- Lines 85–100 on a given `free_rows`: the local `reduced_rowmap`. -/
def buildRowmap (past_end : Nat → Int) (numRow : Nat) (free : List Nat) : List Int :=
  if free.length > 0 then
    ((List.range numRow).foldl (rowmapStep past_end free)
      (List.replicate numRow (-1), 0, 0)).1
  else
    (List.range numRow).foldl (fun m k => m.set k (k : Int)) (List.replicate numRow (-1))

/-- The local `reduced_rowmap` after line 100. -/
def reduced_rowmap (past_end : Nat → Int) (lp : HighsLp) : List Int :=
  buildRowmap past_end lp.numRow_ (free_rows lp)

/-- Body of the inner loop of lines 107–112 for column `col`. -/
def sizesStep (lp : HighsLp) (col : Nat) (sizes : List Int) (k : Nat) : List Int :=
  if hasBound (vget lp.rowLower_ (vget lp.Aindex_ k)) (vget lp.rowUpper_ (vget lp.Aindex_ k)) then
    sizes.set col (vget sizes col + 1)
  else sizes

/-- The loops of lines 106–112. -/
def sizesLoop (lp : HighsLp) (sizes : List Int) : List Int :=
  (List.range lp.numCol_).foldl
    (fun s col =>
      (List.range' (vget lp.Astart_ col)
        (vget lp.Astart_ (col + 1) - vget lp.Astart_ col)).foldl (sizesStep lp col) s)
    sizes

/-- Lines 115 and 120–129: the column starts. -/
def apLoop (lp : HighsLp) (num_col : Int) (sizes : List Int) (Ap : List Int) : List Int :=
  let Ap1 := (vresize Ap (num_col + 1).toNat).set 0 0
  let Ap2 := (List.range lp.numCol_).foldl
    (fun a col => a.set (col + 1) (vget a col + vget sizes col)) Ap1
  (List.range' lp.numCol_ (num_col.toNat - lp.numCol_)).foldl
    (fun a col => a.set (col + 1) (vget a col + 1)) Ap2

/-- Body of the loop of lines 131–138; the state is `(Ai, Ax)`. -/
def entryStep (lp : HighsLp) (rowmap : List Int) (st : List Int × List Dbl) (k : Nat) :
    List Int × List Dbl :=
  if hasBound (vget lp.rowLower_ (vget lp.Aindex_ k)) (vget lp.rowUpper_ (vget lp.Aindex_ k)) then
    (st.1 ++ [vget rowmap (vget lp.Aindex_ k)], st.2 ++ [vget lp.Avalue_ k])
  else st

/-- Body of the loop of lines 140–143; the state is `(Ai, Ax)`. -/
def slackEntryStep (gbr : List Nat) (st : List Int × List Dbl) (k : Nat) :
    List Int × List Dbl :=
  (st.1 ++ [((vget gbr k : Nat) : Int)], st.2 ++ [Dbl.fin (-1)])

/-- Body of the loop of lines 148–158; the state is `(col_lb, col_ub)`. -/
def colBoundStep (lp : HighsLp) (st : List Dbl × List Dbl) (col : Nat) :
    List Dbl × List Dbl :=
  (st.1.set col
      (if vget lp.colLower_ col == HIGHS_CONST_INF.neg then INFINITY.neg
       else vget lp.colLower_ col),
   st.2.set col
      (if vget lp.colUpper_ col == HIGHS_CONST_INF then INFINITY
       else vget lp.colUpper_ col))

/-- Body of the loop of lines 159–163; the state is `(col_lb, col_ub)`. -/
def slackBoundStep (lp : HighsLp) (gbr : List Nat) (st : List Dbl × List Dbl) (slack : Nat) :
    List Dbl × List Dbl :=
  (st.1.set (lp.numCol_ + slack) (vget lp.rowLower_ (vget gbr slack)),
   st.2.set (lp.numCol_ + slack) (vget lp.rowUpper_ (vget gbr slack)))

/-- What `fillInIpxData` leaves in its reference parameters, and its return
value. -/
structure IpxData where
  result : IpxStatus
  num_col : Int
  obj : List Dbl
  col_lb : List Dbl
  col_ub : List Dbl
  num_row : Int
  Ap : List Int
  Ai : List Int
  Ax : List Dbl
  rhs : List Dbl
  constraint_type : List Char
deriving DecidableEq, Repr

/-- The function `fillInIpxData` (lines 27–187). The vector arguments are the
contents of the caller's buffers on entry; `past_end` is the memory behind
`free_rows` (see `vreadPast`). -/
def fillInIpxData (past_end : Nat → Int) (lp : HighsLp)
    (obj col_lb col_ub : List Dbl) (Ap Ai : List Int) (Ax rhs : List Dbl)
    (constraint_type : List Char) : IpxData :=
  let num_col0 : Int := lp.numCol_
  let num_row0 : Int := lp.numRow_
  let gbr := general_bounded_rows lp
  let free := free_rows lp
  let num_slack : Nat := gbr.length
  let rt := rhsLoop lp rhs constraint_type
  let rowmap := reduced_rowmap past_end lp
  let num_row : Int := num_row0 - (free.length : Int)
  let num_col : Int := num_col0 + (num_slack : Int)
  let sizes := sizesLoop lp (List.replicate num_col.toNat 0)
  let nnz : Nat := lp.Aindex_.length
  let Ap1 := apLoop lp num_col sizes Ap
  let e1 := (List.range nnz).foldl (entryStep lp rowmap) (Ai, Ax)
  let e2 := (List.range num_slack).foldl (slackEntryStep gbr) e1
  let b0 : List Dbl × List Dbl := (vresize col_lb num_col.toNat, vresize col_ub num_col.toNat)
  let b1 := (List.range lp.numCol_).foldl (colBoundStep lp) b0
  let b2 := (List.range num_slack).foldl (slackBoundStep lp gbr) b1
  let obj1 := (List.range lp.numCol_).foldl
    (fun o col => o.set col (senseTimes lp.sense_ (vget lp.colCost_ col)))
    (vresize obj num_col.toNat)
  let obj2 := obj1 ++ List.replicate num_slack (Dbl.fin 0)
  { result := IpxStatus.OK
    num_col := num_col
    obj := obj2
    col_lb := b2.1
    col_ub := b2.2
    num_row := num_row
    Ap := Ap1
    Ai := e2.1
    Ax := e2.2
    rhs := rt.1
    constraint_type := rt.2 }

/-! ## Status translation -/

/-- Modelled from the spec: `HighsStatus` of `lp_data/HighsStatus.h` (not under
`src/`): the severity a call returns. -/
inductive HighsStatus where
  | OK
  | Warning
  | Error
deriving DecidableEq, Repr

/-- Modelled from the spec: `HighsModelStatus` of `lp_data/HConst.h` (not under
`src/`): the model-status enumeration produced to the caller; `NOTSET` is the
value `resetModelStatusAndSolutionParams` leaves. -/
inductive HighsModelStatus where
  | NOTSET
  | LOAD_ERROR
  | MODEL_ERROR
  | PRESOLVE_ERROR
  | SOLVE_ERROR
  | POSTSOLVE_ERROR
  | MODEL_EMPTY
  | PRIMAL_INFEASIBLE
  | PRIMAL_UNBOUNDED
  | OPTIMAL
  | REACHED_DUAL_OBJECTIVE_VALUE_UPPER_BOUND
  | REACHED_TIME_LIMIT
  | REACHED_ITERATION_LIMIT
deriving DecidableEq, Repr

/-- Modelled from the spec: `HighsMessageType` of `io/HighsIO.h` (not under
`src/`): the severity tag of a log message. -/
inductive HighsMessageType where
  | INFO
  | WARNING
  | ERROR
deriving DecidableEq, Repr

/-- One message written to the log file. -/
structure LogLine where
  type : HighsMessageType
  text : String
deriving DecidableEq, Repr

/-- Modelled from the spec: `HighsLogMessage` of `io/HighsIO.h` (not under
`src/`): appends one severity-tagged message to the log file. -/
def HighsLogMessage (logfile : List LogLine) (type : HighsMessageType) (text : String) :
    List LogLine :=
  logfile ++ [{ type := type, text := text }]

/-! Modelled from the spec: the status and error codes of
`ipm/ipx/include/ipx_status.h` (not under `src/`). The theorems use only that
the codes the wrapper compares with one another are pairwise distinct. -/

/-- Modelled from the spec: the solve status `solved` of `ipx_status.h`. -/
def IPX_STATUS_solved : Int := 1000
/-- Modelled from the spec: the solve status `stopped` of `ipx_status.h`. -/
def IPX_STATUS_stopped : Int := 1005
/-- Modelled from the spec: the solve status `invalid_input` of `ipx_status.h`. -/
def IPX_STATUS_invalid_input : Int := 1002
/-- Modelled from the spec: the solve status `out_of_memory` of `ipx_status.h`. -/
def IPX_STATUS_out_of_memory : Int := 1003
/-- Modelled from the spec: the solve status `internal_error` of `ipx_status.h`. -/
def IPX_STATUS_internal_error : Int := 1004
/-- Modelled from the spec: the sub-status `not_run` of `ipx_status.h`. -/
def IPX_STATUS_not_run : Int := 0
/-- Modelled from the spec: the sub-status `optimal` of `ipx_status.h`. -/
def IPX_STATUS_optimal : Int := 1
/-- Modelled from the spec: the sub-status `imprecise` of `ipx_status.h`. -/
def IPX_STATUS_imprecise : Int := 2
/-- Modelled from the spec: the sub-status `primal_infeas` of `ipx_status.h`. -/
def IPX_STATUS_primal_infeas : Int := 3
/-- Modelled from the spec: the sub-status `dual_infeas` of `ipx_status.h`. -/
def IPX_STATUS_dual_infeas : Int := 4
/-- Modelled from the spec: the sub-status `time_limit` of `ipx_status.h`. -/
def IPX_STATUS_time_limit : Int := 5
/-- Modelled from the spec: the sub-status `iter_limit` of `ipx_status.h`. -/
def IPX_STATUS_iter_limit : Int := 6
/-- Modelled from the spec: the sub-status `no_progress` of `ipx_status.h`. -/
def IPX_STATUS_no_progress : Int := 7
/-- Modelled from the spec: the sub-status `failed` of `ipx_status.h`. -/
def IPX_STATUS_failed : Int := 8
/-- Modelled from the spec: the sub-status `debug` of `ipx_status.h`. -/
def IPX_STATUS_debug : Int := 9
/-- Modelled from the spec: the error flag `argument_null` of `ipx_status.h`. -/
def IPX_ERROR_argument_null : Int := 102
/-- Modelled from the spec: the error flag `invalid_dimension` of `ipx_status.h`. -/
def IPX_ERROR_invalid_dimension : Int := 103
/-- Modelled from the spec: the error flag `invalid_matrix` of `ipx_status.h`. -/
def IPX_ERROR_invalid_matrix : Int := 104
/-- Modelled from the spec: the error flag `invalid_vector` of `ipx_status.h`. -/
def IPX_ERROR_invalid_vector : Int := 105
/-- Modelled from the spec: the error flag `invalid_basis` of `ipx_status.h`. -/
def IPX_ERROR_invalid_basis : Int := 107

/-- The function `reportIpxSolveStatus` (lines 189–238): the returned status
and the log file after the call. -/
def reportIpxSolveStatus (logfile : List LogLine) (solve_status error_flag : Int) :
    HighsStatus × List LogLine :=
  if solve_status = IPX_STATUS_solved then
    (HighsStatus.OK, HighsLogMessage logfile HighsMessageType.INFO "Ipx: Solved")
  else if solve_status = IPX_STATUS_stopped then
    (HighsStatus.Warning, HighsLogMessage logfile HighsMessageType.WARNING "Ipx: Stopped")
  else if solve_status = IPX_STATUS_invalid_input then
    if error_flag = IPX_ERROR_argument_null then
      (HighsStatus.Error,
        HighsLogMessage logfile HighsMessageType.ERROR "Ipx: Invalid input - argument_null")
    else if error_flag = IPX_ERROR_invalid_dimension then
      (HighsStatus.Error,
        HighsLogMessage logfile HighsMessageType.ERROR "Ipx: Invalid input - invalid dimension")
    else if error_flag = IPX_ERROR_invalid_matrix then
      (HighsStatus.Error,
        HighsLogMessage logfile HighsMessageType.ERROR "Ipx: Invalid input - invalid matrix")
    else if error_flag = IPX_ERROR_invalid_vector then
      (HighsStatus.Error,
        HighsLogMessage logfile HighsMessageType.ERROR "Ipx: Invalid input - invalid vector")
    else if error_flag = IPX_ERROR_invalid_basis then
      (HighsStatus.Error,
        HighsLogMessage logfile HighsMessageType.ERROR "Ipx: Invalid input - invalid basis")
    else
      (HighsStatus.Error,
        HighsLogMessage logfile HighsMessageType.ERROR "Ipx: Invalid input - unrecognised error")
  else if solve_status = IPX_STATUS_out_of_memory then
    (HighsStatus.Error, HighsLogMessage logfile HighsMessageType.ERROR "Ipx: Out of memory")
  else if solve_status = IPX_STATUS_internal_error then
    (HighsStatus.Error,
      HighsLogMessage logfile HighsMessageType.ERROR
        ("Ipx: Internal error " ++ toString error_flag))
  else
    (HighsStatus.Error,
      HighsLogMessage logfile HighsMessageType.ERROR
        ("Ipx: unrecognised solve status = " ++ toString solve_status))

/-- The function `reportIpxIpmCrossoverStatus` (lines 240–294): the returned
status and the log file after the call. -/
def reportIpxIpmCrossoverStatus (logfile : List LogLine) (status : Int) (ipm_status : Bool) :
    HighsStatus × List LogLine :=
  let method_name : String := if ipm_status then "IPM      " else "Crossover"
  if status = IPX_STATUS_not_run then
    (HighsStatus.Warning,
      HighsLogMessage logfile HighsMessageType.WARNING ("Ipx: " ++ method_name ++ " not run"))
  else if status = IPX_STATUS_optimal then
    (HighsStatus.OK,
      HighsLogMessage logfile HighsMessageType.INFO ("Ipx: " ++ method_name ++ " optimal"))
  else if status = IPX_STATUS_imprecise then
    (HighsStatus.Warning,
      HighsLogMessage logfile HighsMessageType.WARNING ("Ipx: " ++ method_name ++ " imprecise"))
  else if status = IPX_STATUS_primal_infeas then
    (HighsStatus.Warning,
      HighsLogMessage logfile HighsMessageType.WARNING
        ("Ipx: " ++ method_name ++ " primal infeasible"))
  else if status = IPX_STATUS_dual_infeas then
    (HighsStatus.Warning,
      HighsLogMessage logfile HighsMessageType.WARNING
        ("Ipx: " ++ method_name ++ " dual infeasible"))
  else if status = IPX_STATUS_time_limit then
    (HighsStatus.Warning,
      HighsLogMessage logfile HighsMessageType.WARNING
        ("Ipx: " ++ method_name ++ " reached time limit"))
  else if status = IPX_STATUS_iter_limit then
    (HighsStatus.Warning,
      HighsLogMessage logfile HighsMessageType.WARNING
        ("Ipx: " ++ method_name ++ " reached iteration limit"))
  else if status = IPX_STATUS_no_progress then
    (HighsStatus.Warning,
      HighsLogMessage logfile HighsMessageType.WARNING ("Ipx: " ++ method_name ++ " no progress"))
  else if status = IPX_STATUS_failed then
    (HighsStatus.Error,
      HighsLogMessage logfile HighsMessageType.ERROR ("Ipx: " ++ method_name ++ " failed"))
  else if status = IPX_STATUS_debug then
    (HighsStatus.Error,
      HighsLogMessage logfile HighsMessageType.ERROR ("Ipx: " ++ method_name ++ " debug"))
  else
    (HighsStatus.Error,
      HighsLogMessage logfile HighsMessageType.ERROR
        ("Ipx: " ++ method_name ++ " unrecognised status"))

/-! ## solveLpIpx -/

/-- Modelled from the spec: `HighsBasis` of `lp_data/HighsLp.h` (not under
`src/`): the basis tags of every original column and row. -/
structure HighsBasis where
  valid_ : Bool
  col_status : List Int
  row_status : List Int
deriving DecidableEq, Repr

/-- Modelled from the spec: `HighsSolution` of `lp_data/HighsLp.h` (not under
`src/`): the original-space primal and dual values. -/
structure HighsSolution where
  col_value : List Dbl
  col_dual : List Dbl
  row_value : List Dbl
  row_dual : List Dbl
deriving DecidableEq, Repr

/-- Modelled from the spec: the fields of `HighsSolutionParams`
(`lp_data/HighsLp.h`, not under `src/`) that the wrapper reads or writes. -/
structure HighsSolutionParams where
  primal_feasibility_tolerance : Dbl
  dual_feasibility_tolerance : Dbl
  ipm_iteration_count : Int
  objective_function_value : Dbl
deriving DecidableEq, Repr

/-- Modelled from the spec: the fields of `HighsOptions`
(`lp_data/HighsOptions.h`, not under `src/`) that the wrapper reads; `logfile`
is the content of the log file when the call starts. -/
structure HighsOptions where
  time_limit : Dbl
  ipm_iteration_limit : Int
  logfile : List LogLine
deriving DecidableEq, Repr

/-- Modelled from the spec: the fields of `ipx::Info`
(`ipm/ipx/include/ipx_info.h`, not under `src/`) that the wrapper reads. -/
structure IpxInfo where
  errflag : Int
  status_ipm : Int
  status_crossover : Int
  iter : Int
  objval : Dbl
deriving DecidableEq, Repr

/-- Modelled from the spec: `IpxSolution` of `ipm/IpxSolution.h` (not under
`src/`): the standard-form basic solution. -/
structure IpxSolution where
  num_col : Int
  num_row : Int
  ipx_col_value : List Dbl
  ipx_row_value : List Dbl
  ipx_col_dual : List Dbl
  ipx_row_dual : List Dbl
  ipx_row_status : List Int
  ipx_col_status : List Int
deriving DecidableEq, Repr

/-- Modelled from the spec: the solver session `ipx::LpSolver`
(`ipm/ipx/src/lp_solver.h`, not under `src/`), a native solver taken as given,
represented by the answers it gives in one solve: the value `Solve` returns,
the record `GetInfo` returns, and the arrays `GetBasicSolution` fills. -/
structure LpSolver where
  Solve : Int
  GetInfo : IpxInfo
  GetBasicSolution : IpxSolution → IpxSolution

/-- Modelled from the spec: the collaborators of `solveLpIpx` that are not
under `src/`: the reset of the solution parameters done by
`resetModelStatusAndSolutionParams`, the solution mapper
`ipxToHighsBasicSolution`, and
`getPrimalDualInfeasibilitiesFromHighsBasicSolution`. -/
structure Collaborators where
  resetSolutionParams : HighsSolutionParams → HighsOptions → HighsSolutionParams
  ipxToHighsBasicSolution : HighsLp → List Dbl → List Char → IpxSolution →
    HighsBasis → HighsSolution → HighsBasis × HighsSolution
  getPrimalDualInfeasibilitiesFromHighsBasicSolution : HighsLp → HighsBasis →
    HighsSolution → HighsSolutionParams → HighsSolutionParams

/-- The calls `solveLpIpx` makes after `Solve` to fetch or map a solution. -/
inductive Call where
  | GetInteriorSolution
  | GetBasicSolution
  | ipxToHighsBasicSolution
  | getPrimalDualInfeasibilitiesFromHighsBasicSolution
deriving DecidableEq, Repr

/-- The reference parameters of `solveLpIpx` and what else the call leaves
behind: the log file, the text printed with `printf`, the calls made to fetch
or map a solution, and the `assert`s whose condition was false (a build with
assertions enabled stops at the first of them). -/
structure SolveState where
  highs_basis : HighsBasis
  highs_solution : HighsSolution
  unscaled_model_status : HighsModelStatus
  unscaled_solution_params : HighsSolutionParams
  logfile : List LogLine
  stdout : List String
  calls : List Call
  failed_asserts : List String
deriving DecidableEq, Repr

/-- The statement `assert(cond)`. -/
def SolveState.assert (s : SolveState) (cond : Bool) (text : String) : SolveState :=
  if cond then s else { s with failed_asserts := s.failed_asserts ++ [text] }

/-- Lines 436–480 of `solveLpIpx`: the basic solution is fetched and mapped when
crossover is optimal or imprecise; the function returns `OK`. -/
def solveLpIpxBasic (env : Collaborators) (lp : HighsLp) (lps : LpSolver) (data : IpxData)
    (s : SolveState) : HighsStatus × SolveState :=
  let ipx_info := lps.GetInfo
  if ipx_info.status_crossover = IPX_STATUS_optimal ∨
      ipx_info.status_crossover = IPX_STATUS_imprecise then
    let s1 : SolveState :=
      if ipx_info.status_crossover = IPX_STATUS_imprecise then
        { s with
          logfile := (HighsLogMessage s.logfile HighsMessageType.WARNING
            ("Ipx Crossover status imprecise: at least one of primal and dual " ++
             "infeasibilities of basic solution is not within parameters pfeastol " ++
             "and dfeastol. Simplex clean up will be required")) }
      else s
    let ipx_solution0 : IpxSolution :=
      { num_col := data.num_col
        num_row := data.num_row
        ipx_col_value := vresize [] data.num_col.toNat
        ipx_row_value := vresize [] data.num_row.toNat
        ipx_col_dual := vresize [] data.num_col.toNat
        ipx_row_dual := vresize [] data.num_row.toNat
        ipx_row_status := vresize [] data.num_row.toNat
        ipx_col_status := vresize [] data.num_col.toNat }
    let ipx_solution := lps.GetBasicSolution ipx_solution0
    let s2 : SolveState := { s1 with calls := s1.calls ++ [Call.GetBasicSolution] }
    let mapped := env.ipxToHighsBasicSolution lp data.rhs data.constraint_type ipx_solution
      s2.highs_basis s2.highs_solution
    let s3 : SolveState :=
      { s2 with
        highs_basis := mapped.1
        highs_solution := mapped.2
        calls := s2.calls ++ [Call.ipxToHighsBasicSolution] }
    let s4 : SolveState :=
      { s3 with
        unscaled_model_status := HighsModelStatus.OPTIMAL
        unscaled_solution_params :=
          { s3.unscaled_solution_params with objective_function_value := ipx_info.objval } }
    let s5 : SolveState :=
      { s4 with
        unscaled_solution_params :=
          (env.getPrimalDualInfeasibilitiesFromHighsBasicSolution lp s4.highs_basis
            s4.highs_solution s4.unscaled_solution_params)
        calls := s4.calls ++ [Call.getPrimalDualInfeasibilitiesFromHighsBasicSolution] }
    (HighsStatus.OK, s5)
  else
    (HighsStatus.OK, s)

/-- Lines 397–480 of `solveLpIpx`: what follows the `stopped` block. -/
def solveLpIpxSolved (env : Collaborators) (lp : HighsLp) (lps : LpSolver) (data : IpxData)
    (s : SolveState) : HighsStatus × SolveState :=
  let solve_status := lps.Solve
  let ipx_info := lps.GetInfo
  let s1 := s.assert (decide (solve_status = IPX_STATUS_solved))
    "solve_status == IPX_STATUS_solved"
  let s2 := s1.assert
    (decide (ipx_info.status_ipm ≠ IPX_STATUS_iter_limit ∧
      ipx_info.status_crossover ≠ IPX_STATUS_iter_limit))
    "ipx_info.status_ipm != IPX_STATUS_iter_limit && ipx_info.status_crossover != IPX_STATUS_iter_limit"
  let s3 := s2.assert
    (decide (ipx_info.status_ipm ≠ IPX_STATUS_time_limit ∧
      ipx_info.status_crossover ≠ IPX_STATUS_time_limit))
    "ipx_info.status_ipm != IPX_STATUS_time_limit && ipx_info.status_crossover != IPX_STATUS_time_limit"
  if ipx_info.status_ipm = IPX_STATUS_primal_infeas ∨
      ipx_info.status_crossover = IPX_STATUS_primal_infeas then
    let s4 := s3.assert (decide (ipx_info.status_crossover ≠ IPX_STATUS_primal_infeas))
      "ipx_info.status_crossover != IPX_STATUS_primal_infeas"
    (HighsStatus.OK, { s4 with unscaled_model_status := HighsModelStatus.PRIMAL_INFEASIBLE })
  else if ipx_info.status_ipm = IPX_STATUS_dual_infeas ∨
      ipx_info.status_crossover = IPX_STATUS_dual_infeas then
    let s4 := s3.assert (decide (ipx_info.status_crossover ≠ IPX_STATUS_dual_infeas))
      "ipx_info.status_crossover != IPX_STATUS_dual_infeas"
    (HighsStatus.OK, { s4 with unscaled_model_status := HighsModelStatus.PRIMAL_UNBOUNDED })
  else
    let s4 : SolveState := { s3 with calls := s3.calls ++ [Call.GetInteriorSolution] }
    solveLpIpxBasic env lp lps data s4

/-- The function `solveLpIpx` (lines 296–481): the returned status and the state
it leaves. `lps` is the solver session, `past_end` the memory behind
`free_rows` in `fillInIpxData`. The set-up of the IPX parameters (lines 308–329)
writes only to the session and is not represented. -/
def solveLpIpx (env : Collaborators) (past_end : Nat → Int) (options : HighsOptions)
    (lp : HighsLp) (lps : LpSolver) (highs_basis : HighsBasis) (highs_solution : HighsSolution)
    (unscaled_model_status : HighsModelStatus)
    (unscaled_solution_params : HighsSolutionParams) : HighsStatus × SolveState :=
  let s0 : SolveState :=
    { highs_basis := highs_basis
      highs_solution := highs_solution
      unscaled_model_status := unscaled_model_status
      unscaled_solution_params := unscaled_solution_params
      logfile := options.logfile
      stdout := []
      calls := []
      failed_asserts := [] }
  -- resetModelStatusAndSolutionParams
  let s1 : SolveState :=
    { s0 with
      unscaled_model_status := HighsModelStatus.NOTSET
      unscaled_solution_params := env.resetSolutionParams s0.unscaled_solution_params options }
  let data := fillInIpxData past_end lp [] [] [] [] [] [] [] []
  if data.result ≠ IpxStatus.OK then (HighsStatus.Error, s1)
  else
    let solve_status := lps.Solve
    let ipx_info := lps.GetInfo
    let solve_return := reportIpxSolveStatus s1.logfile solve_status ipx_info.errflag
    if solve_status ≠ IPX_STATUS_solved ∧ solve_return.1 = HighsStatus.Error then
      (HighsStatus.Error,
        { s1 with
          logfile := solve_return.2
          unscaled_model_status := HighsModelStatus.SOLVE_ERROR })
    else
      let s2 : SolveState :=
        if solve_status ≠ IPX_STATUS_solved then { s1 with logfile := solve_return.2 } else s1
      let ipm_return := reportIpxIpmCrossoverStatus s2.logfile ipx_info.status_ipm true
      let crossover_return :=
        reportIpxIpmCrossoverStatus ipm_return.2 ipx_info.status_crossover false
      let s3 : SolveState := { s2 with logfile := crossover_return.2 }
      if ipm_return.1 = HighsStatus.Error ∨ crossover_return.1 = HighsStatus.Error then
        (HighsStatus.Error, { s3 with unscaled_model_status := HighsModelStatus.SOLVE_ERROR })
      else
        let s4 := s3.assert
          (decide (solve_status = IPX_STATUS_solved ∨ solve_status = IPX_STATUS_stopped))
          "solve_status == IPX_STATUS_solved || solve_status == IPX_STATUS_stopped"
        let s5 : SolveState :=
          { s4 with
            unscaled_solution_params :=
              { s4.unscaled_solution_params with ipm_iteration_count := ipx_info.iter } }
        if solve_status = IPX_STATUS_stopped then
          let s6 : SolveState := { s5 with stdout := s5.stdout ++ ["Why stopped???\n"] }
          let s7 := s6.assert (decide (ipx_info.status_ipm ≠ IPX_STATUS_primal_infeas))
            "ipx_info.status_ipm != IPX_STATUS_primal_infeas"
          let s8 := s7.assert (decide (ipx_info.status_ipm ≠ IPX_STATUS_dual_infeas))
            "ipx_info.status_ipm != IPX_STATUS_dual_infeas"
          let s9 := s8.assert (decide (ipx_info.status_crossover ≠ IPX_STATUS_primal_infeas))
            "ipx_info.status_crossover != IPX_STATUS_primal_infeas"
          let s10 := s9.assert (decide (ipx_info.status_crossover ≠ IPX_STATUS_dual_infeas))
            "ipx_info.status_crossover != IPX_STATUS_dual_infeas"
          if ipx_info.status_ipm = IPX_STATUS_time_limit ∨
              ipx_info.status_crossover = IPX_STATUS_time_limit then
            (HighsStatus.Warning,
              { s10 with unscaled_model_status := HighsModelStatus.REACHED_TIME_LIMIT })
          else if ipx_info.status_ipm = IPX_STATUS_iter_limit ∨
              ipx_info.status_crossover = IPX_STATUS_iter_limit then
            let s11 := s10.assert (decide (ipx_info.status_crossover ≠ IPX_STATUS_iter_limit))
              "ipx_info.status_crossover != IPX_STATUS_iter_limit"
            (HighsStatus.Warning,
              { s11 with unscaled_model_status := HighsModelStatus.REACHED_ITERATION_LIMIT })
          else
            solveLpIpxSolved env lp lps data s10
        else
          solveLpIpxSolved env lp lps data s5

/-! ## Definitions used to state the properties -/

/-- Row `row` passes the slack test of lines 50–52. -/
def gbAt (lp : HighsLp) (row : Nat) : Bool :=
  isGeneralBounded (vget lp.rowLower_ row) (vget lp.rowUpper_ row)

/-- Row `row` passes the free-row test of lines 54–55. -/
def freeAt (lp : HighsLp) (row : Nat) : Bool :=
  isFreeRow (vget lp.rowLower_ row) (vget lp.rowUpper_ row)

/-- The bound pairs of the rows, in row order. -/
def rowBounds (lp : HighsLp) : List (Dbl × Dbl) := lp.rowLower_.zip lp.rowUpper_

/-- A doubly-bounded row: `−∞ < lower < upper < +∞`. -/
def DoublyBounded (b : Dbl × Dbl) : Bool :=
  Dbl.lt Dbl.ninf b.1 && Dbl.lt b.1 b.2 && Dbl.lt b.2 Dbl.pinf

/-- A free row: `lower = −∞` and `upper = +∞`. -/
def FreeBounds (b : Dbl × Dbl) : Bool :=
  decide (b.1 = Dbl.ninf) && decide (b.2 = Dbl.pinf)

/-- The number `k` of doubly-bounded rows of the LP. -/
def numDoublyBounded (lp : HighsLp) : Nat := (rowBounds lp).countP DoublyBounded

/-- The number `f` of free rows of the LP. -/
def numFree (lp : HighsLp) : Nat := (rowBounds lp).countP FreeBounds

/-- What the body of the loop of lines 65–83 pushes for row `row`, if anything. -/
def rhsEntry (lp : HighsLp) (row : Nat) : Option (Dbl × Char) :=
  if (vget lp.rowLower_ row).gt HIGHS_CONST_INF.neg &&
      vget lp.rowUpper_ row == HIGHS_CONST_INF then
    some (vget lp.rowLower_ row, '>')
  else if vget lp.rowLower_ row == HIGHS_CONST_INF.neg &&
      (vget lp.rowUpper_ row).lt HIGHS_CONST_INF then
    some (vget lp.rowUpper_ row, '<')
  else if vget lp.rowLower_ row == vget lp.rowUpper_ row then
    some (vget lp.rowUpper_ row, '=')
  else if (vget lp.rowLower_ row).gt HIGHS_CONST_INF.neg &&
      (vget lp.rowUpper_ row).lt HIGHS_CONST_INF then
    some (Dbl.fin 0, '=')
  else none

/-- The reduced index of row `r`: the number of retained (non-free) rows
before it. -/
def retainedBefore (lp : HighsLp) (r : Nat) : Nat :=
  ((rowBounds lp).take r).countP (fun b => !FreeBounds b)

/-- The doubly-bounded rows of the LP, in increasing order. -/
def doublyBoundedRows (lp : HighsLp) : List Nat :=
  (List.range (rowBounds lp).length).filter (fun r => DoublyBounded (vget (rowBounds lp) r))

/-- The matrix entry at position `k` lies in a row that passes the test of
lines 109–110 (and 133–134). -/
def hbAt (lp : HighsLp) (k : Nat) : Bool :=
  hasBound (vget lp.rowLower_ (vget lp.Aindex_ k)) (vget lp.rowUpper_ (vget lp.Aindex_ k))

/-- Row `row` of the LP is a free row. -/
def rowIsFree (lp : HighsLp) (row : Nat) : Bool := FreeBounds (vget (rowBounds lp) row)

/-- The entries `(row index, value)` of column `j` of the LP's matrix, in
storage order. -/
def origColumn (lp : HighsLp) (j : Nat) : List (Nat × Dbl) :=
  ((lp.Aindex_.zip lp.Avalue_).drop (vget lp.Astart_ j)).take
    (vget lp.Astart_ (j + 1) - vget lp.Astart_ j)

/-- The entries `(row index, value)` of column `j` of the transformed matrix:
positions `Ap[j] .. Ap[j+1]-1` of `Ai` and `Ax`. -/
def ipxColumn (d : IpxData) (j : Nat) : List (Int × Dbl) :=
  ((d.Ai.zip d.Ax).drop (vget d.Ap j).toNat).take (vget d.Ap (j + 1) - vget d.Ap j).toNat

/-- A consistent column-major matrix: `Astart_` has `numCol_ + 1` entries,
starts at 0, is non-decreasing and ends at the number of nonzeros; `Avalue_` is
as long as `Aindex_`; every row index is below `numRow_`; the row-bound arrays
have length `numRow_`. -/
def ConsistentMatrix (lp : HighsLp) : Prop :=
  lp.Astart_.length = lp.numCol_ + 1 ∧
  vget lp.Astart_ 0 = 0 ∧
  (∀ j, j < lp.numCol_ → vget lp.Astart_ j ≤ vget lp.Astart_ (j + 1)) ∧
  vget lp.Astart_ lp.numCol_ = lp.Aindex_.length ∧
  lp.Avalue_.length = lp.Aindex_.length ∧
  (∀ k, k < lp.Aindex_.length → vget lp.Aindex_ k < lp.numRow_) ∧
  lp.rowLower_.length = lp.numRow_ ∧
  lp.rowUpper_.length = lp.numRow_

instance (lp : HighsLp) : Decidable (ConsistentMatrix lp) := by
  unfold ConsistentMatrix
  infer_instance

/-- The number of entries of column `col` that the loop of lines 107–112
counts. -/
def colCount (lp : HighsLp) (col : Nat) : Nat :=
  (List.range' (vget lp.Astart_ col)
    (vget lp.Astart_ (col + 1) - vget lp.Astart_ col)).countP (hbAt lp)

/-- The number of counted entries stored before column `j`. -/
def prefCount (lp : HighsLp) (j : Nat) : Nat :=
  (List.range (vget lp.Astart_ j)).countP (hbAt lp)

/-- The value that `fillInIpxData` leaves in `Ap[j]`. -/
def apValue (lp : HighsLp) (j : Nat) : Int :=
  if j ≤ lp.numCol_ then (prefCount lp j : Int)
  else (prefCount lp lp.numCol_ : Int) + ((j - lp.numCol_ : Nat) : Int)

/-- The number of original nonzeros that lie in non-free rows. -/
def nonFreeNonzeros (lp : HighsLp) : Nat :=
  lp.Aindex_.countP (fun row => !rowIsFree lp row)

/-- A sub-status that `reportIpxIpmCrossoverStatus` does not report as an error:
one of `not_run`, `optimal`, `imprecise`, `primal_infeas`, `dual_infeas`,
`time_limit`, `iter_limit`, `no_progress`. The fatal ones are `failed`, `debug`
and every unrecognised code. -/
def NonFatalSub (s : Int) : Prop :=
  s = IPX_STATUS_not_run ∨ s = IPX_STATUS_optimal ∨ s = IPX_STATUS_imprecise ∨
  s = IPX_STATUS_primal_infeas ∨ s = IPX_STATUS_dual_infeas ∨ s = IPX_STATUS_time_limit ∨
  s = IPX_STATUS_iter_limit ∨ s = IPX_STATUS_no_progress

instance (s : Int) : Decidable (NonFatalSub s) := by
  unfold NonFatalSub
  infer_instance

/-- An infeasibility sub-status: `primal_infeas` or `dual_infeas`. -/
def InfeasSub (s : Int) : Prop :=
  s = IPX_STATUS_primal_infeas ∨ s = IPX_STATUS_dual_infeas

instance (s : Int) : Decidable (InfeasSub s) := by
  unfold InfeasSub
  infer_instance

/-- The function `solveLpIpx` in a build with assertions enabled: `none` when the
condition of an `assert` on the path is false (the program stops there),
otherwise the returned status and the state left, which are those of
`solveLpIpx`. -/
def solveLpIpxAsserting (env : Collaborators) (past_end : Nat → Int) (options : HighsOptions)
    (lp : HighsLp) (lps : LpSolver) (highs_basis : HighsBasis) (highs_solution : HighsSolution)
    (unscaled_model_status : HighsModelStatus)
    (unscaled_solution_params : HighsSolutionParams) : Option (HighsStatus × SolveState) :=
  if (solveLpIpx env past_end options lp lps highs_basis highs_solution unscaled_model_status
      unscaled_solution_params).2.failed_asserts = [] then
    some (solveLpIpx env past_end options lp lps highs_basis highs_solution
      unscaled_model_status unscaled_solution_params)
  else none

/-- The clean-up advisory of line 439 is logged: both reports pass, the
crossover sub-status is `imprecise`, and the call reaches line 436, that is the
interior-point sub-status is no infeasibility code and, when the solve status
is `stopped`, no limit code. -/
def advisoryLogged (solve_status ipm cross : Int) : Prop :=
  NonFatalSub ipm ∧ cross = IPX_STATUS_imprecise ∧ ¬ InfeasSub ipm ∧
  ¬ (solve_status = IPX_STATUS_stopped ∧
      (ipm = IPX_STATUS_time_limit ∨ ipm = IPX_STATUS_iter_limit))

instance (solve_status ipm cross : Int) : Decidable (advisoryLogged solve_status ipm cross) := by
  unfold advisoryLogged
  infer_instance

/-- The number of messages one call of `solveLpIpx` logs: one when the solve
status is fatal; otherwise one per report call, which is two when the solve
status is `solved` and three when it is `stopped`, and one more when the
clean-up advisory is logged. -/
def messageCount (solve_status ipm cross : Int) : Nat :=
  if solve_status ≠ IPX_STATUS_solved ∧ solve_status ≠ IPX_STATUS_stopped then 1
  else
    (if solve_status = IPX_STATUS_stopped then 3 else 2) +
      (if advisoryLogged solve_status ipm cross then 1 else 0)

/-- Mutually consistent arrays of an LP: a consistent matrix and row bounds
(`ConsistentMatrix`), and `colLower_`, `colUpper_`, `colCost_` of length
`numCol_`. -/
def ConsistentLp (lp : HighsLp) : Prop :=
  ConsistentMatrix lp ∧ lp.colLower_.length = lp.numCol_ ∧
  lp.colUpper_.length = lp.numCol_ ∧ lp.colCost_.length = lp.numCol_

instance (lp : HighsLp) : Decidable (ConsistentLp lp) := by
  unfold ConsistentLp
  infer_instance

/-- Body of the loop of lines 89–97 with the subscript of `free_rows[findex]`
checked: `none` as soon as `findex` is not below `free_rows.size()`; inside the
vector the step is the one of `rowmapStep`. -/
def rowmapStepChecked (free : List Nat) (st : Option (List Int × Int × Nat)) (row : Nat) :
    Option (List Int × Int × Nat) :=
  match st with
  | none => none
  | some s =>
    if h : s.2.2 < free.length then
      if (free.get ⟨s.2.2, h⟩ : Int) = (row : Int) then some (s.1, s.2.1, s.2.2 + 1)
      else some (s.1.set row s.2.1, s.2.1 + 1, s.2.2)
    else none

/-- Lines 85–100 with the subscript of `free_rows[findex]` checked: `none` when
the loop reads `free_rows` out of bounds, else the local `reduced_rowmap`. -/
def buildRowmapChecked (numRow : Nat) (free : List Nat) : Option (List Int) :=
  if free.length > 0 then
    ((List.range numRow).foldl (rowmapStepChecked free)
      (some (List.replicate numRow (-1), 0, 0))).map (fun s => s.1)
  else
    some ((List.range numRow).foldl (fun m k => m.set k (k : Int)) (List.replicate numRow (-1)))

/-! ## Sample inputs -/

/-- An LP with one row of each kind: lower-only `[1, ∞]`, doubly-bounded
`[2, 10]`, upper-only `[−∞, 7]`, equality `[5, 5]`, free `[−∞, ∞]`. -/
def lpMixed : HighsLp :=
  { numCol_ := 2
    numRow_ := 5
    Astart_ := [0, 3, 5]
    Aindex_ := [0, 1, 4, 2, 3]
    Avalue_ := [Dbl.fin 1, Dbl.fin 2, Dbl.fin 3, Dbl.fin 4, Dbl.fin 5]
    colCost_ := [Dbl.fin 1, Dbl.fin (-2)]
    colLower_ := [Dbl.fin 0, Dbl.ninf]
    colUpper_ := [Dbl.pinf, Dbl.fin 4]
    rowLower_ := [Dbl.fin 1, Dbl.fin 2, Dbl.ninf, Dbl.fin 5, Dbl.ninf]
    rowUpper_ := [Dbl.pinf, Dbl.fin 10, Dbl.fin 7, Dbl.fin 5, Dbl.pinf]
    sense_ := ObjSense.MINIMIZE }

/-- An LP whose rows are free, doubly-bounded `[2, 10]`, free. -/
def lpFreeBoxedFree : HighsLp :=
  { numCol_ := 2
    numRow_ := 3
    Astart_ := [0, 2, 4]
    Aindex_ := [0, 1, 1, 2]
    Avalue_ := [Dbl.fin 1, Dbl.fin 2, Dbl.fin 3, Dbl.fin 4]
    colCost_ := [Dbl.fin 1, Dbl.fin 5]
    colLower_ := [Dbl.fin 0, Dbl.ninf]
    colUpper_ := [Dbl.pinf, Dbl.fin 3]
    rowLower_ := [Dbl.ninf, Dbl.fin 2, Dbl.ninf]
    rowUpper_ := [Dbl.pinf, Dbl.fin 10, Dbl.pinf]
    sense_ := ObjSense.MINIMIZE }

/-- An LP whose rows are free, lower-only `[1, ∞]`. -/
def lpFreeFirst : HighsLp :=
  { numCol_ := 1
    numRow_ := 2
    Astart_ := [0, 2]
    Aindex_ := [0, 1]
    Avalue_ := [Dbl.fin 1, Dbl.fin 1]
    colCost_ := [Dbl.fin 1]
    colLower_ := [Dbl.fin 0]
    colUpper_ := [Dbl.pinf]
    rowLower_ := [Dbl.ninf, Dbl.fin 1]
    rowUpper_ := [Dbl.pinf, Dbl.pinf]
    sense_ := ObjSense.MINIMIZE }

/-- An LP with one column and one doubly-bounded row `[2, 10]`. -/
def lpBoxed : HighsLp :=
  { numCol_ := 1
    numRow_ := 1
    Astart_ := [0, 1]
    Aindex_ := [0]
    Avalue_ := [Dbl.fin 1]
    colCost_ := [Dbl.fin 3]
    colLower_ := [Dbl.fin 0]
    colUpper_ := [Dbl.pinf]
    rowLower_ := [Dbl.fin 2]
    rowUpper_ := [Dbl.fin 10]
    sense_ := ObjSense.MINIMIZE }

/-- Collaborators that leave their arguments as they are. -/
def envId : Collaborators :=
  { resetSolutionParams := fun p _ => p
    ipxToHighsBasicSolution := fun _ _ _ _ b s => (b, s)
    getPrimalDualInfeasibilitiesFromHighsBasicSolution := fun _ _ _ p => p }

/-- A solver session answering with the given status tuple. -/
def lpsWith (solve_status errflag status_ipm status_crossover : Int) : LpSolver :=
  { Solve := solve_status
    GetInfo :=
      { errflag := errflag
        status_ipm := status_ipm
        status_crossover := status_crossover
        iter := 0
        objval := Dbl.fin 0 }
    GetBasicSolution := fun s => s }

/-- Options with an empty log file. -/
def optionsEmpty : HighsOptions :=
  { time_limit := Dbl.pinf, ipm_iteration_limit := 100, logfile := [] }

/-- An invalid basis without entries. -/
def basisEmpty : HighsBasis := { valid_ := false, col_status := [], row_status := [] }

/-- A solution without entries. -/
def solutionEmpty : HighsSolution :=
  { col_value := [], col_dual := [], row_value := [], row_dual := [] }

/-- Solution parameters with zero entries. -/
def paramsZero : HighsSolutionParams :=
  { primal_feasibility_tolerance := Dbl.fin 0
    dual_feasibility_tolerance := Dbl.fin 0
    ipm_iteration_count := 0
    objective_function_value := Dbl.fin 0 }

/-- An LP with one column and one row whose bounds are crossed: `[10, 2]`. -/
def lpCrossed : HighsLp :=
  { numCol_ := 1
    numRow_ := 1
    Astart_ := [0, 1]
    Aindex_ := [0]
    Avalue_ := [Dbl.fin 1]
    colCost_ := [Dbl.fin 3]
    colLower_ := [Dbl.fin 0]
    colUpper_ := [Dbl.pinf]
    rowLower_ := [Dbl.fin 10]
    rowUpper_ := [Dbl.fin 2]
    sense_ := ObjSense.MINIMIZE }

/-! ## Properties of fillInIpxData and of the status translation -/

theorem isFreeRow_of_isGeneralBounded {lo up : Dbl} (h : isGeneralBounded lo up = true) :
    isFreeRow lo up = false := by
  cases lo <;> cases up <;>
    simp_all [isGeneralBounded, isFreeRow, HIGHS_CONST_INF, Dbl.neg, Dbl.lt, Dbl.gt]

theorem isFreeRow_iff (lo up : Dbl) :
    isFreeRow lo up = true ↔ lo = Dbl.ninf ∧ up = Dbl.pinf := by
  simp [isFreeRow, HIGHS_CONST_INF, Dbl.neg]

theorem hasBound_eq_not_isFreeRow (lo up : Dbl) : hasBound lo up = !isFreeRow lo up := by
  cases lo <;> cases up <;>
    simp [hasBound, isFreeRow, HIGHS_CONST_INF, Dbl.neg, Dbl.lt, Dbl.gt]

theorem foldl_scanStep (lp : HighsLp) (l : List Nat) (st : List Nat × List Nat) :
    l.foldl (scanStep lp) st = (st.1 ++ l.filter (gbAt lp), st.2 ++ l.filter (freeAt lp)) := by
  induction l generalizing st with
  | nil => simp
  | cons x l ih =>
    rw [List.foldl_cons, ih]
    by_cases hg : gbAt lp x = true
    · have hf : freeAt lp x = false := isFreeRow_of_isGeneralBounded hg
      have hg2 : isGeneralBounded (vget lp.rowLower_ x) (vget lp.rowUpper_ x) = true := hg
      simp [scanStep, hg, hf, hg2]
    · have hg2 : isGeneralBounded (vget lp.rowLower_ x) (vget lp.rowUpper_ x) = false := by
        simpa [gbAt] using hg
      by_cases hf : freeAt lp x = true
      · have hf2 : isFreeRow (vget lp.rowLower_ x) (vget lp.rowUpper_ x) = true := hf
        simp [scanStep, hg, hf, hg2, hf2]
      · have hf2 : isFreeRow (vget lp.rowLower_ x) (vget lp.rowUpper_ x) = false := by
          simpa [freeAt] using hf
        simp [scanStep, hg, hf, hg2, hf2]

theorem general_bounded_rows_eq (lp : HighsLp) :
    general_bounded_rows lp = (List.range lp.numRow_).filter (gbAt lp) := by
  simp [general_bounded_rows, scanRows, foldl_scanStep]

theorem free_rows_eq (lp : HighsLp) :
    free_rows lp = (List.range lp.numRow_).filter (freeAt lp) := by
  simp [free_rows, scanRows, foldl_scanStep]

theorem getD_zip_pair {α β : Type} (a : List α) (b : List β) (da : α) (db : β)
    (h : a.length = b.length) (i : Nat) :
    (a.zip b).getD i (da, db) = (a.getD i da, b.getD i db) := by
  induction a generalizing b i with
  | nil =>
    cases b with
    | nil => simp
    | cons y b => simp at h
  | cons x a ih =>
    cases b with
    | nil => simp at h
    | cons y b =>
      cases i with
      | zero => simp
      | succ i =>
        simp only [List.zip_cons_cons, List.getD_cons_succ]
        exact ih b (by simpa using h) i

theorem vget_rowBounds (lp : HighsLp) (h : lp.rowLower_.length = lp.rowUpper_.length) (i : Nat) :
    vget (rowBounds lp) i = (vget lp.rowLower_ i, vget lp.rowUpper_ i) := by
  unfold vget rowBounds
  exact getD_zip_pair _ _ _ _ h i

theorem filter_range_getD_length {α : Type} (l : List α) (d : α) (p : α → Bool) :
    ((List.range l.length).filter (fun i => p (l.getD i d))).length = l.countP p := by
  induction l using List.reverseRecOn with
  | nil => simp
  | append_singleton l a ih =>
    rw [List.length_append, List.length_singleton, List.range_succ, List.filter_append,
      List.length_append, List.countP_append]
    have h1 : (List.range l.length).filter (fun i => p ((l ++ [a]).getD i d))
        = (List.range l.length).filter (fun i => p (l.getD i d)) := by
      apply List.filter_congr
      intro i hi
      have hi2 : i < l.length := List.mem_range.mp hi
      simp [List.getD_eq_getElem?_getD, List.getElem?_append_left hi2]
    rw [h1, ih]
    congr 1
    by_cases hp : p a = true <;> simp [List.getD_eq_getElem?_getD, hp]

theorem gbAt_eq (lp : HighsLp) (h : lp.rowLower_.length = lp.rowUpper_.length) (i : Nat) :
    gbAt lp i = DoublyBounded (vget (rowBounds lp) i) := by
  rw [vget_rowBounds lp h]
  simp only [gbAt, isGeneralBounded, DoublyBounded, HIGHS_CONST_INF, Dbl.neg, Dbl.gt]
  cases vget lp.rowLower_ i <;> cases vget lp.rowUpper_ i <;> simp [Dbl.lt]

theorem freeAt_eq (lp : HighsLp) (h : lp.rowLower_.length = lp.rowUpper_.length) (i : Nat) :
    freeAt lp i = FreeBounds (vget (rowBounds lp) i) := by
  rw [vget_rowBounds lp h]
  simp only [freeAt, isFreeRow, FreeBounds, HIGHS_CONST_INF, Dbl.neg]
  cases vget lp.rowLower_ i <;> cases vget lp.rowUpper_ i <;> simp

theorem length_rowBounds (lp : HighsLp) (hl : lp.rowLower_.length = lp.numRow_)
    (hu : lp.rowUpper_.length = lp.numRow_) : (rowBounds lp).length = lp.numRow_ := by
  simp [rowBounds, hl, hu]

theorem length_general_bounded_rows (lp : HighsLp) (hl : lp.rowLower_.length = lp.numRow_)
    (hu : lp.rowUpper_.length = lp.numRow_) :
    (general_bounded_rows lp).length = numDoublyBounded lp := by
  rw [general_bounded_rows_eq, numDoublyBounded, ← filter_range_getD_length _ default,
    length_rowBounds lp hl hu]
  congr 1
  apply List.filter_congr
  intro i _
  exact gbAt_eq lp (hl.trans hu.symm) i

theorem length_free_rows (lp : HighsLp) (hl : lp.rowLower_.length = lp.numRow_)
    (hu : lp.rowUpper_.length = lp.numRow_) :
    (free_rows lp).length = numFree lp := by
  rw [free_rows_eq, numFree, ← filter_range_getD_length _ default,
    length_rowBounds lp hl hu]
  congr 1
  apply List.filter_congr
  intro i _
  exact freeAt_eq lp (hl.trans hu.symm) i

theorem num_col_eq (past_end : Nat → Int) (lp : HighsLp)
    (obj col_lb col_ub : List Dbl) (Ap Ai : List Int) (Ax rhs : List Dbl)
    (constraint_type : List Char)
    (hl : lp.rowLower_.length = lp.numRow_) (hu : lp.rowUpper_.length = lp.numRow_) :
    (fillInIpxData past_end lp obj col_lb col_ub Ap Ai Ax rhs constraint_type).num_col
        = (lp.numCol_ : Int) + (numDoublyBounded lp : Int) := by
  simp only [fillInIpxData, length_general_bounded_rows lp hl hu]

theorem num_row_eq (past_end : Nat → Int) (lp : HighsLp)
    (obj col_lb col_ub : List Dbl) (Ap Ai : List Int) (Ax rhs : List Dbl)
    (constraint_type : List Char)
    (hl : lp.rowLower_.length = lp.numRow_) (hu : lp.rowUpper_.length = lp.numRow_) :
    (fillInIpxData past_end lp obj col_lb col_ub Ap Ai Ax rhs constraint_type).num_row
        = (lp.numRow_ : Int) - (numFree lp : Int) := by
  simp only [fillInIpxData, length_free_rows lp hl hu]

/-- C1: for an LP whose row-bound arrays have length `numRow_`, `fillInIpxData`
returns `num_col = numCol_ + k` and `num_row = numRow_ − f`, with `k` the number
of doubly-bounded rows and `f` the number of free rows, whatever the buffers
hold on entry. -/
theorem fillInIpxData_counts (past_end : Nat → Int) (lp : HighsLp)
    (obj col_lb col_ub : List Dbl) (Ap Ai : List Int) (Ax rhs : List Dbl)
    (constraint_type : List Char)
    (hl : lp.rowLower_.length = lp.numRow_) (hu : lp.rowUpper_.length = lp.numRow_) :
    (fillInIpxData past_end lp obj col_lb col_ub Ap Ai Ax rhs constraint_type).num_col
        = (lp.numCol_ : Int) + (numDoublyBounded lp : Int) ∧
    (fillInIpxData past_end lp obj col_lb col_ub Ap Ai Ax rhs constraint_type).num_row
        = (lp.numRow_ : Int) - (numFree lp : Int) :=
  ⟨num_col_eq past_end lp obj col_lb col_ub Ap Ai Ax rhs constraint_type hl hu,
   num_row_eq past_end lp obj col_lb col_ub Ap Ai Ax rhs constraint_type hl hu⟩

theorem getD_take {α : Type} (l : List α) (d : α) (r i : Nat) (h : i < r) :
    (l.take r).getD i d = l.getD i d := by
  simp [List.getD_eq_getElem?_getD, List.getElem?_take, h]

theorem countP_range_eq {α : Type} (l : List α) (d : α) (p : α → Bool) (r : Nat)
    (hr : r ≤ l.length) :
    (List.range r).countP (fun i => p (l.getD i d)) = (l.take r).countP p := by
  rw [← filter_range_getD_length (l.take r) d p, List.length_take, Nat.min_eq_left hr,
    List.countP_eq_length_filter]
  congr 1
  apply List.filter_congr
  intro i hi
  rw [getD_take l d r i (List.mem_range.mp hi)]

theorem length_vresize {α : Type} [Inhabited α] (v : List α) (n : Nat) :
    (vresize v n).length = n := by
  simp [vresize]
  omega

theorem foldl_pair {α β γ : Type} (f : α → γ → α) (g : β → γ → β) (l : List γ) (a : α) (b : β) :
    l.foldl (fun st i => (f st.1 i, g st.2 i)) (a, b) = (l.foldl f a, l.foldl g b) := by
  induction l generalizing a b with
  | nil => rfl
  | cons x l ih => simp [List.foldl_cons, ih]

theorem length_foldl_set {α : Type} (idx : Nat → Nat) (f : Nat → α) (l : List Nat) (m : List α) :
    (l.foldl (fun m i => m.set (idx i) (f i)) m).length = m.length := by
  induction l generalizing m with
  | nil => rfl
  | cons x l ih => simp [List.foldl_cons, ih]

theorem foldl_set_range {α : Type} (o : Nat) (f : Nat → α) (n : Nat) (m : List α) (j : Nat) :
    ((List.range n).foldl (fun m i => m.set (o + i) (f i)) m)[j]? =
      if o ≤ j ∧ j < o + n ∧ j < m.length then some (f (j - o)) else m[j]? := by
  induction n with
  | zero =>
    have : ¬ (o ≤ j ∧ j < o + 0 ∧ j < m.length) := by omega
    rw [if_neg this]
    rfl
  | succ n ih =>
    rw [List.range_succ, List.foldl_append, List.foldl_cons, List.foldl_nil, List.getElem?_set, ih,
      length_foldl_set]
    by_cases h1 : o + n = j
    · subst h1
      by_cases h2 : o + n < m.length
      · simp [h2]
      · have : ¬ (o ≤ o + n ∧ o + n < o + (n + 1) ∧ o + n < m.length) := by omega
        simp only [this, if_false, h2]
        simp
        omega
    · simp only [h1, if_false]
      by_cases h3 : o ≤ j ∧ j < o + n ∧ j < m.length
      · have : o ≤ j ∧ j < o + (n + 1) ∧ j < m.length := by omega
        simp [h3, this]
      · have : ¬ (o ≤ j ∧ j < o + (n + 1) ∧ j < m.length) := by omega
        simp [h3, this]

theorem vget_eq_of_getElem? {α : Type} [Inhabited α] (v : List α) (i : Nat) (a : α)
    (h : v[i]? = some a) : vget v i = a := by
  simp [vget, List.getD_eq_getElem?_getD, h]

theorem general_bounded_rows_eq_doublyBoundedRows (lp : HighsLp)
    (hl : lp.rowLower_.length = lp.numRow_) (hu : lp.rowUpper_.length = lp.numRow_) :
    general_bounded_rows lp = doublyBoundedRows lp := by
  rw [general_bounded_rows_eq, doublyBoundedRows, length_rowBounds lp hl hu]
  apply List.filter_congr
  intro i _
  exact gbAt_eq lp (hl.trans hu.symm) i

theorem getElem?_rowBounds (lp : HighsLp) (r : Nat) (lower upper : Dbl)
    (h : (rowBounds lp)[r]? = some (lower, upper)) :
    vget lp.rowLower_ r = lower ∧ vget lp.rowUpper_ r = upper := by
  unfold rowBounds at h
  rw [List.getElem?_zip_eq_some] at h
  exact ⟨vget_eq_of_getElem? _ _ _ h.1, vget_eq_of_getElem? _ _ _ h.2⟩

theorem colLower_branch (x : Dbl) :
    (if x == HIGHS_CONST_INF.neg then INFINITY.neg else x) = x := by
  cases x <;> simp [HIGHS_CONST_INF, INFINITY, Dbl.neg]

theorem colUpper_branch (x : Dbl) :
    (if x == HIGHS_CONST_INF then INFINITY else x) = x := by
  cases x <;> simp [HIGHS_CONST_INF, INFINITY]

theorem foldl_colBoundStep (lp : HighsLp) (l : List Nat) (a b : List Dbl) :
    l.foldl (colBoundStep lp) (a, b) =
      (l.foldl (fun m col => m.set (0 + col) (vget lp.colLower_ col)) a,
       l.foldl (fun m col => m.set (0 + col) (vget lp.colUpper_ col)) b) := by
  rw [← foldl_pair]
  congr 1
  funext st col
  simp only [colBoundStep, colLower_branch, colUpper_branch, Nat.zero_add]

theorem foldl_slackBoundStep (lp : HighsLp) (gbr : List Nat) (l : List Nat) (a b : List Dbl) :
    l.foldl (slackBoundStep lp gbr) (a, b) =
      (l.foldl (fun m slack => m.set (lp.numCol_ + slack) (vget lp.rowLower_ (vget gbr slack))) a,
       l.foldl (fun m slack => m.set (lp.numCol_ + slack) (vget lp.rowUpper_ (vget gbr slack))) b) := by
  rw [← foldl_pair]
  rfl

/-- The lower-bound vector that `fillInIpxData` leaves, entry by entry. -/
theorem col_lb_getElem? (past_end : Nat → Int) (lp : HighsLp)
    (obj col_lb col_ub : List Dbl) (Ap Ai : List Int) (Ax rhs : List Dbl)
    (constraint_type : List Char) (j : Nat) :
    (fillInIpxData past_end lp obj col_lb col_ub Ap Ai Ax rhs constraint_type).col_lb[j]? =
      if j < lp.numCol_ then some (vget lp.colLower_ j)
      else if j < lp.numCol_ + (general_bounded_rows lp).length then
        some (vget lp.rowLower_ (vget (general_bounded_rows lp) (j - lp.numCol_)))
      else none := by
  simp only [fillInIpxData, foldl_colBoundStep, foldl_slackBoundStep, foldl_set_range,
    length_foldl_set, length_vresize]
  have hn : ((lp.numCol_ : Int) + ((general_bounded_rows lp).length : Int)).toNat
      = lp.numCol_ + (general_bounded_rows lp).length := by omega
  rw [hn]
  by_cases h1 : j < lp.numCol_
  · have : ¬ (lp.numCol_ ≤ j ∧ j < lp.numCol_ + (general_bounded_rows lp).length ∧
        j < lp.numCol_ + (general_bounded_rows lp).length) := by omega
    have h2 : 0 ≤ j ∧ j < 0 + lp.numCol_ ∧ j < lp.numCol_ + (general_bounded_rows lp).length := by
      omega
    simp [h1, this, h2]
  · by_cases h3 : j < lp.numCol_ + (general_bounded_rows lp).length
    · have : lp.numCol_ ≤ j ∧ j < lp.numCol_ + (general_bounded_rows lp).length ∧
        j < lp.numCol_ + (general_bounded_rows lp).length := by omega
      simp [h1, h3, this]
    · have : ¬ (lp.numCol_ ≤ j ∧ j < lp.numCol_ + (general_bounded_rows lp).length ∧
        j < lp.numCol_ + (general_bounded_rows lp).length) := by omega
      have h2 : ¬ (0 ≤ j ∧ j < 0 + lp.numCol_ ∧
          j < lp.numCol_ + (general_bounded_rows lp).length) := by omega
      simp [h1, h3]
      rw [length_vresize]
      omega

/-- The upper-bound vector that `fillInIpxData` leaves, entry by entry. -/
theorem col_ub_getElem? (past_end : Nat → Int) (lp : HighsLp)
    (obj col_lb col_ub : List Dbl) (Ap Ai : List Int) (Ax rhs : List Dbl)
    (constraint_type : List Char) (j : Nat) :
    (fillInIpxData past_end lp obj col_lb col_ub Ap Ai Ax rhs constraint_type).col_ub[j]? =
      if j < lp.numCol_ then some (vget lp.colUpper_ j)
      else if j < lp.numCol_ + (general_bounded_rows lp).length then
        some (vget lp.rowUpper_ (vget (general_bounded_rows lp) (j - lp.numCol_)))
      else none := by
  simp only [fillInIpxData, foldl_colBoundStep, foldl_slackBoundStep, foldl_set_range,
    length_foldl_set, length_vresize]
  have hn : ((lp.numCol_ : Int) + ((general_bounded_rows lp).length : Int)).toNat
      = lp.numCol_ + (general_bounded_rows lp).length := by omega
  rw [hn]
  by_cases h1 : j < lp.numCol_
  · have : ¬ (lp.numCol_ ≤ j ∧ j < lp.numCol_ + (general_bounded_rows lp).length ∧
        j < lp.numCol_ + (general_bounded_rows lp).length) := by omega
    have h2 : 0 ≤ j ∧ j < 0 + lp.numCol_ ∧ j < lp.numCol_ + (general_bounded_rows lp).length := by
      omega
    simp [h1, this, h2]
  · by_cases h3 : j < lp.numCol_ + (general_bounded_rows lp).length
    · have : lp.numCol_ ≤ j ∧ j < lp.numCol_ + (general_bounded_rows lp).length ∧
        j < lp.numCol_ + (general_bounded_rows lp).length := by omega
      simp [h1, h3, this]
    · have : ¬ (lp.numCol_ ≤ j ∧ j < lp.numCol_ + (general_bounded_rows lp).length ∧
        j < lp.numCol_ + (general_bounded_rows lp).length) := by omega
      have h2 : ¬ (0 ≤ j ∧ j < 0 + lp.numCol_ ∧
          j < lp.numCol_ + (general_bounded_rows lp).length) := by omega
      simp [h1, h3]
      rw [length_vresize]
      omega

theorem length_of_getElem?_all {α : Type} (l : List α) (n : Nat)
    (h : ∀ j, l[j]? = none ↔ n ≤ j) : l.length = n := by
  have h1 := (h l.length).mp (List.getElem?_eq_none (le_refl _))
  have h2 : l.length ≤ n := by
    by_contra hc
    have := (h n).mpr (le_refl _)
    rw [List.getElem?_eq_none_iff] at this
    omega
  omega

/-- C7: the column bound vectors that `fillInIpxData` leaves have length
`num_col`; on every original column they are the LP's `colLower_` and
`colUpper_` entries (an infinite bound stays infinite), and on the slack column
of the `i`-th doubly-bounded row `r` they are `rowLower_[r]` and `rowUpper_[r]`. -/
theorem fillInIpxData_col_bounds (past_end : Nat → Int) (lp : HighsLp)
    (obj col_lb col_ub : List Dbl) (Ap Ai : List Int) (Ax rhs : List Dbl)
    (constraint_type : List Char)
    (hcl : lp.colLower_.length = lp.numCol_) (hcu : lp.colUpper_.length = lp.numCol_)
    (hl : lp.rowLower_.length = lp.numRow_) (hu : lp.rowUpper_.length = lp.numRow_) :
    ((fillInIpxData past_end lp obj col_lb col_ub Ap Ai Ax rhs constraint_type).col_lb.length : Int)
      = (fillInIpxData past_end lp obj col_lb col_ub Ap Ai Ax rhs constraint_type).num_col ∧
    ((fillInIpxData past_end lp obj col_lb col_ub Ap Ai Ax rhs constraint_type).col_ub.length : Int)
      = (fillInIpxData past_end lp obj col_lb col_ub Ap Ai Ax rhs constraint_type).num_col ∧
    (∀ j, j < lp.numCol_ →
      (fillInIpxData past_end lp obj col_lb col_ub Ap Ai Ax rhs constraint_type).col_lb[j]?
        = lp.colLower_[j]? ∧
      (fillInIpxData past_end lp obj col_lb col_ub Ap Ai Ax rhs constraint_type).col_ub[j]?
        = lp.colUpper_[j]?) ∧
    (∀ i r lower upper, (doublyBoundedRows lp)[i]? = some r →
      (rowBounds lp)[r]? = some (lower, upper) →
      (fillInIpxData past_end lp obj col_lb col_ub Ap Ai Ax rhs constraint_type).col_lb[
        lp.numCol_ + i]? = some lower ∧
      (fillInIpxData past_end lp obj col_lb col_ub Ap Ai Ax rhs constraint_type).col_ub[
        lp.numCol_ + i]? = some upper) := by
  have hlen : ∀ (l : List Dbl),
      (∀ j, l[j]? = none ↔ lp.numCol_ + (general_bounded_rows lp).length ≤ j) →
      (l.length : Int) = (lp.numCol_ : Int) + ((general_bounded_rows lp).length : Int) := by
    intro l h
    rw [length_of_getElem?_all l _ h]
    push_cast
    rfl
  refine ⟨?_, ?_, ?_, ?_⟩
  · apply hlen
    intro j
    rw [col_lb_getElem?]
    split_ifs <;> simp <;> omega
  · apply hlen
    intro j
    rw [col_ub_getElem?]
    split_ifs <;> simp <;> omega
  · intro j hj
    rw [col_lb_getElem?, col_ub_getElem?, if_pos hj, if_pos hj]
    constructor
    · rw [List.getElem?_eq_getElem (by omega)]
      simp [vget, List.getD_eq_getElem?_getD, List.getElem?_eq_getElem (show j < lp.colLower_.length by omega)]
    · rw [List.getElem?_eq_getElem (by omega)]
      simp [vget, List.getD_eq_getElem?_getD, List.getElem?_eq_getElem (show j < lp.colUpper_.length by omega)]
  · intro i r lower upper hi hb
    rw [← general_bounded_rows_eq_doublyBoundedRows lp hl hu] at hi
    have hik : i < (general_bounded_rows lp).length := by
      by_contra hc
      rw [List.getElem?_eq_none (by omega)] at hi
      exact Option.noConfusion hi
    have hr := vget_eq_of_getElem? _ _ _ hi
    obtain ⟨h1, h2⟩ := getElem?_rowBounds lp r lower upper hb
    rw [col_lb_getElem?, col_ub_getElem?]
    have hn : ¬ (lp.numCol_ + i < lp.numCol_) := by omega
    have hs : lp.numCol_ + i < lp.numCol_ + (general_bounded_rows lp).length := by omega
    simp only [if_neg hn, if_pos hs, Nat.add_sub_cancel_left, hr, h1, h2, and_self]

theorem foldl_entryStep (lp : HighsLp) (rowmap : List Int) (l : List Nat)
    (st : List Int × List Dbl) :
    l.foldl (entryStep lp rowmap) st =
      (st.1 ++ (l.filter (hbAt lp)).map (fun k => vget rowmap (vget lp.Aindex_ k)),
       st.2 ++ (l.filter (hbAt lp)).map (fun k => vget lp.Avalue_ k)) := by
  induction l generalizing st with
  | nil => simp
  | cons x l ih =>
    rw [List.foldl_cons, ih]
    by_cases h : hbAt lp x = true
    · have h2 : hasBound (vget lp.rowLower_ (vget lp.Aindex_ x))
          (vget lp.rowUpper_ (vget lp.Aindex_ x)) = true := h
      simp [entryStep, h, h2]
    · have h2 : hasBound (vget lp.rowLower_ (vget lp.Aindex_ x))
          (vget lp.rowUpper_ (vget lp.Aindex_ x)) = false := by simpa [hbAt] using h
      simp [entryStep, h, h2]

theorem foldl_slackEntryStep (gbr : List Nat) (l : List Nat) (st : List Int × List Dbl) :
    l.foldl (slackEntryStep gbr) st =
      (st.1 ++ l.map (fun k => ((vget gbr k : Nat) : Int)), st.2 ++ l.map (fun _ => Dbl.fin (-1))) := by
  induction l generalizing st with
  | nil => simp
  | cons x l ih =>
    rw [List.foldl_cons, ih]
    simp [slackEntryStep]

/-- The index array `Ai` that `fillInIpxData` leaves. -/
theorem Ai_eq (past_end : Nat → Int) (lp : HighsLp)
    (obj col_lb col_ub : List Dbl) (Ap Ai : List Int) (Ax rhs : List Dbl)
    (constraint_type : List Char) :
    (fillInIpxData past_end lp obj col_lb col_ub Ap Ai Ax rhs constraint_type).Ai =
      Ai ++ ((List.range lp.Aindex_.length).filter (hbAt lp)).map
          (fun k => vget (reduced_rowmap past_end lp) (vget lp.Aindex_ k))
        ++ (List.range (general_bounded_rows lp).length).map
          (fun k => ((vget (general_bounded_rows lp) k : Nat) : Int)) := by
  simp [fillInIpxData, foldl_entryStep, foldl_slackEntryStep]

/-- The value array `Ax` that `fillInIpxData` leaves. -/
theorem Ax_eq (past_end : Nat → Int) (lp : HighsLp)
    (obj col_lb col_ub : List Dbl) (Ap Ai : List Int) (Ax rhs : List Dbl)
    (constraint_type : List Char) :
    (fillInIpxData past_end lp obj col_lb col_ub Ap Ai Ax rhs constraint_type).Ax =
      Ax ++ ((List.range lp.Aindex_.length).filter (hbAt lp)).map (fun k => vget lp.Avalue_ k)
        ++ (List.range (general_bounded_rows lp).length).map (fun _ => Dbl.fin (-1)) := by
  simp [fillInIpxData, foldl_entryStep, foldl_slackEntryStep]

theorem hbAt_eq (lp : HighsLp) (h : lp.rowLower_.length = lp.rowUpper_.length) (k : Nat) :
    hbAt lp k = !rowIsFree lp (vget lp.Aindex_ k) := by
  rw [hbAt, hasBound_eq_not_isFreeRow, rowIsFree, ← freeAt_eq lp h]
  rfl

theorem drop_take_eq_map_range' {α : Type} (l : List α) (d : α) (a n : Nat)
    (h : a + n ≤ l.length) :
    (l.drop a).take n = (List.range' a n).map (fun k => l.getD k d) := by
  apply List.ext_getElem?
  intro i
  by_cases hi : i < n
  · rw [List.getElem?_take_of_lt hi, List.getElem?_drop, List.getElem?_map,
      List.getElem?_range' _ _ hi]
    simp only [Option.map_some', Nat.one_mul]
    rw [List.getD_eq_getElem?_getD, List.getElem?_eq_getElem (by omega)]
    rfl
  · rw [List.getElem?_eq_none, List.getElem?_eq_none]
    · simp; omega
    · simp; omega

theorem foldl_sizesStep (lp : HighsLp) (col : Nat) (l : List Nat) (s : List Int) (j : Nat) :
    (l.foldl (sizesStep lp col) s)[j]? =
      if j = col then (s[j]?).map (fun v => v + (l.countP (hbAt lp) : Int)) else s[j]? := by
  induction l generalizing s with
  | nil =>
    by_cases h : j = col <;> simp [h]
  | cons x l ih =>
    rw [List.foldl_cons, ih]
    by_cases h : j = col
    · subst h
      simp only [if_true]
      by_cases hx : hbAt lp x = true
      · have hx2 : hasBound (vget lp.rowLower_ (vget lp.Aindex_ x))
            (vget lp.rowUpper_ (vget lp.Aindex_ x)) = true := hx
        simp only [sizesStep, hx2, if_true, List.getElem?_set, List.countP_cons, hx]
        by_cases hj : j < s.length
        · simp [hj, vget, List.getD_eq_getElem?_getD, List.getElem?_eq_getElem hj]
          omega
        · simp [hj, List.getElem?_eq_none (not_lt.mp hj)]
      · have hx2 : hasBound (vget lp.rowLower_ (vget lp.Aindex_ x))
            (vget lp.rowUpper_ (vget lp.Aindex_ x)) = false := by simpa [hbAt] using hx
        simp [sizesStep, hx2, List.countP_cons, hx]
    · simp only [h, if_false]
      unfold sizesStep
      split_ifs
      · rw [List.getElem?_set]
        simp [Ne.symm h]
      · rfl

theorem sizesLoop_getElem? (lp : HighsLp) (s : List Int) (m j : Nat) :
    ((List.range m).foldl
      (fun s col =>
        (List.range' (vget lp.Astart_ col)
          (vget lp.Astart_ (col + 1) - vget lp.Astart_ col)).foldl (sizesStep lp col) s) s)[j]? =
      if j < m then (s[j]?).map (fun v => v + (colCount lp j : Int)) else s[j]? := by
  induction m with
  | zero => simp
  | succ m ih =>
    rw [List.range_succ, List.foldl_append, List.foldl_cons, List.foldl_nil, foldl_sizesStep, ih]
    by_cases h : j = m
    · subst h
      simp [colCount]
    · by_cases h2 : j < m
      · have : j < m + 1 := by omega
        simp [h, h2, this]
      · have : ¬ j < m + 1 := by omega
        simp [h, h2, this]

theorem vget_sizes (lp : HighsLp) (n j : Nat) (hj : j < lp.numCol_) (hn : lp.numCol_ ≤ n) :
    vget (sizesLoop lp (List.replicate n 0)) j = (colCount lp j : Int) := by
  apply vget_eq_of_getElem?
  rw [sizesLoop, sizesLoop_getElem?, if_pos hj]
  have : j < n := by omega
  simp [List.getElem?_replicate, this]

theorem length_running_fold (g : List Int → Nat → Int) (l : List Nat) (a : List Int) :
    (l.foldl (fun a c => a.set (c + 1) (g a c)) a).length = a.length := by
  induction l generalizing a with
  | nil => rfl
  | cons x l ih => simp [List.foldl_cons, ih]

theorem running_sum_loop (g : Nat → Int) (o m : Nat) (a : List Int) (h : o + m < a.length)
    (j : Nat) :
    ((List.range' o m).foldl (fun a c => a.set (c + 1) (vget a c + g c)) a)[j]? =
      if o < j ∧ j ≤ o + m then some (vget a o + ((List.range' o (j - o)).map g).sum)
      else a[j]? := by
  induction m generalizing j with
  | zero =>
    have : ¬ (o < j ∧ j ≤ o + 0) := by omega
    rw [if_neg this]
    rfl
  | succ m ih =>
    have hprev : vget ((List.range' o m).foldl (fun a c => a.set (c + 1) (vget a c + g c)) a)
        (o + m) = vget a o + ((List.range' o m).map g).sum := by
      apply vget_eq_of_getElem?
      rw [ih (by omega)]
      by_cases hm : m = 0
      · subst hm
        have : ¬ (o < o + 0 ∧ o + 0 ≤ o + 0) := by omega
        rw [if_neg this]
        simp [vget, List.getD_eq_getElem?_getD, List.getElem?_eq_getElem (show o < a.length by omega)]
      · have : o < o + m ∧ o + m ≤ o + m := by omega
        rw [if_pos this]
        simp
    rw [List.range'_1_concat, List.foldl_append, List.foldl_cons, List.foldl_nil,
      List.getElem?_set, hprev, length_running_fold (fun a c => vget a c + g c)]
    by_cases h1 : o + m + 1 = j
    · subst h1
      have h2 : o + m + 1 < a.length := by omega
      have h3 : o < o + m + 1 ∧ o + m + 1 ≤ o + (m + 1) := by omega
      have h4 : o + m + 1 - o = m + 1 := by omega
      simp only [if_true, h2, h3, and_self, h4]
      rw [List.range'_1_concat]
      simp
      omega
    · rw [if_neg h1, ih (by omega)]
      by_cases h5 : o < j ∧ j ≤ o + m
      · have : o < j ∧ j ≤ o + (m + 1) := by omega
        rw [if_pos h5, if_pos this]
      · have : ¬ (o < j ∧ j ≤ o + (m + 1)) := by omega
        rw [if_neg h5, if_neg this]

theorem range_add_eq (a d : Nat) : List.range (a + d) = List.range a ++ List.range' a d := by
  rw [List.range_eq_range', List.range_eq_range']
  have := List.range'_append_1 0 a d
  simp only [Nat.zero_add] at this
  rw [Nat.add_comm a d]
  exact this.symm

theorem prefCount_succ (lp : HighsLp) (j : Nat)
    (h : vget lp.Astart_ j ≤ vget lp.Astart_ (j + 1)) :
    prefCount lp (j + 1) = prefCount lp j + colCount lp j := by
  have e : vget lp.Astart_ (j + 1)
      = vget lp.Astart_ j + (vget lp.Astart_ (j + 1) - vget lp.Astart_ j) := by omega
  unfold prefCount colCount
  generalize vget lp.Astart_ (j + 1) - vget lp.Astart_ j = d at e ⊢
  rw [e, range_add_eq, List.countP_append]

theorem sum_colCount (lp : HighsLp) (hc : ConsistentMatrix lp) (j : Nat) (hj : j ≤ lp.numCol_) :
    (((List.range' 0 j).map (fun i => (colCount lp i : Int))).sum) = (prefCount lp j : Int) := by
  induction j with
  | zero =>
    simp [prefCount, hc.2.1]
  | succ j ih =>
    rw [List.range'_1_concat, List.map_append, List.sum_append, ih (by omega),
      prefCount_succ lp j (hc.2.2.1 j (by omega))]
    simp

/-- The entries of `Ap` after lines 115–129, in terms of `sizes`. -/
theorem apLoop_getElem? (lp : HighsLp) (k : Nat) (sizes Ap : List Int) (j : Nat)
    (hj : j ≤ lp.numCol_ + k) :
    (apLoop lp ((lp.numCol_ : Int) + (k : Int)) sizes Ap)[j]? =
      some (if j ≤ lp.numCol_ then ((List.range' 0 j).map (fun i => vget sizes i)).sum
        else ((List.range' 0 lp.numCol_).map (fun i => vget sizes i)).sum
          + ((j - lp.numCol_ : Nat) : Int)) := by
  have hn1 : ((lp.numCol_ : Int) + (k : Int) + 1).toNat = lp.numCol_ + k + 1 := by omega
  have hn2 : ((lp.numCol_ : Int) + (k : Int)).toNat - lp.numCol_ = k := by omega
  have hlen1 : ((vresize Ap (lp.numCol_ + k + 1)).set 0 0).length = lp.numCol_ + k + 1 := by
    rw [List.length_set, length_vresize]
  have h0 : vget ((vresize Ap (lp.numCol_ + k + 1)).set 0 0) 0 = 0 := by
    apply vget_eq_of_getElem?
    rw [List.getElem?_set]
    simp [length_vresize]
  have hmid : ∀ i, i ≤ lp.numCol_ →
      ((List.range' 0 lp.numCol_).foldl (fun a col => a.set (col + 1) (vget a col + vget sizes col))
        ((vresize Ap (lp.numCol_ + k + 1)).set 0 0))[i]? =
        some (((List.range' 0 i).map (fun i => vget sizes i)).sum) := by
    intro i hi
    rw [running_sum_loop (fun i => vget sizes i) 0 lp.numCol_ _ (by rw [hlen1]; omega)]
    by_cases hi0 : i = 0
    · subst hi0
      have : ¬ (0 < 0 ∧ 0 ≤ 0 + lp.numCol_) := by omega
      rw [if_neg this, List.getElem?_set]
      simp [length_vresize]
    · have : 0 < i ∧ i ≤ 0 + lp.numCol_ := by omega
      rw [if_pos this, h0]
      simp
  unfold apLoop
  simp only [hn1, hn2, List.range_eq_range']
  rw [running_sum_loop (fun _ => (1 : Int)) lp.numCol_ k _
    (by rw [length_running_fold (fun a col => vget a col + vget sizes col), hlen1]; omega)]
  by_cases hjc : j ≤ lp.numCol_
  · have : ¬ (lp.numCol_ < j ∧ j ≤ lp.numCol_ + k) := by omega
    rw [if_neg this, if_pos hjc, hmid j hjc]
  · have : lp.numCol_ < j ∧ j ≤ lp.numCol_ + k := by omega
    rw [if_pos this, if_neg hjc, vget_eq_of_getElem? _ _ _ (hmid lp.numCol_ (le_refl _))]
    simp

theorem Ap_getElem? (past_end : Nat → Int) (lp : HighsLp)
    (obj col_lb col_ub : List Dbl) (Ap Ai : List Int) (Ax rhs : List Dbl)
    (constraint_type : List Char) (hc : ConsistentMatrix lp) (j : Nat)
    (hj : j ≤ lp.numCol_ + (general_bounded_rows lp).length) :
    (fillInIpxData past_end lp obj col_lb col_ub Ap Ai Ax rhs constraint_type).Ap[j]?
      = some (apValue lp j) := by
  have hsum : ∀ i, i ≤ lp.numCol_ →
      ((List.range' 0 i).map (fun c => vget (sizesLoop lp (List.replicate
        ((lp.numCol_ : Int) + ((general_bounded_rows lp).length : Int)).toNat 0)) c)).sum
        = (prefCount lp i : Int) := by
    intro i hi
    rw [← sum_colCount lp hc i hi]
    congr 1
    apply List.map_congr_left
    intro c hcm
    rw [List.mem_range'_1] at hcm
    exact vget_sizes lp _ c (by omega) (by omega)
  simp only [fillInIpxData]
  rw [apLoop_getElem? lp _ _ _ j hj, apValue]
  by_cases hjc : j ≤ lp.numCol_
  · rw [if_pos hjc, if_pos hjc, hsum j hjc]
  · rw [if_neg hjc, if_neg hjc, hsum _ (le_refl _)]

theorem vget_Ap (past_end : Nat → Int) (lp : HighsLp)
    (obj col_lb col_ub : List Dbl) (Ap Ai : List Int) (Ax rhs : List Dbl)
    (constraint_type : List Char) (hc : ConsistentMatrix lp) (j : Nat)
    (hj : j ≤ lp.numCol_ + (general_bounded_rows lp).length) :
    vget (fillInIpxData past_end lp obj col_lb col_ub Ap Ai Ax rhs constraint_type).Ap j
      = apValue lp j :=
  vget_eq_of_getElem? _ _ _ (Ap_getElem? past_end lp obj col_lb col_ub Ap Ai Ax rhs
    constraint_type hc j hj)

theorem Astart_mono (lp : HighsLp) (hc : ConsistentMatrix lp) (i j : Nat) (hij : i ≤ j)
    (hj : j ≤ lp.numCol_) : vget lp.Astart_ i ≤ vget lp.Astart_ j := by
  induction j with
  | zero =>
    have : i = 0 := by omega
    subst this
    exact le_refl _
  | succ j ih =>
    by_cases h : i = j + 1
    · subst h
      exact le_refl _
    · exact le_trans (ih (by omega) (by omega)) (hc.2.2.1 j (by omega))

theorem zip_entries (past_end : Nat → Int) (lp : HighsLp)
    (obj col_lb col_ub : List Dbl) (Ap : List Int) (rhs : List Dbl)
    (constraint_type : List Char) :
    ((fillInIpxData past_end lp obj col_lb col_ub Ap [] [] rhs constraint_type).Ai.zip
      (fillInIpxData past_end lp obj col_lb col_ub Ap [] [] rhs constraint_type).Ax) =
      ((List.range lp.Aindex_.length).filter (hbAt lp)).map
          (fun k => (vget (reduced_rowmap past_end lp) (vget lp.Aindex_ k), vget lp.Avalue_ k))
        ++ (List.range (general_bounded_rows lp).length).map
          (fun k => (((vget (general_bounded_rows lp) k : Nat) : Int), Dbl.fin (-1))) := by
  rw [Ai_eq, Ax_eq, List.nil_append, List.nil_append, List.zip_append (by simp),
    List.zip_map', List.zip_map']

theorem origColumn_eq (lp : HighsLp) (hc : ConsistentMatrix lp) (j : Nat) (hj : j < lp.numCol_) :
    origColumn lp j =
      (List.range' (vget lp.Astart_ j) (vget lp.Astart_ (j + 1) - vget lp.Astart_ j)).map
        (fun k => (vget lp.Aindex_ k, vget lp.Avalue_ k)) := by
  have h1 := Astart_mono lp hc (j + 1) lp.numCol_ (by omega) (le_refl _)
  have h2 := hc.2.2.1 j hj
  rw [hc.2.2.2.1] at h1
  unfold origColumn
  rw [drop_take_eq_map_range' _ (default, default) _ _
    (by rw [List.length_zip, hc.2.2.2.2.1, Nat.min_self]; omega)]
  apply List.map_congr_left
  intro k _
  rw [getD_zip_pair _ _ _ _ hc.2.2.2.2.1.symm]
  rfl

theorem range_split3 (a d n : Nat) (h : a + d ≤ n) :
    List.range n = List.range a ++ (List.range' a d ++ List.range' (a + d) (n - (a + d))) := by
  have e : n = a + d + (n - (a + d)) := by omega
  conv_lhs => rw [e]
  rw [range_add_eq, range_add_eq, List.append_assoc]

theorem ipxColumn_eq (past_end : Nat → Int) (lp : HighsLp)
    (obj col_lb col_ub : List Dbl) (Ap : List Int) (rhs : List Dbl)
    (constraint_type : List Char) (hc : ConsistentMatrix lp) (j : Nat) (hj : j < lp.numCol_) :
    ipxColumn (fillInIpxData past_end lp obj col_lb col_ub Ap [] [] rhs constraint_type) j =
      ((List.range' (vget lp.Astart_ j) (vget lp.Astart_ (j + 1) - vget lp.Astart_ j)).filter
        (hbAt lp)).map
        (fun k => (vget (reduced_rowmap past_end lp) (vget lp.Aindex_ k), vget lp.Avalue_ k)) := by
  have h1 := Astart_mono lp hc (j + 1) lp.numCol_ (by omega) (le_refl _)
  have h2 := hc.2.2.1 j hj
  rw [hc.2.2.2.1] at h1
  unfold ipxColumn
  rw [vget_Ap _ _ _ _ _ _ _ _ _ _ hc j (by omega), vget_Ap _ _ _ _ _ _ _ _ _ _ hc (j + 1) (by omega),
    zip_entries]
  have e1 : apValue lp j = (prefCount lp j : Int) := by
    unfold apValue
    rw [if_pos (by omega)]
  have e2 : apValue lp (j + 1) = (prefCount lp j : Int) + (colCount lp j : Int) := by
    unfold apValue
    rw [if_pos (by omega), prefCount_succ lp j h2]
    push_cast
    rfl
  rw [e2, e1]
  have e3 : ((prefCount lp j : Int)).toNat = prefCount lp j := by omega
  have e4 : ((prefCount lp j : Int) + (colCount lp j : Int) - (prefCount lp j : Int)).toNat
      = colCount lp j := by omega
  rw [e3, e4, range_split3 (vget lp.Astart_ j) (vget lp.Astart_ (j + 1) - vget lp.Astart_ j)
    lp.Aindex_.length (by omega)]
  simp only [List.filter_append, List.map_append, List.append_assoc]
  rw [List.drop_left' (by rw [List.length_map, prefCount, List.countP_eq_length_filter]),
    List.take_left' (by rw [List.length_map, colCount, List.countP_eq_length_filter])]

/-- The matrix copy of lines 104–143, stated relative to the local
`reduced_rowmap`: for an LP with a consistent column-major matrix, called with
empty `Ai` and `Ax` buffers, the entries of every original column `j` in the
transformed matrix (positions `Ap[j] .. Ap[j+1]-1` of `Ai` and `Ax`) are the
original entries of column `j` whose row is not free, in their original order,
values unchanged and each row index replaced by the value `reduced_rowmap` holds
for it, which is the row's reduced index only when the map is the compaction;
`Ap[0] = 0`, `Ap` is non-decreasing, and `Ap[num_col] = |Ai| = |Ax|` is the
number of original nonzeros in non-free rows plus `k`, at most the number of
original nonzeros plus `k`. -/
theorem fillInIpxData_matrix (past_end : Nat → Int) (lp : HighsLp)
    (obj col_lb col_ub : List Dbl) (Ap : List Int) (rhs : List Dbl)
    (constraint_type : List Char) (hc : ConsistentMatrix lp) :
    (∀ j, j < lp.numCol_ →
      ipxColumn (fillInIpxData past_end lp obj col_lb col_ub Ap [] [] rhs constraint_type) j =
        ((origColumn lp j).filter (fun e => !rowIsFree lp e.1)).map
          (fun e => (vget (reduced_rowmap past_end lp) e.1, e.2))) ∧
    (fillInIpxData past_end lp obj col_lb col_ub Ap [] [] rhs constraint_type).Ap[0]? = some 0 ∧
    (∀ j : Nat,
      (j : Int) < (fillInIpxData past_end lp obj col_lb col_ub Ap [] [] rhs constraint_type).num_col →
      vget (fillInIpxData past_end lp obj col_lb col_ub Ap [] [] rhs constraint_type).Ap j ≤
        vget (fillInIpxData past_end lp obj col_lb col_ub Ap [] [] rhs constraint_type).Ap (j + 1)) ∧
    (fillInIpxData past_end lp obj col_lb col_ub Ap [] [] rhs constraint_type).Ap[
        (fillInIpxData past_end lp obj col_lb col_ub Ap [] [] rhs constraint_type).num_col.toNat]?
      = some (((fillInIpxData past_end lp obj col_lb col_ub Ap [] [] rhs constraint_type).Ai.length
          : Nat) : Int) ∧
    (fillInIpxData past_end lp obj col_lb col_ub Ap [] [] rhs constraint_type).Ai.length
      = (fillInIpxData past_end lp obj col_lb col_ub Ap [] [] rhs constraint_type).Ax.length ∧
    (fillInIpxData past_end lp obj col_lb col_ub Ap [] [] rhs constraint_type).Ai.length
      = nonFreeNonzeros lp + numDoublyBounded lp ∧
    nonFreeNonzeros lp + numDoublyBounded lp ≤ lp.Aindex_.length + numDoublyBounded lp := by
  have hl := hc.2.2.2.2.2.2.1
  have hu := hc.2.2.2.2.2.2.2
  have hk := length_general_bounded_rows lp hl hu
  have hnum : (fillInIpxData past_end lp obj col_lb col_ub Ap [] [] rhs constraint_type).num_col
      = (lp.numCol_ : Int) + ((general_bounded_rows lp).length : Int) := rfl
  have hF : ((List.range lp.Aindex_.length).filter (hbAt lp)).length = nonFreeNonzeros lp := by
    rw [nonFreeNonzeros, ← filter_range_getD_length lp.Aindex_ default]
    congr 1
    apply List.filter_congr
    intro k _
    exact hbAt_eq lp (hl.trans hu.symm) k
  have hP : prefCount lp lp.numCol_ = nonFreeNonzeros lp := by
    rw [prefCount, hc.2.2.2.1, List.countP_eq_length_filter, hF]
  have hAi : (fillInIpxData past_end lp obj col_lb col_ub Ap [] [] rhs constraint_type).Ai.length
      = nonFreeNonzeros lp + numDoublyBounded lp := by
    rw [Ai_eq]
    simp [hF, hk]
  refine ⟨?_, ?_, ?_, ?_, ?_, hAi, ?_⟩
  · intro j hj
    rw [ipxColumn_eq past_end lp obj col_lb col_ub Ap rhs constraint_type hc j hj,
      origColumn_eq lp hc j hj, List.filter_map, List.map_map]
    congr 1
    apply List.filter_congr
    intro k _
    exact hbAt_eq lp (hl.trans hu.symm) k
  · rw [Ap_getElem? _ _ _ _ _ _ _ _ _ _ hc 0 (by omega), apValue, if_pos (by omega), prefCount,
      hc.2.1]
    rfl
  · intro j hj
    rw [hnum] at hj
    rw [vget_Ap _ _ _ _ _ _ _ _ _ _ hc j (by omega), vget_Ap _ _ _ _ _ _ _ _ _ _ hc (j + 1) (by omega)]
    unfold apValue
    by_cases h1 : j + 1 ≤ lp.numCol_
    · rw [if_pos (by omega), if_pos h1, prefCount_succ lp j (hc.2.2.1 j (by omega))]
      push_cast
      omega
    · by_cases h2 : j ≤ lp.numCol_
      · rw [if_pos h2, if_neg h1]
        have : j = lp.numCol_ := by omega
        subst this
        omega
      · rw [if_neg h2, if_neg h1]
        omega
  · rw [hnum, hAi, ← hk]
    have : ((lp.numCol_ : Int) + ((general_bounded_rows lp).length : Int)).toNat
        = lp.numCol_ + (general_bounded_rows lp).length := by omega
    rw [this, Ap_getElem? _ _ _ _ _ _ _ _ _ _ hc _ (le_refl _), apValue]
    by_cases h0 : (general_bounded_rows lp).length = 0
    · rw [h0]
      simp [hP]
    · rw [if_neg (by omega), hP]
      simp
  · rw [Ai_eq, Ax_eq]
    simp
  · have : nonFreeNonzeros lp ≤ lp.Aindex_.length := List.countP_le_length _
    omega

theorem buildRowmap_nil (past_end : Nat → Int) (n : Nat) :
    buildRowmap past_end n [] = (List.range n).map Int.ofNat := by
  unfold buildRowmap
  simp only [List.length_nil, gt_iff_lt, lt_self_iff_false, if_false]
  apply List.ext_getElem?
  intro j
  have h := foldl_set_range 0 (fun r => (r : Int)) n (List.replicate n (-1)) j
  simp only [Nat.zero_add] at h
  rw [h]
  by_cases hj : j < n
  · simp [hj, List.getElem?_range hj]
  · simp only [hj, false_and, and_false, if_false]
    rw [List.getElem?_eq_none (by simp; omega), List.getElem?_eq_none (by simp; omega)]

theorem reportIpxSolveStatus_error (logfile : List LogLine) (solve_status error_flag : Int)
    (h1 : solve_status ≠ IPX_STATUS_solved) (h2 : solve_status ≠ IPX_STATUS_stopped) :
    (reportIpxSolveStatus logfile solve_status error_flag).1 = HighsStatus.Error := by
  unfold reportIpxSolveStatus
  rw [if_neg h1, if_neg h2]
  split_ifs <;> rfl

theorem reportIpxIpmCrossoverStatus_error (logfile : List LogLine) (status : Int)
    (ipm_status : Bool) (h : status = IPX_STATUS_failed ∨ status = IPX_STATUS_debug) :
    (reportIpxIpmCrossoverStatus logfile status ipm_status).1 = HighsStatus.Error := by
  rcases h with h | h <;> subst h <;> rfl

/-- C9: when the solve status is `invalid_input` (any error flag),
`out_of_memory`, `internal_error`, or a code that is none of the recognised
solve statuses, `reportIpxSolveStatus` returns `Error` and `solveLpIpx` returns
`HighsStatus::Error` with model status `SOLVE_ERROR`, whatever the two
sub-statuses are; no solution is fetched or mapped, and `highs_basis` and
`highs_solution` are left unchanged. -/
theorem solveLpIpx_fatal_solve_status (env : Collaborators) (past_end : Nat → Int)
    (options : HighsOptions) (lp : HighsLp) (lps : LpSolver) (highs_basis : HighsBasis)
    (highs_solution : HighsSolution) (unscaled_model_status : HighsModelStatus)
    (unscaled_solution_params : HighsSolutionParams)
    (h : lps.Solve = IPX_STATUS_invalid_input ∨ lps.Solve = IPX_STATUS_out_of_memory ∨
      lps.Solve = IPX_STATUS_internal_error ∨
      (lps.Solve ≠ IPX_STATUS_solved ∧ lps.Solve ≠ IPX_STATUS_stopped ∧
        lps.Solve ≠ IPX_STATUS_invalid_input ∧ lps.Solve ≠ IPX_STATUS_out_of_memory ∧
        lps.Solve ≠ IPX_STATUS_internal_error)) :
    (∀ (logfile : List LogLine) (error_flag : Int),
      (reportIpxSolveStatus logfile lps.Solve error_flag).1 = HighsStatus.Error) ∧
    (solveLpIpx env past_end options lp lps highs_basis highs_solution unscaled_model_status
      unscaled_solution_params).1 = HighsStatus.Error ∧
    (solveLpIpx env past_end options lp lps highs_basis highs_solution unscaled_model_status
      unscaled_solution_params).2.unscaled_model_status = HighsModelStatus.SOLVE_ERROR ∧
    (solveLpIpx env past_end options lp lps highs_basis highs_solution unscaled_model_status
      unscaled_solution_params).2.highs_basis = highs_basis ∧
    (solveLpIpx env past_end options lp lps highs_basis highs_solution unscaled_model_status
      unscaled_solution_params).2.highs_solution = highs_solution ∧
    (solveLpIpx env past_end options lp lps highs_basis highs_solution unscaled_model_status
      unscaled_solution_params).2.calls = [] := by
  have hne : lps.Solve ≠ IPX_STATUS_solved ∧ lps.Solve ≠ IPX_STATUS_stopped := by
    rcases h with h | h | h | h
    · rw [h]; decide
    · rw [h]; decide
    · rw [h]; decide
    · exact ⟨h.1, h.2.1⟩
  have herr := fun logfile error_flag =>
    reportIpxSolveStatus_error logfile lps.Solve error_flag hne.1 hne.2
  refine ⟨herr, ?_⟩
  have hres : (fillInIpxData past_end lp [] [] [] [] [] [] [] []).result = IpxStatus.OK := rfl
  simp only [solveLpIpx, hres, ne_eq, not_true_eq_false, if_false, hne.1, not_false_eq_true,
    herr, and_self, if_true]

/-- C10: when the interior-point sub-status or the crossover sub-status is
`failed` or `debug`, `solveLpIpx` returns `HighsStatus::Error` with model status
`SOLVE_ERROR`, whatever the solve status and the other sub-status are; none of
the later rules takes effect: no solution is fetched or mapped, and
`highs_basis` and `highs_solution` are left unchanged. -/
theorem solveLpIpx_fatal_sub_status (env : Collaborators) (past_end : Nat → Int)
    (options : HighsOptions) (lp : HighsLp) (lps : LpSolver) (highs_basis : HighsBasis)
    (highs_solution : HighsSolution) (unscaled_model_status : HighsModelStatus)
    (unscaled_solution_params : HighsSolutionParams)
    (h : lps.GetInfo.status_ipm = IPX_STATUS_failed ∨ lps.GetInfo.status_ipm = IPX_STATUS_debug ∨
      lps.GetInfo.status_crossover = IPX_STATUS_failed ∨
      lps.GetInfo.status_crossover = IPX_STATUS_debug) :
    (solveLpIpx env past_end options lp lps highs_basis highs_solution unscaled_model_status
      unscaled_solution_params).1 = HighsStatus.Error ∧
    (solveLpIpx env past_end options lp lps highs_basis highs_solution unscaled_model_status
      unscaled_solution_params).2.unscaled_model_status = HighsModelStatus.SOLVE_ERROR ∧
    (solveLpIpx env past_end options lp lps highs_basis highs_solution unscaled_model_status
      unscaled_solution_params).2.highs_basis = highs_basis ∧
    (solveLpIpx env past_end options lp lps highs_basis highs_solution unscaled_model_status
      unscaled_solution_params).2.highs_solution = highs_solution ∧
    (solveLpIpx env past_end options lp lps highs_basis highs_solution unscaled_model_status
      unscaled_solution_params).2.calls = [] := by
  have hres : (fillInIpxData past_end lp [] [] [] [] [] [] [] []).result = IpxStatus.OK := rfl
  have hsub : ∀ l1 l2 : List LogLine,
      (reportIpxIpmCrossoverStatus l1 lps.GetInfo.status_ipm true).1 = HighsStatus.Error ∨
      (reportIpxIpmCrossoverStatus l2 lps.GetInfo.status_crossover false).1
        = HighsStatus.Error := by
    intro l1 l2
    rcases h with h | h | h | h
    · exact Or.inl (reportIpxIpmCrossoverStatus_error _ _ _ (Or.inl h))
    · exact Or.inl (reportIpxIpmCrossoverStatus_error _ _ _ (Or.inr h))
    · exact Or.inr (reportIpxIpmCrossoverStatus_error _ _ _ (Or.inl h))
    · exact Or.inr (reportIpxIpmCrossoverStatus_error _ _ _ (Or.inr h))
  simp only [solveLpIpx, hres, ne_eq, not_true_eq_false, if_false]
  by_cases h1 : ¬ lps.Solve = IPX_STATUS_solved ∧
      (reportIpxSolveStatus options.logfile lps.Solve lps.GetInfo.errflag).1 = HighsStatus.Error
  · rw [if_pos h1]
    exact ⟨rfl, rfl, rfl, rfl, rfl⟩
  · rw [if_neg h1, if_pos (hsub _ _)]
    refine ⟨rfl, rfl, ?_, ?_, ?_⟩ <;> split_ifs <;> rfl

/-- Witness of C1 on `lpMixed`: one doubly-bounded and one free row, so
`num_col = 2 + 1` and `num_row = 5 − 1`. -/
theorem fillInIpxData_counts_witness :
    lpMixed.rowLower_.length = lpMixed.numRow_ ∧ lpMixed.rowUpper_.length = lpMixed.numRow_ ∧
    numDoublyBounded lpMixed = 1 ∧ numFree lpMixed = 1 ∧
    (fillInIpxData (fun _ => 0) lpMixed [] [] [] [] [] [] [] []).num_col
      = (lpMixed.numCol_ : Int) + (numDoublyBounded lpMixed : Int) ∧
    (fillInIpxData (fun _ => 0) lpMixed [] [] [] [] [] [] [] []).num_row
      = (lpMixed.numRow_ : Int) - (numFree lpMixed : Int) :=
  ⟨by decide, by decide, by decide, by decide,
    fillInIpxData_counts (fun _ => 0) lpMixed [] [] [] [] [] [] [] [] (by decide) (by decide)⟩

/-- C2 (failing input): on `lpFreeBoxedFree` the slack column is column 2, its
single entry stands at position `Ap[2] = 2` with value `−1`, and its row index
`Ai[2]` is the original row number 1, while `reduced_rowmap[1] = 0` and
`num_row = 1`. -/
theorem slack_entry_keeps_original_row_index :
    general_bounded_rows lpFreeBoxedFree = [1] ∧
    free_rows lpFreeBoxedFree = [0, 2] ∧
    reduced_rowmap (fun _ => 0) lpFreeBoxedFree = [-1, 0, -1] ∧
    (fillInIpxData (fun _ => 0) lpFreeBoxedFree [] [] [] [] [] [] [] []).num_row = 1 ∧
    (fillInIpxData (fun _ => 0) lpFreeBoxedFree [] [] [] [] [] [] [] []).Ap = [0, 1, 2, 3] ∧
    (fillInIpxData (fun _ => 0) lpFreeBoxedFree [] [] [] [] [] [] [] []).Ax
      = [Dbl.fin 2, Dbl.fin 3, Dbl.fin (-1)] ∧
    (fillInIpxData (fun _ => 0) lpFreeBoxedFree [] [] [] [] [] [] [] []).Ai = [0, 0, 1] := by
  decide

/-- C5 (failing input): on `lpFreeFirst`, `free_rows` is `[0]`; at row 1 the
loop reads `free_rows[1]`, past the end. When the memory there holds 1, the
retained row 1 is skipped like a free row and keeps `−1`; when it holds 0, the
row gets the reduced index 0. -/
theorem reduced_rowmap_depends_on_memory_past_free_rows :
    free_rows lpFreeFirst = [0] ∧
    FreeBounds (vget (rowBounds lpFreeFirst) 1) = false ∧
    reduced_rowmap (fun _ => 1) lpFreeFirst = [-1, -1] ∧
    reduced_rowmap (fun _ => 0) lpFreeFirst = [-1, 0] := by
  decide

/-- C6 (failing input): on `lpBoxed` (one column, one doubly-bounded row)
`num_col` is 2 and `col_lb`, `col_ub` have 2 entries, but `obj` has 3: the
`resize` to `num_col` is followed by the `insert` of `num_slack` further zeros. -/
theorem obj_longer_than_num_col :
    (fillInIpxData (fun _ => 0) lpBoxed [] [] [] [] [] [] [] []).num_col = 2 ∧
    (fillInIpxData (fun _ => 0) lpBoxed [] [] [] [] [] [] [] []).col_lb.length = 2 ∧
    (fillInIpxData (fun _ => 0) lpBoxed [] [] [] [] [] [] [] []).col_ub.length = 2 ∧
    (fillInIpxData (fun _ => 0) lpBoxed [] [] [] [] [] [] [] []).obj.length = 3 ∧
    (fillInIpxData (fun _ => 0) lpBoxed [] [] [] [] [] [] [] []).obj.drop 1
      = [Dbl.fin 0, Dbl.fin 0] := by
  decide

/-- The statement of `fillInIpxData_matrix` on `lpMixed` (consistent matrix), at
column 0. -/
theorem fillInIpxData_matrix_witness :
    ConsistentMatrix lpMixed ∧
    ipxColumn (fillInIpxData (fun _ => 0) lpMixed [] [] [] [] [] [] [] []) 0 =
      ((origColumn lpMixed 0).filter (fun e => !rowIsFree lpMixed e.1)).map
        (fun e => (vget (reduced_rowmap (fun _ => 0) lpMixed) e.1, e.2)) ∧
    (fillInIpxData (fun _ => 0) lpMixed [] [] [] [] [] [] [] []).Ap[0]? = some 0 ∧
    vget (fillInIpxData (fun _ => 0) lpMixed [] [] [] [] [] [] [] []).Ap 0 ≤
      vget (fillInIpxData (fun _ => 0) lpMixed [] [] [] [] [] [] [] []).Ap 1 ∧
    (fillInIpxData (fun _ => 0) lpMixed [] [] [] [] [] [] [] []).Ai.length
      = nonFreeNonzeros lpMixed + numDoublyBounded lpMixed :=
  have h := fillInIpxData_matrix (fun _ => 0) lpMixed [] [] [] [] [] [] (by decide)
  ⟨by decide, h.1 0 (by decide), h.2.1, h.2.2.1 0 (by decide), h.2.2.2.2.2.1⟩

/-- Witness of C7 on `lpMixed`: column 0 keeps its bounds, and the slack column
of row 1 (the first doubly-bounded row) gets the bounds `[2, 10]`. -/
theorem fillInIpxData_col_bounds_witness :
    lpMixed.colLower_.length = lpMixed.numCol_ ∧ lpMixed.colUpper_.length = lpMixed.numCol_ ∧
    lpMixed.rowLower_.length = lpMixed.numRow_ ∧ lpMixed.rowUpper_.length = lpMixed.numRow_ ∧
    (doublyBoundedRows lpMixed)[0]? = some 1 ∧
    (rowBounds lpMixed)[1]? = some (Dbl.fin 2, Dbl.fin 10) ∧
    (fillInIpxData (fun _ => 0) lpMixed [] [] [] [] [] [] [] []).col_lb[0]?
      = lpMixed.colLower_[0]? ∧
    (fillInIpxData (fun _ => 0) lpMixed [] [] [] [] [] [] [] []).col_lb[lpMixed.numCol_ + 0]?
      = some (Dbl.fin 2) ∧
    (fillInIpxData (fun _ => 0) lpMixed [] [] [] [] [] [] [] []).col_ub[lpMixed.numCol_ + 0]?
      = some (Dbl.fin 10) :=
  have h := fillInIpxData_col_bounds (fun _ => 0) lpMixed [] [] [] [] [] [] [] []
    (by decide) (by decide) (by decide) (by decide)
  have h2 := h.2.2.2 0 1 (Dbl.fin 2) (Dbl.fin 10) (by decide) (by decide)
  ⟨by decide, by decide, by decide, by decide, by decide, by decide,
    (h.2.2.1 0 (by decide)).1, h2.1, h2.2⟩

/-- Witness of C9: a session that reports `out_of_memory`. -/
theorem solveLpIpx_fatal_solve_status_witness :
    (lpsWith IPX_STATUS_out_of_memory 0 IPX_STATUS_not_run IPX_STATUS_not_run).Solve
      = IPX_STATUS_out_of_memory ∧
    (solveLpIpx envId (fun _ => 0) optionsEmpty lpMixed
      (lpsWith IPX_STATUS_out_of_memory 0 IPX_STATUS_not_run IPX_STATUS_not_run)
      basisEmpty solutionEmpty HighsModelStatus.NOTSET paramsZero).1 = HighsStatus.Error ∧
    (solveLpIpx envId (fun _ => 0) optionsEmpty lpMixed
      (lpsWith IPX_STATUS_out_of_memory 0 IPX_STATUS_not_run IPX_STATUS_not_run)
      basisEmpty solutionEmpty HighsModelStatus.NOTSET paramsZero).2.unscaled_model_status
      = HighsModelStatus.SOLVE_ERROR :=
  have h := solveLpIpx_fatal_solve_status envId (fun _ => 0) optionsEmpty lpMixed
    (lpsWith IPX_STATUS_out_of_memory 0 IPX_STATUS_not_run IPX_STATUS_not_run)
    basisEmpty solutionEmpty HighsModelStatus.NOTSET paramsZero (Or.inr (Or.inl rfl))
  ⟨rfl, h.2.1, h.2.2.1⟩

/-- Witness of C10: a session that reports `solved` with a failed interior-point
phase. -/
theorem solveLpIpx_fatal_sub_status_witness :
    (lpsWith IPX_STATUS_solved 0 IPX_STATUS_failed IPX_STATUS_optimal).GetInfo.status_ipm
      = IPX_STATUS_failed ∧
    (solveLpIpx envId (fun _ => 0) optionsEmpty lpMixed
      (lpsWith IPX_STATUS_solved 0 IPX_STATUS_failed IPX_STATUS_optimal)
      basisEmpty solutionEmpty HighsModelStatus.NOTSET paramsZero).1 = HighsStatus.Error ∧
    (solveLpIpx envId (fun _ => 0) optionsEmpty lpMixed
      (lpsWith IPX_STATUS_solved 0 IPX_STATUS_failed IPX_STATUS_optimal)
      basisEmpty solutionEmpty HighsModelStatus.NOTSET paramsZero).2.unscaled_model_status
      = HighsModelStatus.SOLVE_ERROR :=
  have h := solveLpIpx_fatal_sub_status envId (fun _ => 0) optionsEmpty lpMixed
    (lpsWith IPX_STATUS_solved 0 IPX_STATUS_failed IPX_STATUS_optimal)
    basisEmpty solutionEmpty HighsModelStatus.NOTSET paramsZero (Or.inl rfl)
  ⟨rfl, h.1, h.2.1⟩

theorem fillInIpxData_result (past_end : Nat → Int) (lp : HighsLp)
    (obj col_lb col_ub : List Dbl) (Ap Ai : List Int) (Ax rhs : List Dbl)
    (constraint_type : List Char) :
    (fillInIpxData past_end lp obj col_lb col_ub Ap Ai Ax rhs constraint_type).result
      = IpxStatus.OK := rfl

theorem solveLpIpxAsserting_of_no_failed_assert (env : Collaborators) (past_end : Nat → Int)
    (options : HighsOptions) (lp : HighsLp) (lps : LpSolver) (highs_basis : HighsBasis)
    (highs_solution : HighsSolution) (unscaled_model_status : HighsModelStatus)
    (unscaled_solution_params : HighsSolutionParams)
    (h : (solveLpIpx env past_end options lp lps highs_basis highs_solution unscaled_model_status
      unscaled_solution_params).2.failed_asserts = []) :
    solveLpIpxAsserting env past_end options lp lps highs_basis highs_solution
      unscaled_model_status unscaled_solution_params = some (solveLpIpx env past_end options lp lps highs_basis highs_solution unscaled_model_status
      unscaled_solution_params) := by
  unfold solveLpIpxAsserting
  rw [if_pos h]

theorem solveLpIpxAsserting_eq_some_iff (env : Collaborators) (past_end : Nat → Int)
    (options : HighsOptions) (lp : HighsLp) (lps : LpSolver) (highs_basis : HighsBasis)
    (highs_solution : HighsSolution) (unscaled_model_status : HighsModelStatus)
    (unscaled_solution_params : HighsSolutionParams) :
    solveLpIpxAsserting env past_end options lp lps highs_basis highs_solution
      unscaled_model_status unscaled_solution_params = some (solveLpIpx env past_end options lp lps highs_basis highs_solution unscaled_model_status
      unscaled_solution_params) ↔
      (solveLpIpx env past_end options lp lps highs_basis highs_solution unscaled_model_status
      unscaled_solution_params).2.failed_asserts = [] := by
  unfold solveLpIpxAsserting
  constructor
  · intro h
    by_contra hc
    rw [if_neg hc] at h
    exact Option.noConfusion h
  · intro h
    rw [if_pos h]

/-- With assertions compiled out, `stopped` with two non-fatal sub-statuses of
which one is `time_limit` gives `Warning` and `REACHED_TIME_LIMIT`, and no
solution is fetched or mapped. -/
theorem solveLpIpx_time_limit_result (env : Collaborators) (past_end : Nat → Int)
    (options : HighsOptions) (lp : HighsLp) (lps : LpSolver) (highs_basis : HighsBasis)
    (highs_solution : HighsSolution) (unscaled_model_status : HighsModelStatus)
    (unscaled_solution_params : HighsSolutionParams)
    (hs : lps.Solve = IPX_STATUS_stopped)
    (hi : NonFatalSub lps.GetInfo.status_ipm) (hc : NonFatalSub lps.GetInfo.status_crossover)
    (ht : lps.GetInfo.status_ipm = IPX_STATUS_time_limit ∨
      lps.GetInfo.status_crossover = IPX_STATUS_time_limit) :
    (solveLpIpx env past_end options lp lps highs_basis highs_solution unscaled_model_status
      unscaled_solution_params).1 = HighsStatus.Warning ∧
    (solveLpIpx env past_end options lp lps highs_basis highs_solution unscaled_model_status
      unscaled_solution_params).2.unscaled_model_status = HighsModelStatus.REACHED_TIME_LIMIT ∧
    (solveLpIpx env past_end options lp lps highs_basis highs_solution unscaled_model_status
      unscaled_solution_params).2.highs_basis = highs_basis ∧
    (solveLpIpx env past_end options lp lps highs_basis highs_solution unscaled_model_status
      unscaled_solution_params).2.highs_solution = highs_solution ∧
    (solveLpIpx env past_end options lp lps highs_basis highs_solution unscaled_model_status
      unscaled_solution_params).2.calls = [] := by
  obtain ⟨S, ⟨ef, ipm, cross, it, ov⟩, gbs⟩ := lps
  simp only at hs hi hc
  simp only at ht
  subst hs
  unfold NonFatalSub at hi hc
  rcases ht with rfl | rfl
  · rcases hc with rfl | rfl | rfl | rfl | rfl | rfl | rfl | rfl <;>
      simp [solveLpIpx, solveLpIpxSolved, solveLpIpxBasic, fillInIpxData_result,
        reportIpxSolveStatus, reportIpxIpmCrossoverStatus, SolveState.assert, HighsLogMessage,
        IPX_STATUS_solved, IPX_STATUS_stopped, IPX_STATUS_invalid_input,
        IPX_STATUS_out_of_memory, IPX_STATUS_internal_error, IPX_STATUS_not_run,
        IPX_STATUS_optimal, IPX_STATUS_imprecise, IPX_STATUS_primal_infeas,
        IPX_STATUS_dual_infeas, IPX_STATUS_time_limit, IPX_STATUS_iter_limit,
        IPX_STATUS_no_progress, IPX_STATUS_failed, IPX_STATUS_debug]
  · rcases hi with rfl | rfl | rfl | rfl | rfl | rfl | rfl | rfl <;>
      simp [solveLpIpx, solveLpIpxSolved, solveLpIpxBasic, fillInIpxData_result,
        reportIpxSolveStatus, reportIpxIpmCrossoverStatus, SolveState.assert, HighsLogMessage,
        IPX_STATUS_solved, IPX_STATUS_stopped, IPX_STATUS_invalid_input,
        IPX_STATUS_out_of_memory, IPX_STATUS_internal_error, IPX_STATUS_not_run,
        IPX_STATUS_optimal, IPX_STATUS_imprecise, IPX_STATUS_primal_infeas,
        IPX_STATUS_dual_infeas, IPX_STATUS_time_limit, IPX_STATUS_iter_limit,
        IPX_STATUS_no_progress, IPX_STATUS_failed, IPX_STATUS_debug]

theorem solveLpIpx_time_limit_asserts (env : Collaborators) (past_end : Nat → Int)
    (options : HighsOptions) (lp : HighsLp) (lps : LpSolver) (highs_basis : HighsBasis)
    (highs_solution : HighsSolution) (unscaled_model_status : HighsModelStatus)
    (unscaled_solution_params : HighsSolutionParams)
    (hs : lps.Solve = IPX_STATUS_stopped)
    (hi : NonFatalSub lps.GetInfo.status_ipm) (hc : NonFatalSub lps.GetInfo.status_crossover)
    (ht : lps.GetInfo.status_ipm = IPX_STATUS_time_limit ∨
      lps.GetInfo.status_crossover = IPX_STATUS_time_limit) :
    (solveLpIpx env past_end options lp lps highs_basis highs_solution unscaled_model_status
      unscaled_solution_params).2.failed_asserts = [] ↔
      ¬ InfeasSub lps.GetInfo.status_ipm ∧ ¬ InfeasSub lps.GetInfo.status_crossover := by
  obtain ⟨S, ⟨ef, ipm, cross, it, ov⟩, gbs⟩ := lps
  simp only at hs hi hc
  simp only at ht
  subst hs
  unfold NonFatalSub at hi hc
  unfold InfeasSub
  rcases ht with rfl | rfl
  · rcases hc with rfl | rfl | rfl | rfl | rfl | rfl | rfl | rfl <;>
      simp [solveLpIpx, solveLpIpxSolved, solveLpIpxBasic, fillInIpxData_result,
        reportIpxSolveStatus, reportIpxIpmCrossoverStatus, SolveState.assert, HighsLogMessage,
        IPX_STATUS_solved, IPX_STATUS_stopped, IPX_STATUS_invalid_input,
        IPX_STATUS_out_of_memory, IPX_STATUS_internal_error, IPX_STATUS_not_run,
        IPX_STATUS_optimal, IPX_STATUS_imprecise, IPX_STATUS_primal_infeas,
        IPX_STATUS_dual_infeas, IPX_STATUS_time_limit, IPX_STATUS_iter_limit,
        IPX_STATUS_no_progress, IPX_STATUS_failed, IPX_STATUS_debug]
  · rcases hi with rfl | rfl | rfl | rfl | rfl | rfl | rfl | rfl <;>
      simp [solveLpIpx, solveLpIpxSolved, solveLpIpxBasic, fillInIpxData_result,
        reportIpxSolveStatus, reportIpxIpmCrossoverStatus, SolveState.assert, HighsLogMessage,
        IPX_STATUS_solved, IPX_STATUS_stopped, IPX_STATUS_invalid_input,
        IPX_STATUS_out_of_memory, IPX_STATUS_internal_error, IPX_STATUS_not_run,
        IPX_STATUS_optimal, IPX_STATUS_imprecise, IPX_STATUS_primal_infeas,
        IPX_STATUS_dual_infeas, IPX_STATUS_time_limit, IPX_STATUS_iter_limit,
        IPX_STATUS_no_progress, IPX_STATUS_failed, IPX_STATUS_debug]

/-- C11 (counterexample): the tuple (stopped, interior point `time_limit`,
crossover `primal_infeas`) has no fatal sub-status and one sub-status
`time_limit`, but the `assert` of line 381 fails on it: with assertions enabled
`solveLpIpx` stops there and returns nothing. -/
theorem time_limit_with_infeasible_sub_status_stops_at_assert :
    (lpsWith IPX_STATUS_stopped 0 IPX_STATUS_time_limit IPX_STATUS_primal_infeas).Solve
      = IPX_STATUS_stopped ∧
    NonFatalSub (lpsWith IPX_STATUS_stopped 0 IPX_STATUS_time_limit
      IPX_STATUS_primal_infeas).GetInfo.status_ipm ∧
    NonFatalSub (lpsWith IPX_STATUS_stopped 0 IPX_STATUS_time_limit
      IPX_STATUS_primal_infeas).GetInfo.status_crossover ∧
    (solveLpIpx envId (fun _ => 0) optionsEmpty lpMixed
      (lpsWith IPX_STATUS_stopped 0 IPX_STATUS_time_limit IPX_STATUS_primal_infeas)
      basisEmpty solutionEmpty HighsModelStatus.NOTSET paramsZero).2.failed_asserts
      = ["ipx_info.status_crossover != IPX_STATUS_primal_infeas"] ∧
    solveLpIpxAsserting envId (fun _ => 0) optionsEmpty lpMixed
      (lpsWith IPX_STATUS_stopped 0 IPX_STATUS_time_limit IPX_STATUS_primal_infeas)
      basisEmpty solutionEmpty HighsModelStatus.NOTSET paramsZero = none := by
  decide

/-- C11 (amended): for every status tuple with solve status `stopped`, no fatal
sub-status and at least one sub-status `time_limit` (the other may be
`iter_limit`): with assertions compiled out `solveLpIpx` returns `Warning` with
model status `REACHED_TIME_LIMIT` and no solution is fetched or mapped; with
assertions enabled it returns just that exactly when neither sub-status is an
infeasibility code, and otherwise stops at an `assert` of lines 379–382. -/
theorem solveLpIpx_time_limit (env : Collaborators) (past_end : Nat → Int)
    (options : HighsOptions) (lp : HighsLp) (lps : LpSolver) (highs_basis : HighsBasis)
    (highs_solution : HighsSolution) (unscaled_model_status : HighsModelStatus)
    (unscaled_solution_params : HighsSolutionParams)
    (hs : lps.Solve = IPX_STATUS_stopped)
    (hi : NonFatalSub lps.GetInfo.status_ipm) (hc : NonFatalSub lps.GetInfo.status_crossover)
    (ht : lps.GetInfo.status_ipm = IPX_STATUS_time_limit ∨
      lps.GetInfo.status_crossover = IPX_STATUS_time_limit) :
    ((solveLpIpx env past_end options lp lps highs_basis highs_solution unscaled_model_status
      unscaled_solution_params).1 = HighsStatus.Warning ∧
     (solveLpIpx env past_end options lp lps highs_basis highs_solution unscaled_model_status
      unscaled_solution_params).2.unscaled_model_status = HighsModelStatus.REACHED_TIME_LIMIT ∧
     (solveLpIpx env past_end options lp lps highs_basis highs_solution unscaled_model_status
      unscaled_solution_params).2.highs_basis = highs_basis ∧
     (solveLpIpx env past_end options lp lps highs_basis highs_solution unscaled_model_status
      unscaled_solution_params).2.highs_solution = highs_solution ∧
     (solveLpIpx env past_end options lp lps highs_basis highs_solution unscaled_model_status
      unscaled_solution_params).2.calls = []) ∧
    (solveLpIpxAsserting env past_end options lp lps highs_basis highs_solution
      unscaled_model_status unscaled_solution_params = some (solveLpIpx env past_end options lp lps highs_basis highs_solution unscaled_model_status
      unscaled_solution_params) ↔
      ¬ InfeasSub lps.GetInfo.status_ipm ∧ ¬ InfeasSub lps.GetInfo.status_crossover) :=
  ⟨solveLpIpx_time_limit_result env past_end options lp lps highs_basis highs_solution
      unscaled_model_status unscaled_solution_params hs hi hc ht,
    (solveLpIpxAsserting_eq_some_iff env past_end options lp lps highs_basis highs_solution
      unscaled_model_status unscaled_solution_params).trans
      (solveLpIpx_time_limit_asserts env past_end options lp lps highs_basis highs_solution
        unscaled_model_status unscaled_solution_params hs hi hc ht)⟩

/-- Witness of C11 (amended): interior point `time_limit`, crossover
`iter_limit`; no `assert` fails. -/
theorem solveLpIpx_time_limit_witness :
    (lpsWith IPX_STATUS_stopped 0 IPX_STATUS_time_limit IPX_STATUS_iter_limit).Solve
      = IPX_STATUS_stopped ∧
    (solveLpIpx envId (fun _ => 0) optionsEmpty lpMixed
      (lpsWith IPX_STATUS_stopped 0 IPX_STATUS_time_limit IPX_STATUS_iter_limit)
      basisEmpty solutionEmpty HighsModelStatus.NOTSET paramsZero).1 = HighsStatus.Warning ∧
    (solveLpIpx envId (fun _ => 0) optionsEmpty lpMixed
      (lpsWith IPX_STATUS_stopped 0 IPX_STATUS_time_limit IPX_STATUS_iter_limit)
      basisEmpty solutionEmpty HighsModelStatus.NOTSET paramsZero).2.unscaled_model_status
      = HighsModelStatus.REACHED_TIME_LIMIT ∧
    solveLpIpxAsserting envId (fun _ => 0) optionsEmpty lpMixed
      (lpsWith IPX_STATUS_stopped 0 IPX_STATUS_time_limit IPX_STATUS_iter_limit)
      basisEmpty solutionEmpty HighsModelStatus.NOTSET paramsZero
      = some (solveLpIpx envId (fun _ => 0) optionsEmpty lpMixed
          (lpsWith IPX_STATUS_stopped 0 IPX_STATUS_time_limit IPX_STATUS_iter_limit)
          basisEmpty solutionEmpty HighsModelStatus.NOTSET paramsZero) :=
  have h := solveLpIpx_time_limit envId (fun _ => 0) optionsEmpty lpMixed
    (lpsWith IPX_STATUS_stopped 0 IPX_STATUS_time_limit IPX_STATUS_iter_limit)
    basisEmpty solutionEmpty HighsModelStatus.NOTSET paramsZero rfl (by decide) (by decide)
    (Or.inl rfl)
  ⟨rfl, h.1.1, h.1.2.1, h.2.mpr ⟨by decide, by decide⟩⟩

/-- With assertions compiled out, `stopped` with two non-fatal sub-statuses,
neither `time_limit` and one of them `iter_limit`, gives `Warning` and
`REACHED_ITERATION_LIMIT`, and no solution is fetched or mapped. -/
theorem solveLpIpx_iter_limit_result (env : Collaborators) (past_end : Nat → Int)
    (options : HighsOptions) (lp : HighsLp) (lps : LpSolver) (highs_basis : HighsBasis)
    (highs_solution : HighsSolution) (unscaled_model_status : HighsModelStatus)
    (unscaled_solution_params : HighsSolutionParams)
    (hs : lps.Solve = IPX_STATUS_stopped)
    (hi : NonFatalSub lps.GetInfo.status_ipm) (hc : NonFatalSub lps.GetInfo.status_crossover)
    (hti : lps.GetInfo.status_ipm ≠ IPX_STATUS_time_limit)
    (htc : lps.GetInfo.status_crossover ≠ IPX_STATUS_time_limit)
    (hl : lps.GetInfo.status_ipm = IPX_STATUS_iter_limit ∨
      lps.GetInfo.status_crossover = IPX_STATUS_iter_limit) :
    (solveLpIpx env past_end options lp lps highs_basis highs_solution unscaled_model_status
      unscaled_solution_params).1 = HighsStatus.Warning ∧
    (solveLpIpx env past_end options lp lps highs_basis highs_solution unscaled_model_status
      unscaled_solution_params).2.unscaled_model_status = HighsModelStatus.REACHED_ITERATION_LIMIT ∧
    (solveLpIpx env past_end options lp lps highs_basis highs_solution unscaled_model_status
      unscaled_solution_params).2.highs_basis = highs_basis ∧
    (solveLpIpx env past_end options lp lps highs_basis highs_solution unscaled_model_status
      unscaled_solution_params).2.highs_solution = highs_solution ∧
    (solveLpIpx env past_end options lp lps highs_basis highs_solution unscaled_model_status
      unscaled_solution_params).2.calls = [] := by
  obtain ⟨S, ⟨ef, ipm, cross, it, ov⟩, gbs⟩ := lps
  simp only at hs hi hc
  simp only at hl hti htc
  subst hs
  unfold NonFatalSub at hi hc
  rcases hl with rfl | rfl
  · rcases hc with rfl | rfl | rfl | rfl | rfl | rfl | rfl | rfl <;>
      first
        | exact absurd rfl htc
        | simp [solveLpIpx, solveLpIpxSolved, solveLpIpxBasic, fillInIpxData_result,
        reportIpxSolveStatus, reportIpxIpmCrossoverStatus, SolveState.assert, HighsLogMessage,
        IPX_STATUS_solved, IPX_STATUS_stopped, IPX_STATUS_invalid_input,
        IPX_STATUS_out_of_memory, IPX_STATUS_internal_error, IPX_STATUS_not_run,
        IPX_STATUS_optimal, IPX_STATUS_imprecise, IPX_STATUS_primal_infeas,
        IPX_STATUS_dual_infeas, IPX_STATUS_time_limit, IPX_STATUS_iter_limit,
        IPX_STATUS_no_progress, IPX_STATUS_failed, IPX_STATUS_debug]
  · rcases hi with rfl | rfl | rfl | rfl | rfl | rfl | rfl | rfl <;>
      first
        | exact absurd rfl hti
        | simp [solveLpIpx, solveLpIpxSolved, solveLpIpxBasic, fillInIpxData_result,
        reportIpxSolveStatus, reportIpxIpmCrossoverStatus, SolveState.assert, HighsLogMessage,
        IPX_STATUS_solved, IPX_STATUS_stopped, IPX_STATUS_invalid_input,
        IPX_STATUS_out_of_memory, IPX_STATUS_internal_error, IPX_STATUS_not_run,
        IPX_STATUS_optimal, IPX_STATUS_imprecise, IPX_STATUS_primal_infeas,
        IPX_STATUS_dual_infeas, IPX_STATUS_time_limit, IPX_STATUS_iter_limit,
        IPX_STATUS_no_progress, IPX_STATUS_failed, IPX_STATUS_debug]

theorem solveLpIpx_iter_limit_asserts (env : Collaborators) (past_end : Nat → Int)
    (options : HighsOptions) (lp : HighsLp) (lps : LpSolver) (highs_basis : HighsBasis)
    (highs_solution : HighsSolution) (unscaled_model_status : HighsModelStatus)
    (unscaled_solution_params : HighsSolutionParams)
    (hs : lps.Solve = IPX_STATUS_stopped)
    (hi : NonFatalSub lps.GetInfo.status_ipm) (hc : NonFatalSub lps.GetInfo.status_crossover)
    (hti : lps.GetInfo.status_ipm ≠ IPX_STATUS_time_limit)
    (htc : lps.GetInfo.status_crossover ≠ IPX_STATUS_time_limit)
    (hl : lps.GetInfo.status_ipm = IPX_STATUS_iter_limit ∨
      lps.GetInfo.status_crossover = IPX_STATUS_iter_limit) :
    (solveLpIpx env past_end options lp lps highs_basis highs_solution unscaled_model_status
      unscaled_solution_params).2.failed_asserts = [] ↔
      ¬ InfeasSub lps.GetInfo.status_ipm ∧ ¬ InfeasSub lps.GetInfo.status_crossover ∧
      lps.GetInfo.status_crossover ≠ IPX_STATUS_iter_limit := by
  obtain ⟨S, ⟨ef, ipm, cross, it, ov⟩, gbs⟩ := lps
  simp only at hs hi hc
  simp only at hl hti htc
  subst hs
  unfold NonFatalSub at hi hc
  unfold InfeasSub
  rcases hl with rfl | rfl
  · rcases hc with rfl | rfl | rfl | rfl | rfl | rfl | rfl | rfl <;>
      first
        | exact absurd rfl htc
        | simp [solveLpIpx, solveLpIpxSolved, solveLpIpxBasic, fillInIpxData_result,
        reportIpxSolveStatus, reportIpxIpmCrossoverStatus, SolveState.assert, HighsLogMessage,
        IPX_STATUS_solved, IPX_STATUS_stopped, IPX_STATUS_invalid_input,
        IPX_STATUS_out_of_memory, IPX_STATUS_internal_error, IPX_STATUS_not_run,
        IPX_STATUS_optimal, IPX_STATUS_imprecise, IPX_STATUS_primal_infeas,
        IPX_STATUS_dual_infeas, IPX_STATUS_time_limit, IPX_STATUS_iter_limit,
        IPX_STATUS_no_progress, IPX_STATUS_failed, IPX_STATUS_debug]
  · rcases hi with rfl | rfl | rfl | rfl | rfl | rfl | rfl | rfl <;>
      first
        | exact absurd rfl hti
        | simp [solveLpIpx, solveLpIpxSolved, solveLpIpxBasic, fillInIpxData_result,
        reportIpxSolveStatus, reportIpxIpmCrossoverStatus, SolveState.assert, HighsLogMessage,
        IPX_STATUS_solved, IPX_STATUS_stopped, IPX_STATUS_invalid_input,
        IPX_STATUS_out_of_memory, IPX_STATUS_internal_error, IPX_STATUS_not_run,
        IPX_STATUS_optimal, IPX_STATUS_imprecise, IPX_STATUS_primal_infeas,
        IPX_STATUS_dual_infeas, IPX_STATUS_time_limit, IPX_STATUS_iter_limit,
        IPX_STATUS_no_progress, IPX_STATUS_failed, IPX_STATUS_debug]

/-- C12 (counterexample): the tuple (stopped, interior point `optimal`,
crossover `iter_limit`) has no fatal sub-status, no `time_limit` and one
sub-status `iter_limit`, but the `assert` of line 392 (crossover is not
`iter_limit`) fails on it: with assertions enabled `solveLpIpx` stops there and
returns nothing. -/
theorem crossover_iter_limit_stops_at_assert :
    (lpsWith IPX_STATUS_stopped 0 IPX_STATUS_optimal IPX_STATUS_iter_limit).Solve
      = IPX_STATUS_stopped ∧
    NonFatalSub (lpsWith IPX_STATUS_stopped 0 IPX_STATUS_optimal
      IPX_STATUS_iter_limit).GetInfo.status_ipm ∧
    NonFatalSub (lpsWith IPX_STATUS_stopped 0 IPX_STATUS_optimal
      IPX_STATUS_iter_limit).GetInfo.status_crossover ∧
    (solveLpIpx envId (fun _ => 0) optionsEmpty lpMixed
      (lpsWith IPX_STATUS_stopped 0 IPX_STATUS_optimal IPX_STATUS_iter_limit)
      basisEmpty solutionEmpty HighsModelStatus.NOTSET paramsZero).2.failed_asserts
      = ["ipx_info.status_crossover != IPX_STATUS_iter_limit"] ∧
    solveLpIpxAsserting envId (fun _ => 0) optionsEmpty lpMixed
      (lpsWith IPX_STATUS_stopped 0 IPX_STATUS_optimal IPX_STATUS_iter_limit)
      basisEmpty solutionEmpty HighsModelStatus.NOTSET paramsZero = none := by
  decide

/-- C12 (amended): for every status tuple with solve status `stopped`, no fatal
sub-status, neither sub-status `time_limit`, and either sub-status
`iter_limit`: with assertions compiled out `solveLpIpx` returns `Warning` with
model status `REACHED_ITERATION_LIMIT` and no solution is fetched or mapped;
with assertions enabled it returns just that exactly when the crossover
sub-status is not `iter_limit` and neither sub-status is an infeasibility code,
and otherwise stops at the `assert` of line 392 or of lines 379–382. -/
theorem solveLpIpx_iter_limit (env : Collaborators) (past_end : Nat → Int)
    (options : HighsOptions) (lp : HighsLp) (lps : LpSolver) (highs_basis : HighsBasis)
    (highs_solution : HighsSolution) (unscaled_model_status : HighsModelStatus)
    (unscaled_solution_params : HighsSolutionParams)
    (hs : lps.Solve = IPX_STATUS_stopped)
    (hi : NonFatalSub lps.GetInfo.status_ipm) (hc : NonFatalSub lps.GetInfo.status_crossover)
    (hti : lps.GetInfo.status_ipm ≠ IPX_STATUS_time_limit)
    (htc : lps.GetInfo.status_crossover ≠ IPX_STATUS_time_limit)
    (hl : lps.GetInfo.status_ipm = IPX_STATUS_iter_limit ∨
      lps.GetInfo.status_crossover = IPX_STATUS_iter_limit) :
    ((solveLpIpx env past_end options lp lps highs_basis highs_solution unscaled_model_status
      unscaled_solution_params).1 = HighsStatus.Warning ∧
     (solveLpIpx env past_end options lp lps highs_basis highs_solution unscaled_model_status
      unscaled_solution_params).2.unscaled_model_status = HighsModelStatus.REACHED_ITERATION_LIMIT ∧
     (solveLpIpx env past_end options lp lps highs_basis highs_solution unscaled_model_status
      unscaled_solution_params).2.highs_basis = highs_basis ∧
     (solveLpIpx env past_end options lp lps highs_basis highs_solution unscaled_model_status
      unscaled_solution_params).2.highs_solution = highs_solution ∧
     (solveLpIpx env past_end options lp lps highs_basis highs_solution unscaled_model_status
      unscaled_solution_params).2.calls = []) ∧
    (solveLpIpxAsserting env past_end options lp lps highs_basis highs_solution
      unscaled_model_status unscaled_solution_params = some (solveLpIpx env past_end options lp lps highs_basis highs_solution unscaled_model_status
      unscaled_solution_params) ↔
      ¬ InfeasSub lps.GetInfo.status_ipm ∧ ¬ InfeasSub lps.GetInfo.status_crossover ∧
      lps.GetInfo.status_crossover ≠ IPX_STATUS_iter_limit) :=
  ⟨solveLpIpx_iter_limit_result env past_end options lp lps highs_basis highs_solution
      unscaled_model_status unscaled_solution_params hs hi hc hti htc hl,
    (solveLpIpxAsserting_eq_some_iff env past_end options lp lps highs_basis highs_solution
      unscaled_model_status unscaled_solution_params).trans
      (solveLpIpx_iter_limit_asserts env past_end options lp lps highs_basis highs_solution
        unscaled_model_status unscaled_solution_params hs hi hc hti htc hl)⟩

/-- Witness of C12 (amended): interior point `iter_limit`, crossover `not_run`;
no `assert` fails. -/
theorem solveLpIpx_iter_limit_witness :
    (lpsWith IPX_STATUS_stopped 0 IPX_STATUS_iter_limit IPX_STATUS_not_run).Solve
      = IPX_STATUS_stopped ∧
    (solveLpIpx envId (fun _ => 0) optionsEmpty lpMixed
      (lpsWith IPX_STATUS_stopped 0 IPX_STATUS_iter_limit IPX_STATUS_not_run)
      basisEmpty solutionEmpty HighsModelStatus.NOTSET paramsZero).1 = HighsStatus.Warning ∧
    (solveLpIpx envId (fun _ => 0) optionsEmpty lpMixed
      (lpsWith IPX_STATUS_stopped 0 IPX_STATUS_iter_limit IPX_STATUS_not_run)
      basisEmpty solutionEmpty HighsModelStatus.NOTSET paramsZero).2.unscaled_model_status
      = HighsModelStatus.REACHED_ITERATION_LIMIT ∧
    solveLpIpxAsserting envId (fun _ => 0) optionsEmpty lpMixed
      (lpsWith IPX_STATUS_stopped 0 IPX_STATUS_iter_limit IPX_STATUS_not_run)
      basisEmpty solutionEmpty HighsModelStatus.NOTSET paramsZero
      = some (solveLpIpx envId (fun _ => 0) optionsEmpty lpMixed
          (lpsWith IPX_STATUS_stopped 0 IPX_STATUS_iter_limit IPX_STATUS_not_run)
          basisEmpty solutionEmpty HighsModelStatus.NOTSET paramsZero) :=
  have h := solveLpIpx_iter_limit envId (fun _ => 0) optionsEmpty lpMixed
    (lpsWith IPX_STATUS_stopped 0 IPX_STATUS_iter_limit IPX_STATUS_not_run)
    basisEmpty solutionEmpty HighsModelStatus.NOTSET paramsZero rfl (by decide) (by decide)
    (by decide) (by decide) (Or.inl rfl)
  ⟨rfl, h.1.1, h.1.2.1, h.2.mpr ⟨by decide, by decide, by decide⟩⟩

/-- With assertions compiled out, `solved` with two non-fatal sub-statuses: an
infeasibility code in either sub-status ends the call with `OK`,
`PRIMAL_INFEASIBLE` if either sub-status is `primal_infeas` and
`PRIMAL_UNBOUNDED` otherwise, and no solution is fetched or mapped. -/
theorem solveLpIpx_infeasible_result (env : Collaborators) (past_end : Nat → Int)
    (options : HighsOptions) (lp : HighsLp) (lps : LpSolver) (highs_basis : HighsBasis)
    (highs_solution : HighsSolution) (unscaled_model_status : HighsModelStatus)
    (unscaled_solution_params : HighsSolutionParams)
    (hs : lps.Solve = IPX_STATUS_solved)
    (hi : NonFatalSub lps.GetInfo.status_ipm) (hc : NonFatalSub lps.GetInfo.status_crossover) :
    ((lps.GetInfo.status_ipm = IPX_STATUS_primal_infeas ∨
        lps.GetInfo.status_crossover = IPX_STATUS_primal_infeas) →
      (solveLpIpx env past_end options lp lps highs_basis highs_solution unscaled_model_status
      unscaled_solution_params).1 = HighsStatus.OK ∧
      (solveLpIpx env past_end options lp lps highs_basis highs_solution unscaled_model_status
      unscaled_solution_params).2.unscaled_model_status = HighsModelStatus.PRIMAL_INFEASIBLE ∧
      (solveLpIpx env past_end options lp lps highs_basis highs_solution unscaled_model_status
      unscaled_solution_params).2.highs_basis = highs_basis ∧
      (solveLpIpx env past_end options lp lps highs_basis highs_solution unscaled_model_status
      unscaled_solution_params).2.highs_solution = highs_solution ∧
      (solveLpIpx env past_end options lp lps highs_basis highs_solution unscaled_model_status
      unscaled_solution_params).2.calls = []) ∧
    (lps.GetInfo.status_ipm ≠ IPX_STATUS_primal_infeas →
      lps.GetInfo.status_crossover ≠ IPX_STATUS_primal_infeas →
      (lps.GetInfo.status_ipm = IPX_STATUS_dual_infeas ∨
        lps.GetInfo.status_crossover = IPX_STATUS_dual_infeas) →
      (solveLpIpx env past_end options lp lps highs_basis highs_solution unscaled_model_status
      unscaled_solution_params).1 = HighsStatus.OK ∧
      (solveLpIpx env past_end options lp lps highs_basis highs_solution unscaled_model_status
      unscaled_solution_params).2.unscaled_model_status = HighsModelStatus.PRIMAL_UNBOUNDED ∧
      (solveLpIpx env past_end options lp lps highs_basis highs_solution unscaled_model_status
      unscaled_solution_params).2.highs_basis = highs_basis ∧
      (solveLpIpx env past_end options lp lps highs_basis highs_solution unscaled_model_status
      unscaled_solution_params).2.highs_solution = highs_solution ∧
      (solveLpIpx env past_end options lp lps highs_basis highs_solution unscaled_model_status
      unscaled_solution_params).2.calls = []) := by
  obtain ⟨S, ⟨ef, ipm, cross, it, ov⟩, gbs⟩ := lps
  simp only at hs hi hc
  subst hs
  unfold NonFatalSub at hi hc
  rcases hi with rfl | rfl | rfl | rfl | rfl | rfl | rfl | rfl <;>
    rcases hc with rfl | rfl | rfl | rfl | rfl | rfl | rfl | rfl <;>
      simp [solveLpIpx, solveLpIpxSolved, solveLpIpxBasic, fillInIpxData_result,
        reportIpxSolveStatus, reportIpxIpmCrossoverStatus, SolveState.assert, HighsLogMessage,
        IPX_STATUS_solved, IPX_STATUS_stopped, IPX_STATUS_invalid_input,
        IPX_STATUS_out_of_memory, IPX_STATUS_internal_error, IPX_STATUS_not_run,
        IPX_STATUS_optimal, IPX_STATUS_imprecise, IPX_STATUS_primal_infeas,
        IPX_STATUS_dual_infeas, IPX_STATUS_time_limit, IPX_STATUS_iter_limit,
        IPX_STATUS_no_progress, IPX_STATUS_failed, IPX_STATUS_debug]

theorem solveLpIpx_infeasible_asserts (env : Collaborators) (past_end : Nat → Int)
    (options : HighsOptions) (lp : HighsLp) (lps : LpSolver) (highs_basis : HighsBasis)
    (highs_solution : HighsSolution) (unscaled_model_status : HighsModelStatus)
    (unscaled_solution_params : HighsSolutionParams)
    (hs : lps.Solve = IPX_STATUS_solved)
    (hi : lps.GetInfo.status_ipm = IPX_STATUS_primal_infeas ∨
      lps.GetInfo.status_ipm = IPX_STATUS_dual_infeas)
    (hc : NonFatalSub lps.GetInfo.status_crossover) :
    (solveLpIpx env past_end options lp lps highs_basis highs_solution unscaled_model_status
      unscaled_solution_params).2.failed_asserts = [] ↔
      lps.GetInfo.status_crossover ≠ IPX_STATUS_primal_infeas ∧
      lps.GetInfo.status_crossover ≠ IPX_STATUS_time_limit ∧
      lps.GetInfo.status_crossover ≠ IPX_STATUS_iter_limit ∧
      ¬ (lps.GetInfo.status_ipm = IPX_STATUS_dual_infeas ∧
        lps.GetInfo.status_crossover = IPX_STATUS_dual_infeas) := by
  obtain ⟨S, ⟨ef, ipm, cross, it, ov⟩, gbs⟩ := lps
  simp only at hs hi hc
  subst hs
  unfold NonFatalSub at hc
  rcases hi with rfl | rfl <;>
    rcases hc with rfl | rfl | rfl | rfl | rfl | rfl | rfl | rfl <;>
      simp [solveLpIpx, solveLpIpxSolved, solveLpIpxBasic, fillInIpxData_result,
        reportIpxSolveStatus, reportIpxIpmCrossoverStatus, SolveState.assert, HighsLogMessage,
        IPX_STATUS_solved, IPX_STATUS_stopped, IPX_STATUS_invalid_input,
        IPX_STATUS_out_of_memory, IPX_STATUS_internal_error, IPX_STATUS_not_run,
        IPX_STATUS_optimal, IPX_STATUS_imprecise, IPX_STATUS_primal_infeas,
        IPX_STATUS_dual_infeas, IPX_STATUS_time_limit, IPX_STATUS_iter_limit,
        IPX_STATUS_no_progress, IPX_STATUS_failed, IPX_STATUS_debug]

/-- C13 (counterexample): on the tuple (solved, interior point `dual_infeas`,
crossover `primal_infeas`), which has no fatal sub-status and whose
interior-point sub-status is `dual_infeas` and not `primal_infeas`, the model
status left is `PRIMAL_INFEASIBLE`, not `PRIMAL_UNBOUNDED`: line 405 looks at
either sub-status. The `assert` of line 409 fails on it, so with assertions
enabled the call stops there. -/
theorem dual_infeas_with_crossover_primal_infeas :
    (lpsWith IPX_STATUS_solved 0 IPX_STATUS_dual_infeas IPX_STATUS_primal_infeas).Solve
      = IPX_STATUS_solved ∧
    NonFatalSub (lpsWith IPX_STATUS_solved 0 IPX_STATUS_dual_infeas
      IPX_STATUS_primal_infeas).GetInfo.status_ipm ∧
    NonFatalSub (lpsWith IPX_STATUS_solved 0 IPX_STATUS_dual_infeas
      IPX_STATUS_primal_infeas).GetInfo.status_crossover ∧
    (solveLpIpx envId (fun _ => 0) optionsEmpty lpMixed
      (lpsWith IPX_STATUS_solved 0 IPX_STATUS_dual_infeas IPX_STATUS_primal_infeas)
      basisEmpty solutionEmpty HighsModelStatus.NOTSET paramsZero).2.unscaled_model_status
      = HighsModelStatus.PRIMAL_INFEASIBLE ∧
    (solveLpIpx envId (fun _ => 0) optionsEmpty lpMixed
      (lpsWith IPX_STATUS_solved 0 IPX_STATUS_dual_infeas IPX_STATUS_primal_infeas)
      basisEmpty solutionEmpty HighsModelStatus.NOTSET paramsZero).2.failed_asserts
      = ["ipx_info.status_crossover != IPX_STATUS_primal_infeas"] ∧
    solveLpIpxAsserting envId (fun _ => 0) optionsEmpty lpMixed
      (lpsWith IPX_STATUS_solved 0 IPX_STATUS_dual_infeas IPX_STATUS_primal_infeas)
      basisEmpty solutionEmpty HighsModelStatus.NOTSET paramsZero = none := by
  decide

/-- C13 (amended): for every status tuple with solve status `solved` and no
fatal sub-status: if the interior-point sub-status is `primal_infeas`,
`solveLpIpx` sets `PRIMAL_INFEASIBLE` and returns `OK`; if it is `dual_infeas`
and the crossover sub-status is not `primal_infeas`, it sets `PRIMAL_UNBOUNDED`
and returns `OK`; if it is `dual_infeas` and the crossover sub-status is
`primal_infeas`, it sets `PRIMAL_INFEASIBLE`; in each case no solution is
fetched or mapped. With assertions enabled an infeasible interior-point
sub-status gives that return exactly when the crossover sub-status is not
`primal_infeas`, `time_limit` or `iter_limit` and the two sub-statuses are not
both `dual_infeas`; otherwise the call stops at an `assert` of lines 400–416. -/
theorem solveLpIpx_infeasible (env : Collaborators) (past_end : Nat → Int)
    (options : HighsOptions) (lp : HighsLp) (lps : LpSolver) (highs_basis : HighsBasis)
    (highs_solution : HighsSolution) (unscaled_model_status : HighsModelStatus)
    (unscaled_solution_params : HighsSolutionParams)
    (hs : lps.Solve = IPX_STATUS_solved)
    (hc : NonFatalSub lps.GetInfo.status_crossover) :
    (lps.GetInfo.status_ipm = IPX_STATUS_primal_infeas →
      (solveLpIpx env past_end options lp lps highs_basis highs_solution unscaled_model_status
      unscaled_solution_params).1 = HighsStatus.OK ∧
      (solveLpIpx env past_end options lp lps highs_basis highs_solution unscaled_model_status
      unscaled_solution_params).2.unscaled_model_status = HighsModelStatus.PRIMAL_INFEASIBLE ∧
      (solveLpIpx env past_end options lp lps highs_basis highs_solution unscaled_model_status
      unscaled_solution_params).2.highs_basis = highs_basis ∧
      (solveLpIpx env past_end options lp lps highs_basis highs_solution unscaled_model_status
      unscaled_solution_params).2.highs_solution = highs_solution ∧
      (solveLpIpx env past_end options lp lps highs_basis highs_solution unscaled_model_status
      unscaled_solution_params).2.calls = []) ∧
    (lps.GetInfo.status_ipm = IPX_STATUS_dual_infeas →
      lps.GetInfo.status_crossover ≠ IPX_STATUS_primal_infeas →
      (solveLpIpx env past_end options lp lps highs_basis highs_solution unscaled_model_status
      unscaled_solution_params).1 = HighsStatus.OK ∧
      (solveLpIpx env past_end options lp lps highs_basis highs_solution unscaled_model_status
      unscaled_solution_params).2.unscaled_model_status = HighsModelStatus.PRIMAL_UNBOUNDED ∧
      (solveLpIpx env past_end options lp lps highs_basis highs_solution unscaled_model_status
      unscaled_solution_params).2.highs_basis = highs_basis ∧
      (solveLpIpx env past_end options lp lps highs_basis highs_solution unscaled_model_status
      unscaled_solution_params).2.highs_solution = highs_solution ∧
      (solveLpIpx env past_end options lp lps highs_basis highs_solution unscaled_model_status
      unscaled_solution_params).2.calls = []) ∧
    (lps.GetInfo.status_ipm = IPX_STATUS_dual_infeas →
      lps.GetInfo.status_crossover = IPX_STATUS_primal_infeas →
      (solveLpIpx env past_end options lp lps highs_basis highs_solution unscaled_model_status
      unscaled_solution_params).1 = HighsStatus.OK ∧
      (solveLpIpx env past_end options lp lps highs_basis highs_solution unscaled_model_status
      unscaled_solution_params).2.unscaled_model_status = HighsModelStatus.PRIMAL_INFEASIBLE ∧
      (solveLpIpx env past_end options lp lps highs_basis highs_solution unscaled_model_status
      unscaled_solution_params).2.highs_basis = highs_basis ∧
      (solveLpIpx env past_end options lp lps highs_basis highs_solution unscaled_model_status
      unscaled_solution_params).2.highs_solution = highs_solution ∧
      (solveLpIpx env past_end options lp lps highs_basis highs_solution unscaled_model_status
      unscaled_solution_params).2.calls = []) ∧
    (lps.GetInfo.status_ipm = IPX_STATUS_primal_infeas ∨
        lps.GetInfo.status_ipm = IPX_STATUS_dual_infeas →
      (solveLpIpxAsserting env past_end options lp lps highs_basis highs_solution
      unscaled_model_status unscaled_solution_params = some (solveLpIpx env past_end options lp lps highs_basis highs_solution unscaled_model_status
      unscaled_solution_params) ↔
        lps.GetInfo.status_crossover ≠ IPX_STATUS_primal_infeas ∧
        lps.GetInfo.status_crossover ≠ IPX_STATUS_time_limit ∧
        lps.GetInfo.status_crossover ≠ IPX_STATUS_iter_limit ∧
        ¬ (lps.GetInfo.status_ipm = IPX_STATUS_dual_infeas ∧
          lps.GetInfo.status_crossover = IPX_STATUS_dual_infeas))) := by
  refine ⟨?_, ?_, ?_, ?_⟩
  · intro hi
    have hi2 : NonFatalSub lps.GetInfo.status_ipm := by
      rw [hi]
      unfold NonFatalSub
      decide
    exact (solveLpIpx_infeasible_result env past_end options lp lps highs_basis highs_solution
      unscaled_model_status unscaled_solution_params hs hi2 hc).1 (Or.inl hi)
  · intro hi hcp
    have hi2 : NonFatalSub lps.GetInfo.status_ipm := by
      rw [hi]
      unfold NonFatalSub
      decide
    exact (solveLpIpx_infeasible_result env past_end options lp lps highs_basis highs_solution
      unscaled_model_status unscaled_solution_params hs hi2 hc).2
      (by rw [hi]; decide) hcp (Or.inl hi)
  · intro hi hcp
    have hi2 : NonFatalSub lps.GetInfo.status_ipm := by
      rw [hi]
      unfold NonFatalSub
      decide
    exact (solveLpIpx_infeasible_result env past_end options lp lps highs_basis highs_solution
      unscaled_model_status unscaled_solution_params hs hi2 hc).1 (Or.inr hcp)
  · intro hi
    exact (solveLpIpxAsserting_eq_some_iff env past_end options lp lps highs_basis
      highs_solution unscaled_model_status unscaled_solution_params).trans
      (solveLpIpx_infeasible_asserts env past_end options lp lps highs_basis highs_solution
        unscaled_model_status unscaled_solution_params hs hi hc)

/-- Witness of C13 (amended): interior point `primal_infeas` with crossover
`dual_infeas` gives `PRIMAL_INFEASIBLE`; interior point `dual_infeas` with
crossover `not_run` gives `PRIMAL_UNBOUNDED`, and no `assert` fails. -/
theorem solveLpIpx_infeasible_witness :
    (solveLpIpx envId (fun _ => 0) optionsEmpty lpMixed
      (lpsWith IPX_STATUS_solved 0 IPX_STATUS_primal_infeas IPX_STATUS_dual_infeas)
      basisEmpty solutionEmpty HighsModelStatus.NOTSET paramsZero).2.unscaled_model_status
      = HighsModelStatus.PRIMAL_INFEASIBLE ∧
    (solveLpIpx envId (fun _ => 0) optionsEmpty lpMixed
      (lpsWith IPX_STATUS_solved 0 IPX_STATUS_dual_infeas IPX_STATUS_not_run)
      basisEmpty solutionEmpty HighsModelStatus.NOTSET paramsZero).2.unscaled_model_status
      = HighsModelStatus.PRIMAL_UNBOUNDED ∧
    solveLpIpxAsserting envId (fun _ => 0) optionsEmpty lpMixed
      (lpsWith IPX_STATUS_solved 0 IPX_STATUS_dual_infeas IPX_STATUS_not_run)
      basisEmpty solutionEmpty HighsModelStatus.NOTSET paramsZero
      = some (solveLpIpx envId (fun _ => 0) optionsEmpty lpMixed
          (lpsWith IPX_STATUS_solved 0 IPX_STATUS_dual_infeas IPX_STATUS_not_run)
          basisEmpty solutionEmpty HighsModelStatus.NOTSET paramsZero) :=
  ⟨((solveLpIpx_infeasible envId (fun _ => 0) optionsEmpty lpMixed
      (lpsWith IPX_STATUS_solved 0 IPX_STATUS_primal_infeas IPX_STATUS_dual_infeas)
      basisEmpty solutionEmpty HighsModelStatus.NOTSET paramsZero rfl (by decide)).1 rfl).2.1,
   ((solveLpIpx_infeasible envId (fun _ => 0) optionsEmpty lpMixed
      (lpsWith IPX_STATUS_solved 0 IPX_STATUS_dual_infeas IPX_STATUS_not_run)
      basisEmpty solutionEmpty HighsModelStatus.NOTSET paramsZero rfl (by decide)).2.1 rfl
      (by decide)).2.1,
   ((solveLpIpx_infeasible envId (fun _ => 0) optionsEmpty lpMixed
      (lpsWith IPX_STATUS_solved 0 IPX_STATUS_dual_infeas IPX_STATUS_not_run)
      basisEmpty solutionEmpty HighsModelStatus.NOTSET paramsZero rfl (by decide)).2.2.2
      (Or.inr rfl)).mpr ⟨by decide, by decide, by decide, by decide⟩⟩

theorem solveLpIpx_optimal_asserts (env : Collaborators) (past_end : Nat → Int)
    (options : HighsOptions) (lp : HighsLp) (lps : LpSolver) (highs_basis : HighsBasis)
    (highs_solution : HighsSolution) (unscaled_model_status : HighsModelStatus)
    (unscaled_solution_params : HighsSolutionParams)
    (hs : lps.Solve = IPX_STATUS_solved)
    (hi : lps.GetInfo.status_ipm = IPX_STATUS_optimal)
    (hc : lps.GetInfo.status_crossover = IPX_STATUS_optimal) :
    (solveLpIpx env past_end options lp lps highs_basis highs_solution unscaled_model_status
      unscaled_solution_params).2.failed_asserts = [] := by
  obtain ⟨S, ⟨ef, ipm, cross, it, ov⟩, gbs⟩ := lps
  simp only at hs hi hc
  subst hs
  subst hi
  subst hc
  simp [solveLpIpx, solveLpIpxSolved, solveLpIpxBasic, fillInIpxData_result,
        reportIpxSolveStatus, reportIpxIpmCrossoverStatus, SolveState.assert, HighsLogMessage,
        IPX_STATUS_solved, IPX_STATUS_stopped, IPX_STATUS_invalid_input,
        IPX_STATUS_out_of_memory, IPX_STATUS_internal_error, IPX_STATUS_not_run,
        IPX_STATUS_optimal, IPX_STATUS_imprecise, IPX_STATUS_primal_infeas,
        IPX_STATUS_dual_infeas, IPX_STATUS_time_limit, IPX_STATUS_iter_limit,
        IPX_STATUS_no_progress, IPX_STATUS_failed, IPX_STATUS_debug]

/-- C14: for the status tuple with solve status `solved` and both sub-statuses
`optimal`, `solveLpIpx` returns `OK` with model status `OPTIMAL`; it fetches the
basic solution and runs the solution mapper `ipxToHighsBasicSolution` exactly
once, leaving the mapper's output in `highs_basis` and `highs_solution`; the
two messages it logs are `INFO`, so no `WARNING` or `ERROR` message is emitted;
no `assert` fails. -/
theorem solveLpIpx_optimal (env : Collaborators) (past_end : Nat → Int)
    (options : HighsOptions) (lp : HighsLp) (lps : LpSolver) (highs_basis : HighsBasis)
    (highs_solution : HighsSolution) (unscaled_model_status : HighsModelStatus)
    (unscaled_solution_params : HighsSolutionParams)
    (hs : lps.Solve = IPX_STATUS_solved)
    (hi : lps.GetInfo.status_ipm = IPX_STATUS_optimal)
    (hc : lps.GetInfo.status_crossover = IPX_STATUS_optimal) :
    solveLpIpxAsserting env past_end options lp lps highs_basis highs_solution
      unscaled_model_status unscaled_solution_params = some (solveLpIpx env past_end options lp lps highs_basis highs_solution unscaled_model_status
      unscaled_solution_params) ∧
    (solveLpIpx env past_end options lp lps highs_basis highs_solution unscaled_model_status
      unscaled_solution_params).1 = HighsStatus.OK ∧
    (solveLpIpx env past_end options lp lps highs_basis highs_solution unscaled_model_status
      unscaled_solution_params).2.unscaled_model_status = HighsModelStatus.OPTIMAL ∧
    (solveLpIpx env past_end options lp lps highs_basis highs_solution unscaled_model_status
      unscaled_solution_params).2.calls = [Call.GetInteriorSolution, Call.GetBasicSolution,
      Call.ipxToHighsBasicSolution, Call.getPrimalDualInfeasibilitiesFromHighsBasicSolution] ∧
    (solveLpIpx env past_end options lp lps highs_basis highs_solution unscaled_model_status
      unscaled_solution_params).2.calls.count Call.ipxToHighsBasicSolution = 1 ∧
    (∃ ipx_solution : IpxSolution,
      ((solveLpIpx env past_end options lp lps highs_basis highs_solution unscaled_model_status
      unscaled_solution_params).2.highs_basis, (solveLpIpx env past_end options lp lps highs_basis highs_solution unscaled_model_status
      unscaled_solution_params).2.highs_solution) =
        env.ipxToHighsBasicSolution lp
          (fillInIpxData past_end lp [] [] [] [] [] [] [] []).rhs
          (fillInIpxData past_end lp [] [] [] [] [] [] [] []).constraint_type
          ipx_solution highs_basis highs_solution) ∧
    (∃ m1 m2 : LogLine,
      (solveLpIpx env past_end options lp lps highs_basis highs_solution unscaled_model_status
      unscaled_solution_params).2.logfile = options.logfile ++ [m1, m2] ∧
      m1.type = HighsMessageType.INFO ∧ m2.type = HighsMessageType.INFO) := by
  refine ⟨solveLpIpxAsserting_of_no_failed_assert env past_end options lp lps highs_basis
    highs_solution unscaled_model_status unscaled_solution_params
    (solveLpIpx_optimal_asserts env past_end options lp lps highs_basis highs_solution
      unscaled_model_status unscaled_solution_params hs hi hc), ?_⟩
  obtain ⟨S, ⟨ef, ipm, cross, it, ov⟩, gbs⟩ := lps
  simp only at hs hi hc
  subst hs
  subst hi
  subst hc
  simp [solveLpIpx, solveLpIpxSolved, solveLpIpxBasic, fillInIpxData_result,
        reportIpxSolveStatus, reportIpxIpmCrossoverStatus, SolveState.assert, HighsLogMessage,
        IPX_STATUS_solved, IPX_STATUS_stopped, IPX_STATUS_invalid_input,
        IPX_STATUS_out_of_memory, IPX_STATUS_internal_error, IPX_STATUS_not_run,
        IPX_STATUS_optimal, IPX_STATUS_imprecise, IPX_STATUS_primal_infeas,
        IPX_STATUS_dual_infeas, IPX_STATUS_time_limit, IPX_STATUS_iter_limit,
        IPX_STATUS_no_progress, IPX_STATUS_failed, IPX_STATUS_debug]
  exact ⟨⟨_, rfl⟩, _, _, ⟨rfl, rfl⟩, rfl, rfl⟩

/-- Witness of C14 on the session (solved, optimal, optimal). -/
theorem solveLpIpx_optimal_witness :
    (lpsWith IPX_STATUS_solved 0 IPX_STATUS_optimal IPX_STATUS_optimal).Solve
      = IPX_STATUS_solved ∧
    (solveLpIpx envId (fun _ => 0) optionsEmpty lpMixed
      (lpsWith IPX_STATUS_solved 0 IPX_STATUS_optimal IPX_STATUS_optimal)
      basisEmpty solutionEmpty HighsModelStatus.NOTSET paramsZero).1 = HighsStatus.OK ∧
    (solveLpIpx envId (fun _ => 0) optionsEmpty lpMixed
      (lpsWith IPX_STATUS_solved 0 IPX_STATUS_optimal IPX_STATUS_optimal)
      basisEmpty solutionEmpty HighsModelStatus.NOTSET paramsZero).2.unscaled_model_status
      = HighsModelStatus.OPTIMAL ∧
    (solveLpIpx envId (fun _ => 0) optionsEmpty lpMixed
      (lpsWith IPX_STATUS_solved 0 IPX_STATUS_optimal IPX_STATUS_optimal)
      basisEmpty solutionEmpty HighsModelStatus.NOTSET paramsZero).2.calls.count
      Call.ipxToHighsBasicSolution = 1 :=
  have h := solveLpIpx_optimal envId (fun _ => 0) optionsEmpty lpMixed
    (lpsWith IPX_STATUS_solved 0 IPX_STATUS_optimal IPX_STATUS_optimal)
    basisEmpty solutionEmpty HighsModelStatus.NOTSET paramsZero rfl rfl rfl
  ⟨rfl, h.2.1, h.2.2.1, h.2.2.2.2.1⟩

/-- C20 (failing input): on the tuple (stopped, interior point `no_progress`,
crossover `not_run`), with no fatal and no infeasibility sub-status, neither
limit test of the `stopped` block matches and control falls through to line
398: `solveLpIpx` returns `OK`, not `Warning`, leaves the model status `NOTSET`,
and the `assert(solve_status == IPX_STATUS_solved)` is reached and false. -/
theorem stopped_without_limit_falls_through :
    (lpsWith IPX_STATUS_stopped 0 IPX_STATUS_no_progress IPX_STATUS_not_run).Solve
      = IPX_STATUS_stopped ∧
    NonFatalSub (lpsWith IPX_STATUS_stopped 0 IPX_STATUS_no_progress
      IPX_STATUS_not_run).GetInfo.status_ipm ∧
    NonFatalSub (lpsWith IPX_STATUS_stopped 0 IPX_STATUS_no_progress
      IPX_STATUS_not_run).GetInfo.status_crossover ∧
    ¬ InfeasSub (lpsWith IPX_STATUS_stopped 0 IPX_STATUS_no_progress
      IPX_STATUS_not_run).GetInfo.status_ipm ∧
    ¬ InfeasSub (lpsWith IPX_STATUS_stopped 0 IPX_STATUS_no_progress
      IPX_STATUS_not_run).GetInfo.status_crossover ∧
    (solveLpIpx envId (fun _ => 0) optionsEmpty lpMixed
      (lpsWith IPX_STATUS_stopped 0 IPX_STATUS_no_progress IPX_STATUS_not_run)
      basisEmpty solutionEmpty HighsModelStatus.NOTSET paramsZero).1 = HighsStatus.OK ∧
    (solveLpIpx envId (fun _ => 0) optionsEmpty lpMixed
      (lpsWith IPX_STATUS_stopped 0 IPX_STATUS_no_progress IPX_STATUS_not_run)
      basisEmpty solutionEmpty HighsModelStatus.NOTSET paramsZero).2.unscaled_model_status
      = HighsModelStatus.NOTSET ∧
    (solveLpIpx envId (fun _ => 0) optionsEmpty lpMixed
      (lpsWith IPX_STATUS_stopped 0 IPX_STATUS_no_progress IPX_STATUS_not_run)
      basisEmpty solutionEmpty HighsModelStatus.NOTSET paramsZero).2.failed_asserts
      = ["solve_status == IPX_STATUS_solved"] ∧
    solveLpIpxAsserting envId (fun _ => 0) optionsEmpty lpMixed
      (lpsWith IPX_STATUS_stopped 0 IPX_STATUS_no_progress IPX_STATUS_not_run)
      basisEmpty solutionEmpty HighsModelStatus.NOTSET paramsZero = none := by
  decide

theorem ite_log (c : Prop) [Decidable c] (l : List LogLine) (a b : HighsStatus × List LogLine)
    (ha : ∃ m, a.2 = l ++ [m]) (hb : ∃ m, b.2 = l ++ [m]) :
    ∃ m, (if c then a else b).2 = l ++ [m] := by
  by_cases h : c
  · rw [if_pos h]
    exact ha
  · rw [if_neg h]
    exact hb

theorem reportIpxSolveStatus_log (logfile : List LogLine) (solve_status error_flag : Int) :
    ∃ m, (reportIpxSolveStatus logfile solve_status error_flag).2 = logfile ++ [m] := by
  unfold reportIpxSolveStatus
  repeat' apply ite_log
  all_goals exact ⟨_, rfl⟩

theorem reportIpxIpmCrossoverStatus_log (logfile : List LogLine) (status : Int)
    (ipm_status : Bool) :
    ∃ m, (reportIpxIpmCrossoverStatus logfile status ipm_status).2 = logfile ++ [m] := by
  unfold reportIpxIpmCrossoverStatus
  repeat' apply ite_log
  all_goals exact ⟨_, rfl⟩

theorem reportIpxIpmCrossoverStatus_fatal (logfile : List LogLine) (status : Int)
    (ipm_status : Bool) (h : ¬ NonFatalSub status) :
    (reportIpxIpmCrossoverStatus logfile status ipm_status).1 = HighsStatus.Error := by
  unfold NonFatalSub at h
  simp only [not_or] at h
  unfold reportIpxIpmCrossoverStatus
  simp only [h.1, h.2.1, h.2.2.1, h.2.2.2.1, h.2.2.2.2.1, h.2.2.2.2.2.1, h.2.2.2.2.2.2.1,
    h.2.2.2.2.2.2.2, if_false]
  split_ifs <;> rfl

theorem reportIpxSolveStatus_stopped (logfile : List LogLine) (error_flag : Int) :
    reportIpxSolveStatus logfile IPX_STATUS_stopped error_flag =
      (HighsStatus.Warning,
        logfile ++ [{ type := HighsMessageType.WARNING, text := "Ipx: Stopped" }]) := by
  unfold reportIpxSolveStatus
  rw [if_neg (by decide), if_pos rfl]
  rfl

/-- The log file when `solveLpIpx` returns at line 365 because a sub-status is
fatal. -/
theorem solveLpIpx_log_of_fatal_sub (env : Collaborators) (past_end : Nat → Int)
    (options : HighsOptions) (lp : HighsLp) (lps : LpSolver) (highs_basis : HighsBasis)
    (highs_solution : HighsSolution) (unscaled_model_status : HighsModelStatus)
    (unscaled_solution_params : HighsSolutionParams)
    (hs : lps.Solve = IPX_STATUS_solved ∨ lps.Solve = IPX_STATUS_stopped)
    (hf : ¬ NonFatalSub lps.GetInfo.status_ipm ∨ ¬ NonFatalSub lps.GetInfo.status_crossover) :
    (solveLpIpx env past_end options lp lps highs_basis highs_solution unscaled_model_status
      unscaled_solution_params).2.logfile =
      (reportIpxIpmCrossoverStatus
        (reportIpxIpmCrossoverStatus
          (if lps.Solve = IPX_STATUS_solved then options.logfile
           else (reportIpxSolveStatus options.logfile lps.Solve lps.GetInfo.errflag).2)
          lps.GetInfo.status_ipm true).2
        lps.GetInfo.status_crossover false).2 := by
  have h1 : ¬ (¬ lps.Solve = IPX_STATUS_solved ∧
      (reportIpxSolveStatus options.logfile lps.Solve lps.GetInfo.errflag).1
        = HighsStatus.Error) := by
    rcases hs with hs | hs
    · exact fun h => h.1 hs
    · rw [hs, reportIpxSolveStatus_stopped]
      exact fun h => HighsStatus.noConfusion h.2
  have hsub : ∀ l1 l2 : List LogLine,
      (reportIpxIpmCrossoverStatus l1 lps.GetInfo.status_ipm true).1 = HighsStatus.Error ∨
      (reportIpxIpmCrossoverStatus l2 lps.GetInfo.status_crossover false).1
        = HighsStatus.Error := by
    intro l1 l2
    rcases hf with hf | hf
    · exact Or.inl (reportIpxIpmCrossoverStatus_fatal _ _ _ hf)
    · exact Or.inr (reportIpxIpmCrossoverStatus_fatal _ _ _ hf)
  simp only [solveLpIpx, fillInIpxData_result, ne_eq, not_true_eq_false, if_false]
  rw [if_neg h1, if_pos (hsub _ _)]
  by_cases h2 : lps.Solve = IPX_STATUS_solved
  · simp [h2]
  · simp [h2]

theorem not_advisoryLogged_of_fatal_sub (solve_status ipm cross : Int)
    (hf : ¬ NonFatalSub ipm ∨ ¬ NonFatalSub cross) : ¬ advisoryLogged solve_status ipm cross := by
  intro h
  rcases hf with hf | hf
  · exact hf h.1
  · apply hf
    rw [h.2.1]
    unfold NonFatalSub
    decide

theorem length_log_of_fatal_sub (env : Collaborators) (past_end : Nat → Int)
    (options : HighsOptions) (lp : HighsLp) (lps : LpSolver) (highs_basis : HighsBasis)
    (highs_solution : HighsSolution) (unscaled_model_status : HighsModelStatus)
    (unscaled_solution_params : HighsSolutionParams)
    (hs : lps.Solve = IPX_STATUS_solved ∨ lps.Solve = IPX_STATUS_stopped)
    (hf : ¬ NonFatalSub lps.GetInfo.status_ipm ∨ ¬ NonFatalSub lps.GetInfo.status_crossover) :
    (solveLpIpx env past_end options lp lps highs_basis highs_solution unscaled_model_status
      unscaled_solution_params).2.logfile.length =
      options.logfile.length + (if lps.Solve = IPX_STATUS_stopped then 3 else 2) := by
  rw [solveLpIpx_log_of_fatal_sub env past_end options lp lps highs_basis highs_solution
    unscaled_model_status unscaled_solution_params hs hf]
  obtain ⟨m3, h3⟩ := reportIpxIpmCrossoverStatus_log
    (reportIpxIpmCrossoverStatus
      (if lps.Solve = IPX_STATUS_solved then options.logfile
       else (reportIpxSolveStatus options.logfile lps.Solve lps.GetInfo.errflag).2)
      lps.GetInfo.status_ipm true).2 lps.GetInfo.status_crossover false
  obtain ⟨m2, h2⟩ := reportIpxIpmCrossoverStatus_log
    (if lps.Solve = IPX_STATUS_solved then options.logfile
     else (reportIpxSolveStatus options.logfile lps.Solve lps.GetInfo.errflag).2)
    lps.GetInfo.status_ipm true
  obtain ⟨m1, h1⟩ := reportIpxSolveStatus_log options.logfile lps.Solve lps.GetInfo.errflag
  rw [h3, h2]
  rcases hs with hs | hs
  · have hne : ¬ lps.Solve = IPX_STATUS_stopped := by
      rw [hs]
      decide
    rw [if_pos hs, if_neg hne]
    simp
  · have hne : ¬ lps.Solve = IPX_STATUS_solved := by
      rw [hs]
      decide
    rw [if_neg hne, if_pos hs, h1]
    simp

theorem length_log_of_non_fatal_sub (env : Collaborators) (past_end : Nat → Int)
    (options : HighsOptions) (lp : HighsLp) (lps : LpSolver) (highs_basis : HighsBasis)
    (highs_solution : HighsSolution) (unscaled_model_status : HighsModelStatus)
    (unscaled_solution_params : HighsSolutionParams)
    (hs : lps.Solve = IPX_STATUS_solved ∨ lps.Solve = IPX_STATUS_stopped)
    (hi : NonFatalSub lps.GetInfo.status_ipm) (hc : NonFatalSub lps.GetInfo.status_crossover) :
    (solveLpIpx env past_end options lp lps highs_basis highs_solution unscaled_model_status
      unscaled_solution_params).2.logfile.length =
      options.logfile.length +
        messageCount lps.Solve lps.GetInfo.status_ipm lps.GetInfo.status_crossover := by
  obtain ⟨S, ⟨ef, ipm, cross, it, ov⟩, gbs⟩ := lps
  simp only at hs hi hc
  unfold NonFatalSub at hi hc
  rcases hs with rfl | rfl <;>
    rcases hi with rfl | rfl | rfl | rfl | rfl | rfl | rfl | rfl <;>
      rcases hc with rfl | rfl | rfl | rfl | rfl | rfl | rfl | rfl <;>
        simp [solveLpIpx, solveLpIpxSolved, solveLpIpxBasic, fillInIpxData_result,
          reportIpxSolveStatus, reportIpxIpmCrossoverStatus, SolveState.assert, HighsLogMessage,
          messageCount, advisoryLogged, NonFatalSub, InfeasSub,
          IPX_STATUS_solved, IPX_STATUS_stopped, IPX_STATUS_invalid_input,
          IPX_STATUS_out_of_memory, IPX_STATUS_internal_error, IPX_STATUS_not_run,
          IPX_STATUS_optimal, IPX_STATUS_imprecise, IPX_STATUS_primal_infeas,
          IPX_STATUS_dual_infeas, IPX_STATUS_time_limit, IPX_STATUS_iter_limit,
          IPX_STATUS_no_progress, IPX_STATUS_failed, IPX_STATUS_debug]

theorem length_log_of_fatal_solve_status (env : Collaborators) (past_end : Nat → Int)
    (options : HighsOptions) (lp : HighsLp) (lps : LpSolver) (highs_basis : HighsBasis)
    (highs_solution : HighsSolution) (unscaled_model_status : HighsModelStatus)
    (unscaled_solution_params : HighsSolutionParams)
    (h1 : lps.Solve ≠ IPX_STATUS_solved) (h2 : lps.Solve ≠ IPX_STATUS_stopped) :
    (solveLpIpx env past_end options lp lps highs_basis highs_solution unscaled_model_status
      unscaled_solution_params).2.logfile.length = options.logfile.length + 1 := by
  have herr := reportIpxSolveStatus_error options.logfile lps.Solve lps.GetInfo.errflag h1 h2
  obtain ⟨m, hm⟩ := reportIpxSolveStatus_log options.logfile lps.Solve lps.GetInfo.errflag
  simp only [solveLpIpx, fillInIpxData_result, ne_eq, not_true_eq_false, if_false]
  rw [if_pos ⟨h1, herr⟩]
  simp [hm]

theorem reportIpxIpmCrossoverStatus_time_limit (logfile : List LogLine) (ipm_status : Bool) :
    ∃ m, reportIpxIpmCrossoverStatus logfile IPX_STATUS_time_limit ipm_status =
      (HighsStatus.Warning, logfile ++ [m]) ∧ m.type = HighsMessageType.WARNING := by
  unfold reportIpxIpmCrossoverStatus
  rw [if_neg (by decide), if_neg (by decide), if_neg (by decide), if_neg (by decide),
    if_neg (by decide), if_pos rfl]
  exact ⟨_, rfl, rfl⟩

theorem log_of_stopped_time_limit (env : Collaborators) (past_end : Nat → Int)
    (options : HighsOptions) (lp : HighsLp) (lps : LpSolver) (highs_basis : HighsBasis)
    (highs_solution : HighsSolution) (unscaled_model_status : HighsModelStatus)
    (unscaled_solution_params : HighsSolutionParams)
    (hs : lps.Solve = IPX_STATUS_stopped)
    (hi : lps.GetInfo.status_ipm = IPX_STATUS_time_limit) :
    ∃ m1 m2 m3 : LogLine,
      (solveLpIpx env past_end options lp lps highs_basis highs_solution unscaled_model_status
      unscaled_solution_params).2.logfile = options.logfile ++ [m1, m2, m3] ∧
      m1.type = HighsMessageType.WARNING ∧ m2.type = HighsMessageType.WARNING := by
  by_cases hc : NonFatalSub lps.GetInfo.status_crossover
  · obtain ⟨S, ⟨ef, ipm, cross, it, ov⟩, gbs⟩ := lps
    simp only at hs hi hc
    subst hs
    subst hi
    unfold NonFatalSub at hc
    rcases hc with rfl | rfl | rfl | rfl | rfl | rfl | rfl | rfl <;>
      simp [solveLpIpx, solveLpIpxSolved, solveLpIpxBasic, fillInIpxData_result,
        reportIpxSolveStatus, reportIpxIpmCrossoverStatus, SolveState.assert, HighsLogMessage,
        IPX_STATUS_solved, IPX_STATUS_stopped, IPX_STATUS_invalid_input,
        IPX_STATUS_out_of_memory, IPX_STATUS_internal_error, IPX_STATUS_not_run,
        IPX_STATUS_optimal, IPX_STATUS_imprecise, IPX_STATUS_primal_infeas,
        IPX_STATUS_dual_infeas, IPX_STATUS_time_limit, IPX_STATUS_iter_limit,
        IPX_STATUS_no_progress, IPX_STATUS_failed, IPX_STATUS_debug] <;>
      exact ⟨_, _, ⟨rfl, rfl⟩, rfl, rfl⟩
  · rw [solveLpIpx_log_of_fatal_sub env past_end options lp lps highs_basis highs_solution
      unscaled_model_status unscaled_solution_params (Or.inr hs) (Or.inr hc)]
    have hne : ¬ lps.Solve = IPX_STATUS_solved := by
      rw [hs]
      decide
    rw [if_neg hne, hs, hi, reportIpxSolveStatus_stopped]
    obtain ⟨m2, h2, ht2⟩ := reportIpxIpmCrossoverStatus_time_limit
      (options.logfile ++ [{ type := HighsMessageType.WARNING, text := "Ipx: Stopped" }]) true
    rw [h2]
    obtain ⟨m3, h3⟩ := reportIpxIpmCrossoverStatus_log
      (options.logfile ++ [{ type := HighsMessageType.WARNING, text := "Ipx: Stopped" }] ++ [m2])
      lps.GetInfo.status_crossover false
    refine ⟨{ type := HighsMessageType.WARNING, text := "Ipx: Stopped" }, m2, m3, ?_, rfl, ht2⟩
    simp only at h3 ⊢
    rw [h3]
    simp

/-- C16 (counterexample): on the tuple (stopped, interior point `time_limit`,
crossover `not_run`), started with an empty log file, `solveLpIpx` logs three
messages, all `WARNING`: one from `reportIpxSolveStatus` and one from each call
of `reportIpxIpmCrossoverStatus`. No `assert` fails on this tuple. -/
theorem stopped_time_limit_logs_three_warnings :
    (solveLpIpx envId (fun _ => 0) optionsEmpty lpMixed
      (lpsWith IPX_STATUS_stopped 0 IPX_STATUS_time_limit IPX_STATUS_not_run)
      basisEmpty solutionEmpty HighsModelStatus.NOTSET paramsZero).2.logfile.length = 3 ∧
    (solveLpIpx envId (fun _ => 0) optionsEmpty lpMixed
      (lpsWith IPX_STATUS_stopped 0 IPX_STATUS_time_limit IPX_STATUS_not_run)
      basisEmpty solutionEmpty HighsModelStatus.NOTSET paramsZero).2.logfile.map LogLine.type
      = [HighsMessageType.WARNING, HighsMessageType.WARNING, HighsMessageType.WARNING] ∧
    (solveLpIpx envId (fun _ => 0) optionsEmpty lpMixed
      (lpsWith IPX_STATUS_stopped 0 IPX_STATUS_time_limit IPX_STATUS_not_run)
      basisEmpty solutionEmpty HighsModelStatus.NOTSET paramsZero).2.failed_asserts = [] := by
  decide

/-- C16 (amended): every call of `reportIpxSolveStatus` and of
`reportIpxIpmCrossoverStatus` logs exactly one message; for every status tuple
`solveLpIpx` therefore logs one message when the solve status is fatal, and
otherwise one per report call, two when the solve status is `solved` and three
when it is `stopped`, plus the clean-up advisory when it maps an imprecise
crossover solution (`messageCount`); for solve status `stopped` with
interior-point sub-status `time_limit` it logs three messages, of which the
first two are `WARNING`. -/
theorem solveLpIpx_messages (env : Collaborators) (past_end : Nat → Int)
    (options : HighsOptions) (lp : HighsLp) (lps : LpSolver) (highs_basis : HighsBasis)
    (highs_solution : HighsSolution) (unscaled_model_status : HighsModelStatus)
    (unscaled_solution_params : HighsSolutionParams) :
    (∀ (logfile : List LogLine) (solve_status error_flag : Int),
      ∃ m, (reportIpxSolveStatus logfile solve_status error_flag).2 = logfile ++ [m]) ∧
    (∀ (logfile : List LogLine) (status : Int) (ipm_status : Bool),
      ∃ m, (reportIpxIpmCrossoverStatus logfile status ipm_status).2 = logfile ++ [m]) ∧
    (solveLpIpx env past_end options lp lps highs_basis highs_solution unscaled_model_status
      unscaled_solution_params).2.logfile.length =
      options.logfile.length +
        messageCount lps.Solve lps.GetInfo.status_ipm lps.GetInfo.status_crossover ∧
    (lps.Solve = IPX_STATUS_stopped → lps.GetInfo.status_ipm = IPX_STATUS_time_limit →
      ∃ m1 m2 m3 : LogLine,
        (solveLpIpx env past_end options lp lps highs_basis highs_solution unscaled_model_status
      unscaled_solution_params).2.logfile = options.logfile ++ [m1, m2, m3] ∧
        m1.type = HighsMessageType.WARNING ∧ m2.type = HighsMessageType.WARNING) := by
  refine ⟨reportIpxSolveStatus_log, reportIpxIpmCrossoverStatus_log, ?_,
    log_of_stopped_time_limit env past_end options lp lps highs_basis highs_solution
      unscaled_model_status unscaled_solution_params⟩
  by_cases hs : lps.Solve = IPX_STATUS_solved ∨ lps.Solve = IPX_STATUS_stopped
  · by_cases hf : NonFatalSub lps.GetInfo.status_ipm ∧ NonFatalSub lps.GetInfo.status_crossover
    · exact length_log_of_non_fatal_sub env past_end options lp lps highs_basis highs_solution
        unscaled_model_status unscaled_solution_params hs hf.1 hf.2
    · have hf2 := not_and_or.mp hf
      rw [length_log_of_fatal_sub env past_end options lp lps highs_basis highs_solution
        unscaled_model_status unscaled_solution_params hs hf2]
      have hadv := not_advisoryLogged_of_fatal_sub lps.Solve _ _ hf2
      have hnf : ¬ (lps.Solve ≠ IPX_STATUS_solved ∧ lps.Solve ≠ IPX_STATUS_stopped) := by
        intro h
        rcases hs with hs | hs
        · exact h.1 hs
        · exact h.2 hs
      unfold messageCount
      rw [if_neg hnf, if_neg hadv, Nat.add_zero]
  · rw [not_or] at hs
    rw [length_log_of_fatal_solve_status env past_end options lp lps highs_basis highs_solution
      unscaled_model_status unscaled_solution_params hs.1 hs.2]
    unfold messageCount
    rw [if_pos hs]

theorem foldl_rowmapStepChecked_none (free : List Nat) (l : List Nat) :
    l.foldl (rowmapStepChecked free) none = none := by
  induction l with
  | nil => rfl
  | cons x l ih => exact ih

theorem foldl_rowmapStepChecked_some (past_end : Nat → Int) (free : List Nat) (l : List Nat)
    (s t : List Int × Int × Nat)
    (h : l.foldl (rowmapStepChecked free) (some s) = some t) :
    l.foldl (rowmapStep past_end free) s = t := by
  induction l generalizing s with
  | nil =>
    simp only [List.foldl_nil, Option.some.injEq] at h
    simpa using h
  | cons x l ih =>
    rw [List.foldl_cons] at h ⊢
    by_cases hb : s.2.2 < free.length
    · have e : rowmapStepChecked free (some s) x = some (rowmapStep past_end free s x) := by
        simp only [rowmapStepChecked, rowmapStep, vreadPast, dif_pos hb]
        split_ifs <;> rfl
      rw [e] at h
      exact ih _ h
    · have e : rowmapStepChecked free (some s) x = none := by
        simp only [rowmapStepChecked, dif_neg hb]
      rw [e, foldl_rowmapStepChecked_none] at h
      exact Option.noConfusion h

/-- When no read of `free_rows` is out of bounds, `reduced_rowmap` is the checked
result, whatever the memory behind `free_rows` holds. -/
theorem buildRowmap_of_checked (past_end : Nat → Int) (numRow : Nat) (free : List Nat)
    (m : List Int) (h : buildRowmapChecked numRow free = some m) :
    buildRowmap past_end numRow free = m := by
  unfold buildRowmapChecked at h
  unfold buildRowmap
  by_cases hf : free.length > 0
  · rw [if_pos hf] at h ⊢
    rw [Option.map_eq_some'] at h
    obtain ⟨t, ht, rfl⟩ := h
    rw [foldl_rowmapStepChecked_some past_end free _ _ t ht]
  · rw [if_neg hf] at h ⊢
    exact Option.some.inj h

/-- C17 (failing input): on `lpCrossed`, whose only row has the bounds
`[10, 2]` (lower above upper, both finite), the slack/free pass of lines 49–56
records the row neither as doubly-bounded nor as free, so no slack column is
added (`num_col = 1`), while the rhs/type pass of lines 65–83 takes its last
branch (the one commented "general bounded") and pushes `(0, '=')`. -/
theorem crossed_row_classified_differently :
    isGeneralBounded (Dbl.fin 10) (Dbl.fin 2) = false ∧
    general_bounded_rows lpCrossed = [] ∧
    free_rows lpCrossed = [] ∧
    rhsEntry lpCrossed 0 = some (Dbl.fin 0, '=') ∧
    (fillInIpxData (fun _ => 0) lpCrossed [] [] [] [] [] [] [] []).num_col = 1 ∧
    (fillInIpxData (fun _ => 0) lpCrossed [] [] [] [] [] [] [] []).num_row = 1 ∧
    (fillInIpxData (fun _ => 0) lpCrossed [] [] [] [] [] [] [] []).rhs = [Dbl.fin 0] ∧
    (fillInIpxData (fun _ => 0) lpCrossed [] [] [] [] [] [] [] []).constraint_type = ['='] ∧
    (fillInIpxData (fun _ => 0) lpCrossed [] [] [] [] [] [] [] []).col_lb = [Dbl.fin 0] := by
  decide

/-- C18 (failing input): `lpFreeFirst` has mutually consistent arrays and its
rows are free, non-free; `free_rows` is `[0]`, and at row 1 the loop of lines
89–97 reads `free_rows[1]`, which is out of bounds. On `lpMixed`, whose only
free row is the last row, no read is out of bounds. -/
theorem free_rows_read_out_of_bounds :
    ConsistentLp lpFreeFirst ∧
    free_rows lpFreeFirst = [0] ∧
    buildRowmapChecked lpFreeFirst.numRow_ (free_rows lpFreeFirst) = none ∧
    buildRowmapChecked lpMixed.numRow_ (free_rows lpMixed) = some [0, 1, 2, 3, -1] := by
  decide

/-- C19 (failing input): `lpFreeBoxedFree` is consistent, the transformed row
count is 1, and `Ai` is `[0, 0, 1]`: the slack entry holds the original row
number 1, which is not in `0 .. num_row - 1`. -/
theorem slack_row_index_out_of_range :
    ConsistentLp lpFreeBoxedFree ∧
    (fillInIpxData (fun _ => 0) lpFreeBoxedFree [] [] [] [] [] [] [] []).num_row = 1 ∧
    (fillInIpxData (fun _ => 0) lpFreeBoxedFree [] [] [] [] [] [] [] []).Ai[2]? = some 1 ∧
    ¬ (∀ x ∈ (fillInIpxData (fun _ => 0) lpFreeBoxedFree [] [] [] [] [] [] [] []).Ai,
        0 ≤ x ∧ x < (fillInIpxData (fun _ => 0) lpFreeBoxedFree [] [] [] [] [] [] [] []).num_row) := by
  decide

/-- The status `solved` with two sub-statuses that are neither fatal nor an
infeasibility code, and a crossover sub-status other than `optimal` and
`imprecise`: no branch of lines 405–479 assigns the model status, so the call
returns `OK` through line 480 with the model status `NOTSET` of the reset of
line 302; only the interior solution is fetched. -/
theorem solveLpIpx_solved_without_basic_solution (env : Collaborators) (past_end : Nat → Int)
    (options : HighsOptions) (lp : HighsLp) (lps : LpSolver) (highs_basis : HighsBasis)
    (highs_solution : HighsSolution) (unscaled_model_status : HighsModelStatus)
    (unscaled_solution_params : HighsSolutionParams)
    (hs : lps.Solve = IPX_STATUS_solved)
    (hi : NonFatalSub lps.GetInfo.status_ipm) (hc : NonFatalSub lps.GetInfo.status_crossover)
    (hni : ¬ InfeasSub lps.GetInfo.status_ipm)
    (hnc : ¬ InfeasSub lps.GetInfo.status_crossover)
    (hco : lps.GetInfo.status_crossover ≠ IPX_STATUS_optimal)
    (hcm : lps.GetInfo.status_crossover ≠ IPX_STATUS_imprecise) :
    (solveLpIpx env past_end options lp lps highs_basis highs_solution unscaled_model_status
      unscaled_solution_params).1 = HighsStatus.OK ∧
    (solveLpIpx env past_end options lp lps highs_basis highs_solution unscaled_model_status
      unscaled_solution_params).2.unscaled_model_status = HighsModelStatus.NOTSET ∧
    (solveLpIpx env past_end options lp lps highs_basis highs_solution unscaled_model_status
      unscaled_solution_params).2.highs_basis = highs_basis ∧
    (solveLpIpx env past_end options lp lps highs_basis highs_solution unscaled_model_status
      unscaled_solution_params).2.highs_solution = highs_solution ∧
    (solveLpIpx env past_end options lp lps highs_basis highs_solution unscaled_model_status
      unscaled_solution_params).2.calls = [Call.GetInteriorSolution] := by
  obtain ⟨S, ⟨ef, ipm, cross, it, ov⟩, gbs⟩ := lps
  simp only at hs hi hc
  simp only at hni hnc hco hcm
  subst hs
  unfold NonFatalSub at hi hc
  unfold InfeasSub at hni hnc
  rcases hi with rfl | rfl | rfl | rfl | rfl | rfl | rfl | rfl <;>
    rcases hc with rfl | rfl | rfl | rfl | rfl | rfl | rfl | rfl <;>
      first
        | exact absurd (Or.inl rfl) hni
        | exact absurd (Or.inr rfl) hni
        | exact absurd (Or.inl rfl) hnc
        | exact absurd (Or.inr rfl) hnc
        | exact absurd rfl hco
        | exact absurd rfl hcm
        | simp [solveLpIpx, solveLpIpxSolved, solveLpIpxBasic, fillInIpxData_result,
        reportIpxSolveStatus, reportIpxIpmCrossoverStatus, SolveState.assert, HighsLogMessage,
        IPX_STATUS_solved, IPX_STATUS_stopped, IPX_STATUS_invalid_input,
        IPX_STATUS_out_of_memory, IPX_STATUS_internal_error, IPX_STATUS_not_run,
        IPX_STATUS_optimal, IPX_STATUS_imprecise, IPX_STATUS_primal_infeas,
        IPX_STATUS_dual_infeas, IPX_STATUS_time_limit, IPX_STATUS_iter_limit,
        IPX_STATUS_no_progress, IPX_STATUS_failed, IPX_STATUS_debug]

/-- C21 (failing input): on the tuples (solved, interior point `optimal`,
crossover `not_run`) and (solved, interior point `optimal`, crossover
`no_progress`), with no fatal sub-status, `solveLpIpx` returns `OK` and the
model status it leaves is `NOTSET`, the value of the reset of line 302, so none
of `OPTIMAL`, `PRIMAL_INFEASIBLE`, `PRIMAL_UNBOUNDED`; no `assert` fails on
either tuple, so this is the return with assertions enabled too. -/
theorem solved_without_crossover_returns_ok_with_notset :
    (lpsWith IPX_STATUS_solved 0 IPX_STATUS_optimal IPX_STATUS_not_run).Solve
      = IPX_STATUS_solved ∧
    NonFatalSub (lpsWith IPX_STATUS_solved 0 IPX_STATUS_optimal
      IPX_STATUS_not_run).GetInfo.status_ipm ∧
    NonFatalSub (lpsWith IPX_STATUS_solved 0 IPX_STATUS_optimal
      IPX_STATUS_not_run).GetInfo.status_crossover ∧
    (solveLpIpx envId (fun _ => 0) optionsEmpty lpMixed
      (lpsWith IPX_STATUS_solved 0 IPX_STATUS_optimal IPX_STATUS_not_run)
      basisEmpty solutionEmpty HighsModelStatus.NOTSET paramsZero).1 = HighsStatus.OK ∧
    (solveLpIpx envId (fun _ => 0) optionsEmpty lpMixed
      (lpsWith IPX_STATUS_solved 0 IPX_STATUS_optimal IPX_STATUS_not_run)
      basisEmpty solutionEmpty HighsModelStatus.NOTSET paramsZero).2.unscaled_model_status
      = HighsModelStatus.NOTSET ∧
    (solveLpIpx envId (fun _ => 0) optionsEmpty lpMixed
      (lpsWith IPX_STATUS_solved 0 IPX_STATUS_optimal IPX_STATUS_not_run)
      basisEmpty solutionEmpty HighsModelStatus.OPTIMAL paramsZero).2.unscaled_model_status
      = HighsModelStatus.NOTSET ∧
    (solveLpIpx envId (fun _ => 0) optionsEmpty lpMixed
      (lpsWith IPX_STATUS_solved 0 IPX_STATUS_optimal IPX_STATUS_not_run)
      basisEmpty solutionEmpty HighsModelStatus.NOTSET paramsZero).2.failed_asserts = [] ∧
    solveLpIpxAsserting envId (fun _ => 0) optionsEmpty lpMixed
      (lpsWith IPX_STATUS_solved 0 IPX_STATUS_optimal IPX_STATUS_not_run)
      basisEmpty solutionEmpty HighsModelStatus.NOTSET paramsZero
      = some (solveLpIpx envId (fun _ => 0) optionsEmpty lpMixed
          (lpsWith IPX_STATUS_solved 0 IPX_STATUS_optimal IPX_STATUS_not_run)
          basisEmpty solutionEmpty HighsModelStatus.NOTSET paramsZero) ∧
    NonFatalSub (lpsWith IPX_STATUS_solved 0 IPX_STATUS_optimal
      IPX_STATUS_no_progress).GetInfo.status_crossover ∧
    (solveLpIpx envId (fun _ => 0) optionsEmpty lpMixed
      (lpsWith IPX_STATUS_solved 0 IPX_STATUS_optimal IPX_STATUS_no_progress)
      basisEmpty solutionEmpty HighsModelStatus.NOTSET paramsZero).1 = HighsStatus.OK ∧
    (solveLpIpx envId (fun _ => 0) optionsEmpty lpMixed
      (lpsWith IPX_STATUS_solved 0 IPX_STATUS_optimal IPX_STATUS_no_progress)
      basisEmpty solutionEmpty HighsModelStatus.NOTSET paramsZero).2.unscaled_model_status
      = HighsModelStatus.NOTSET ∧
    (solveLpIpx envId (fun _ => 0) optionsEmpty lpMixed
      (lpsWith IPX_STATUS_solved 0 IPX_STATUS_optimal IPX_STATUS_no_progress)
      basisEmpty solutionEmpty HighsModelStatus.NOTSET paramsZero).2.failed_asserts = [] := by
  decide

theorem getElem?_filter_range (p : Nat → Bool) (N n : Nat) (hn : n < N) (hp : p n = true) :
    ((List.range N).filter p)[(List.range n).countP p]? = some n := by
  induction N with
  | zero => omega
  | succ N ih =>
    rw [List.range_succ, List.filter_append]
    by_cases h : n < N
    · have h1 := ih h
      have h2 : (List.range n).countP p < ((List.range N).filter p).length := by
        by_contra hc
        rw [List.getElem?_eq_none (by omega)] at h1
        exact Option.noConfusion h1
      rw [List.getElem?_append_left h2, h1]
    · have e : n = N := by omega
      subst e
      rw [List.getElem?_append_right (by rw [List.countP_eq_length_filter]),
        List.countP_eq_length_filter, Nat.sub_self]
      simp [hp]

theorem foldl_rowmapStepChecked_range (p : Nat → Bool) (N n : Nat) (hn : n ≤ N)
    (s : List Int × Int × Nat)
    (h : (List.range n).foldl (rowmapStepChecked ((List.range N).filter p))
      (some (List.replicate N (-1), 0, 0)) = some s) :
    s.2.2 = (List.range n).countP p ∧
    s.2.1 = (((List.range n).countP (fun i => !p i) : Nat) : Int) ∧
    s.1.length = N ∧
    ∀ r, r < N → s.1[r]? = some (if r < n ∧ p r = false then
        (((List.range r).countP (fun i => !p i) : Nat) : Int) else -1) := by
  induction n generalizing s with
  | zero =>
    simp only [List.range_zero, List.foldl_nil, Option.some.injEq] at h
    subst h
    refine ⟨rfl, rfl, by simp, ?_⟩
    intro r hr
    simp [hr]
  | succ n ih =>
    rw [List.range_succ, List.foldl_append, List.foldl_cons, List.foldl_nil] at h
    cases hs : (List.range n).foldl (rowmapStepChecked ((List.range N).filter p))
        (some (List.replicate N (-1), 0, 0)) with
    | none =>
      rw [hs] at h
      exact Option.noConfusion h
    | some t =>
      rw [hs] at h
      obtain ⟨h1, h2, h3, h4⟩ := ih (by omega) t hs
      by_cases hb : t.2.2 < ((List.range N).filter p).length
      · simp only [rowmapStepChecked, dif_pos hb] at h
        by_cases hp : p n = true
        · have hg : ((List.range N).filter p).get ⟨t.2.2, hb⟩ = n := by
            have e := getElem?_filter_range p N n (by omega) hp
            rw [← h1, List.getElem?_eq_getElem hb] at e
            exact Option.some.inj e
          rw [if_pos (by rw [hg])] at h
          have e := Option.some.inj h
          subst e
          refine ⟨?_, ?_, h3, ?_⟩
          · simp [List.range_succ, List.countP_append, hp, h1]
          · simp [List.range_succ, List.countP_append, hp, h2]
          · intro r hr
            rw [h4 r hr]
            by_cases hrn : r = n
            · subst hrn
              simp [hp]
            · have hlt : r < n + 1 ↔ r < n := by omega
              simp only [hlt]
        · have hpf : p n = false := by simpa using hp
          have hg : ((List.range N).filter p).get ⟨t.2.2, hb⟩ ≠ n := by
            intro e
            have hm : ((List.range N).filter p).get ⟨t.2.2, hb⟩ ∈ (List.range N).filter p :=
              List.get_mem _ _ _
            rw [e] at hm
            exact hp (List.of_mem_filter hm)
          rw [if_neg (by
            intro e
            exact hg (Int.ofNat.inj e))] at h
          have e := Option.some.inj h
          subst e
          refine ⟨?_, ?_, ?_, ?_⟩
          · simp [List.range_succ, List.countP_append, hpf, h1]
          · simp [List.range_succ, List.countP_append, hpf, h2]
          · simp [h3]
          · intro r hr
            simp only [List.getElem?_set]
            by_cases hrn : n = r
            · subst hrn
              rw [if_pos rfl, if_pos (by omega), h2]
              simp [hpf]
            · rw [if_neg hrn, h4 r hr]
              have hlt : r < n + 1 ↔ r < n := by omega
              simp only [hlt]
      · simp only [rowmapStepChecked, dif_neg hb] at h
        exact Option.noConfusion h

theorem buildRowmap_getElem?_of_checked (past_end : Nat → Int) (p : Nat → Bool) (N : Nat)
    (m : List Int) (h : buildRowmapChecked N ((List.range N).filter p) = some m)
    (r : Nat) (hr : r < N) :
    (buildRowmap past_end N ((List.range N).filter p))[r]? =
      some (if p r = true then -1
        else (((List.range r).countP (fun i => !p i) : Nat) : Int)) := by
  by_cases hf : ((List.range N).filter p).length > 0
  · rw [buildRowmap_of_checked past_end N _ m h]
    unfold buildRowmapChecked at h
    rw [if_pos hf, Option.map_eq_some'] at h
    obtain ⟨t, ht, rfl⟩ := h
    rw [(foldl_rowmapStepChecked_range p N N (Nat.le_refl N) t ht).2.2.2 r hr]
    by_cases hp : p r = true
    · simp [hp]
    · have hpf : p r = false := by simpa using hp
      simp [hpf, hr]
  · have hnil : (List.range N).filter p = [] := by
      rw [← List.length_eq_zero]
      omega
    have hall : ∀ i, i < N → p i = false := by
      intro i hi
      have := List.filter_eq_nil_iff.mp hnil i (List.mem_range.mpr hi)
      simpa using this
    rw [hnil, buildRowmap_nil, List.getElem?_map, List.getElem?_range hr, hall r hr]
    have hc : (List.range r).countP (fun i => !p i) = r := by
      rw [List.countP_eq_length_filter, List.filter_eq_self.mpr, List.length_range]
      intro i hi
      rw [hall i (by have := List.mem_range.mp hi; omega)]
      rfl
    rw [hc]
    rfl

/-- When the loop of lines 89–97 reads `free_rows` only inside its bounds,
`reduced_rowmap` is the compaction map, whatever the memory behind `free_rows`
holds: a free row maps to `−1` and a retained row to the number of retained
rows before it. -/
theorem reduced_rowmap_of_checked (past_end : Nat → Int) (lp : HighsLp)
    (hl : lp.rowLower_.length = lp.numRow_) (hu : lp.rowUpper_.length = lp.numRow_)
    (m : List Int) (hm : buildRowmapChecked lp.numRow_ (free_rows lp) = some m)
    (r : Nat) (hr : r < lp.numRow_) :
    vget (reduced_rowmap past_end lp) r =
      if rowIsFree lp r = true then -1 else (retainedBefore lp r : Int) := by
  rw [free_rows_eq] at hm
  have h := buildRowmap_getElem?_of_checked past_end (freeAt lp) lp.numRow_ m hm r hr
  have e1 : freeAt lp r = rowIsFree lp r := freeAt_eq lp (hl.trans hu.symm) r
  have e2 : (List.range r).countP (fun i => !freeAt lp i) = retainedBefore lp r := by
    rw [retainedBefore, ← countP_range_eq (rowBounds lp) default (fun b => !FreeBounds b) r
      (by rw [length_rowBounds lp hl hu]; omega)]
    congr 1
    funext i
    rw [freeAt_eq lp (hl.trans hu.symm) i]
    rfl
  rw [e1, e2] at h
  unfold reduced_rowmap vget
  rw [free_rows_eq, List.getD_eq_getElem?_getD, h]
  rfl

/-- The part of the matrix copy that holds when the loop of lines 89–97 reads
`free_rows` only inside its bounds (there is no free row, or the last row is
free): for a consistent matrix and empty `Ai`, `Ax` buffers, the entries of
every original column `j` of the transformed matrix are the original entries of
column `j` whose row is not free, in order, values unchanged, and each row index
replaced by the row's reduced index, the number of retained rows before it. -/
theorem fillInIpxData_matrix_reduced_index (past_end : Nat → Int) (lp : HighsLp)
    (obj col_lb col_ub : List Dbl) (Ap : List Int) (rhs : List Dbl)
    (constraint_type : List Char) (hc : ConsistentMatrix lp)
    (m : List Int) (hm : buildRowmapChecked lp.numRow_ (free_rows lp) = some m)
    (j : Nat) (hj : j < lp.numCol_) :
    ipxColumn (fillInIpxData past_end lp obj col_lb col_ub Ap [] [] rhs constraint_type) j =
      ((origColumn lp j).filter (fun e => !rowIsFree lp e.1)).map
        (fun e => ((retainedBefore lp e.1 : Int), e.2)) := by
  have hl := hc.2.2.2.2.2.2.1
  have hu := hc.2.2.2.2.2.2.2
  rw [(fillInIpxData_matrix past_end lp obj col_lb col_ub Ap rhs constraint_type hc).1 j hj]
  apply List.map_congr_left
  intro e he
  have he2 := List.mem_filter.mp he
  have hfree : rowIsFree lp e.1 = false := by simpa using he2.2
  have hrow : e.1 < lp.numRow_ := by
    have h1 : e ∈ lp.Aindex_.zip lp.Avalue_ :=
      List.mem_of_mem_drop (List.mem_of_mem_take he2.1)
    have h2 : e.1 ∈ lp.Aindex_ := (List.of_mem_zip h1).1
    obtain ⟨k, hk, hke⟩ := List.getElem_of_mem h2
    have h3 := hc.2.2.2.2.2.1 k hk
    unfold vget at h3
    rw [List.getD_eq_getElem?_getD, List.getElem?_eq_getElem hk, Option.getD_some, hke] at h3
    exact h3
  rw [reduced_rowmap_of_checked past_end lp hl hu m hm e.1 hrow, hfree]
  rfl

/-- The statement of `fillInIpxData_matrix_reduced_index` on `lpFreeBoxedFree`,
whose last row is free: the entry of the retained row 1 in column 0 is stored
with the reduced index 0. -/
theorem fillInIpxData_matrix_reduced_index_on_lpFreeBoxedFree :
    ConsistentMatrix lpFreeBoxedFree ∧
    buildRowmapChecked lpFreeBoxedFree.numRow_ (free_rows lpFreeBoxedFree) = some [-1, 0, -1] ∧
    retainedBefore lpFreeBoxedFree 1 = 0 ∧
    ipxColumn (fillInIpxData (fun _ => 1) lpFreeBoxedFree [] [] [] [] [] [] [] []) 0 =
      ((origColumn lpFreeBoxedFree 0).filter (fun e => !rowIsFree lpFreeBoxedFree e.1)).map
        (fun e => ((retainedBefore lpFreeBoxedFree e.1 : Int), e.2)) :=
  ⟨by decide, by decide, by decide,
    fillInIpxData_matrix_reduced_index (fun _ => 1) lpFreeBoxedFree [] [] [] [] [] []
      (by decide) [-1, 0, -1] (by decide) 0 (by decide)⟩

/-- C4 (failing input): `lpFreeFirst` has a consistent matrix; its column 0 has
the entries `(0, 1)` and `(1, 1)`, row 0 is free and row 1 is retained with
reduced index 0 (`num_row = 1`). At row 1 the loop of lines 89–97 reads
`free_rows[1]` past the end of the vector; when the memory there holds 1, row 1
keeps `−1` in `reduced_rowmap`, and line 135 stores the copied entry of row 1
with row index `−1`, not with its reduced index 0. When the memory holds 0 the
entry is stored with index 0. -/
theorem copied_entry_row_index_depends_on_memory_past_free_rows :
    ConsistentMatrix lpFreeFirst ∧
    origColumn lpFreeFirst 0 = [(0, Dbl.fin 1), (1, Dbl.fin 1)] ∧
    rowIsFree lpFreeFirst 0 = true ∧
    rowIsFree lpFreeFirst 1 = false ∧
    retainedBefore lpFreeFirst 1 = 0 ∧
    (fillInIpxData (fun _ => 1) lpFreeFirst [] [] [] [] [] [] [] []).num_row = 1 ∧
    (fillInIpxData (fun _ => 1) lpFreeFirst [] [] [] [] [] [] [] []).Ap = [0, 1] ∧
    (fillInIpxData (fun _ => 1) lpFreeFirst [] [] [] [] [] [] [] []).Ai = [-1] ∧
    ipxColumn (fillInIpxData (fun _ => 1) lpFreeFirst [] [] [] [] [] [] [] []) 0
      = [(-1, Dbl.fin 1)] ∧
    ipxColumn (fillInIpxData (fun _ => 0) lpFreeFirst [] [] [] [] [] [] [] []) 0
      = [(0, Dbl.fin 1)] := by
  decide

end IpxWrapper
